import Mathlib

/-! # traefik-manager-api: resource store and projection

A shallow embedding of the Go sources

* `internal/models/models.go` (namespace `models`),
* `internal/store/errors.go`, `internal/store/file.go` (namespace `store`),
* `internal/traefik/models.go` (namespace `traefik`, the output schema),
* `internal/api/handlers/*.go` (namespace `handlers`),
* `internal/middleware/auth.go`, `internal/api/server/server.go`,
  `internal/api/routes/routes.go` (namespaces `middleware`, `server`, `routes`),
* `internal/config/config.go` (namespace `config`),

followed by the theorems about them.

Conventions of the embedding.

* A Go slice is a `List`; the nil slice and the empty slice are both `[]`
  (`len` and `range` do not tell them apart), so a guard `xs != nil` around a
  `range xs` loop is the loop itself.
* A Go pointer to a struct that may be nil is an `Option`.
* A Go `map[string]T` is a `GoMap T`: an association list with pairwise
  distinct keys.  Go leaves the iteration order of a map unspecified; the
  order of the association list is one admissible order, and every theorem
  about the result of an iteration is stated through membership, counting or
  duplicate-freeness, never through positions.
* Every `FileStore` method holds the store's lock for its whole body, so a
  method is a function from the aggregate before the call to the returned
  values and the aggregate after it.  `triggerSave` only posts a signal to the
  persistence goroutine and does not touch the aggregate; it is left out.
* The content of the snapshot file is a JSON value.  `json.MarshalIndent`
  writes the aggregate record by record, by the struct tags of `models.go`;
  `json.Unmarshal` decodes a value into the document that `Load` applies:
  three keys, each left out, `null` or an object of records.  The JSON text
  (indentation, escaping, the spelling of numbers) is not part of the
  embedding.
* The process environment and the library calls of `LoadConfig` are the
  fields of `config.Environ`; `strconv.ParseBool` is written out.
-/

/-- A Go `map[string]α`. -/
abbrev GoMap (α : Type) := AList (fun _ : String => α)

/-- A decoded JSON value (Go `interface{}` as produced by `encoding/json`).
Numbers are kept as integers. -/
inductive JSONValue where
  | null
  | bool (b : Bool)
  | number (n : Int)
  | string (s : String)
  | array (xs : List JSONValue)
  | object (fields : List (String × JSONValue))

namespace JSONValue

/-- Go `m[key]` on a decoded JSON object.  The fields are listed in the order
of the body; `encoding/json` keeps the last value of a repeated key, and a
missing key reads as `null` (the nil interface). -/
def index (fields : List (String × JSONValue)) (key : String) : JSONValue :=
  match fields.reverse.find? (fun kv => kv.1 == key) with
  | some kv => kv.2
  | none => JSONValue.null

/-- Go type assertion `v.(string)`. -/
def asString : JSONValue → Option String
  | JSONValue.string s => some s
  | _ => none

/-- Go type assertion `v.([]interface{})`. -/
def asArray : JSONValue → Option (List JSONValue)
  | JSONValue.array xs => some xs
  | _ => none

/-- Go type assertion `v.(map[string]interface{})`. -/
def asObject : JSONValue → Option (List (String × JSONValue))
  | JSONValue.object fields => some fields
  | _ => none

end JSONValue

namespace models

/-- Go `models.Duration`, a string. -/
abbrev Duration := String

/-- Go `models.HealthCheck`. -/
structure HealthCheck where
  Scheme : String := ""
  Mode : String := ""
  Path : String := ""
  Method : String := ""
  Status : Int := 0
  Port : Int := 0
  Interval : Duration := ""
  Timeout : Duration := ""
  Hostname : String := ""
  FollowRedirects : Bool := false
  Headers : List (String × String) := []
  deriving DecidableEq, Repr

/-- Go `models.ResponseForwarding`. -/
structure ResponseForwarding where
  FlushInterval : Duration := ""
  deriving DecidableEq, Repr

/-- Go `models.StickyCookie`. -/
structure StickyCookie where
  Name : String := ""
  Secure : Bool := false
  HTTPOnly : Bool := false
  SameSite : String := ""
  MaxAge : Int := 0
  Path : String := ""
  deriving DecidableEq, Repr

/-- Go `models.Sticky`. -/
structure Sticky where
  Cookie : Option StickyCookie := none
  deriving DecidableEq, Repr

/-- Go `models.Server`. -/
structure Server where
  URL : String := ""
  Weight : Int := 0
  PreservePath : Bool := false
  deriving DecidableEq, Repr

/-- Go `models.LoadBalancerService`. -/
structure LoadBalancerService where
  Servers : List Server := []
  HealthCheck : Option HealthCheck := none
  PassHostHeader : Bool := false
  ResponseForwarding : Option ResponseForwarding := none
  ServersTransport : String := ""
  Sticky : Option Sticky := none
  deriving DecidableEq, Repr

/-- Go `models.WeightedServiceItem`, over the type `S` of services. -/
structure WeightedServiceItemOf (S : Type) where
  Name : S
  Weight : Int := 0

/-- Go `models.WeightedService`, over the type `S` of services. -/
structure WeightedServiceOf (S : Type) where
  Services : List (WeightedServiceItemOf S) := []
  Sticky : Option Sticky := none
  HealthCheck : Option HealthCheck := none

/-- Go `models.MirrorServiceItem`, over the type `S` of services. -/
structure MirrorServiceItemOf (S : Type) where
  Name : S
  Percent : Int := 0

/-- Go `models.MirroringService`, over the type `S` of services. -/
structure MirroringServiceOf (S : Type) where
  Service : S
  MirrorBody : Bool := false
  MaxBodySize : Int := 0
  Mirrors : List (MirrorServiceItemOf S) := []
  HealthCheck : Option HealthCheck := none

/-- Go `models.FailoverService`, over the type `S` of services. -/
structure FailoverServiceOf (S : Type) where
  Service : S
  Fallback : S
  HealthCheck : Option HealthCheck := none

/-- Go `models.Service`: the five forms are optional sibling fields. -/
structure Service where
  ID : String
  ServiceType : String
  URL : String
  LoadBalancer : Option LoadBalancerService
  Weighted : Option (WeightedServiceOf Service)
  Mirroring : Option (MirroringServiceOf Service)
  Failover : Option (FailoverServiceOf Service)

/-- Go composite literal `models.Service{ID: id}`: every other field has its
zero value. -/
def Service.ofID (id : String) : Service :=
  { ID := id, ServiceType := "", URL := "", LoadBalancer := none, Weighted := none,
    Mirroring := none, Failover := none }

/-- Go `models.WeightedServiceItem`. -/
abbrev WeightedServiceItem := WeightedServiceItemOf Service
/-- Go `models.WeightedService`. -/
abbrev WeightedService := WeightedServiceOf Service
/-- Go `models.MirrorServiceItem`. -/
abbrev MirrorServiceItem := MirrorServiceItemOf Service
/-- Go `models.MirroringService`. -/
abbrev MirroringService := MirroringServiceOf Service
/-- Go `models.FailoverService`. -/
abbrev FailoverService := FailoverServiceOf Service

/-- Go `models.MiddlewareConfig`, an `interface{}`. -/
abbrev MiddlewareConfig := JSONValue

/-- Go `models.Middleware` (the field `Type` is spelled `Type_`). -/
structure Middleware where
  ID : String := ""
  Type_ : String := ""
  Config : MiddlewareConfig := JSONValue.null

/-- Go `models.Domain`. -/
structure Domain where
  Main : String := ""
  Sans : List String := []
  deriving DecidableEq, Repr

/-- Go `models.RouterTLS`. -/
structure RouterTLS where
  Options : String := ""
  CertResolver : String := ""
  Domains : List Domain := []
  deriving DecidableEq, Repr

/-- Go `models.Observability`. -/
structure Observability where
  AccessLogs : Bool := false
  Tracing : Bool := false
  Metrics : Bool := false
  deriving DecidableEq, Repr

/-- Go `models.Router`. -/
structure Router where
  ID : String := ""
  EntryPoints : List String := []
  Middlewares : List Middleware := []
  Service : Service := Service.ofID ""
  Rule : String := ""
  RuleSyntax : String := ""
  Priority : Int := 0
  TLS : Option RouterTLS := none
  Observability : Option Observability := none

end models

namespace store

/-- Go `store.Dependency`. -/
structure Dependency where
  ResourceType : String
  ID : String
  Field : String
  deriving DecidableEq, Repr

/-- Go `error` values of package `store`: the sentinels of `errors.go`, a
`*DependencyError`, and the values built by `fmt.Errorf` in `file.go`, without
(`errorf`) and with (`wrap`) a `%w` verb.  `errorf` and `wrap` carry the
formatted message. -/
inductive Error where
  | ErrNotFound
  | ErrAlreadyExists
  | ErrResourceInUse
  | ErrInvalidConfig
  | ErrInternalError
  | ErrInvalidID
  | DependencyError (ResourceType ResourceID : String) (Dependencies : List Dependency)
  | errorf (msg : String)
  | wrap (inner : Error) (msg : String)
  deriving DecidableEq, Repr

namespace Error

/-- Go `err.Error()`, the message of an error. -/
def Message : Error → String
  | ErrNotFound => "resource not found"
  | ErrAlreadyExists => "resource already exists"
  | ErrResourceInUse => "resource is in use by other resources"
  | ErrInvalidConfig => "invalid configuration"
  | ErrInternalError => "internal store error"
  | ErrInvalidID => "invalid resource ID"
  | DependencyError t id deps =>
      t ++ " '" ++ id ++ "' is in use by " ++ toString deps.length ++ " other resources"
  | errorf msg => msg
  | wrap _ msg => msg

/-- Go `errors.Is(err, target)` for a sentinel `target`: `err` is `target`, or
wraps (through `%w`) an error that is. -/
def Is : Error → Error → Bool
  | wrap inner msg, target => (wrap inner msg == target) || Is inner target
  | err, target => err == target

end Error

/-- Go `fmt.Sprintf("%s", xs)` for a `[]string`: the elements separated by one
blank, in square brackets. -/
def sprintStrings (xs : List String) : String :=
  "[" ++ " ".intercalate xs ++ "]"

/-- Go `store.IsNotFound`. -/
def IsNotFound (err : Error) : Bool := err.Is Error.ErrNotFound

/-- Go `store.IsAlreadyExists`. -/
def IsAlreadyExists (err : Error) : Bool := err.Is Error.ErrAlreadyExists

/-- Go `store.IsDependencyError`: a type assertion on the error itself. -/
def IsDependencyError : Error → Bool
  | Error.DependencyError _ _ _ => true
  | _ => false

/-- Go `store.IsResourceInUse`. -/
def IsResourceInUse (err : Error) : Bool :=
  err.Is Error.ErrResourceInUse || IsDependencyError err

/-- Go `store.storeData`, the whole aggregate. -/
structure storeData where
  Middlewares : GoMap models.Middleware
  Routers : GoMap models.Router
  Services : GoMap models.Service

/-- Go `store.FileStore`, reduced to the aggregate `data` its methods read and
write under the lock. -/
abbrev FileStore := storeData

/-- The aggregate built by `NewFileStore` when no snapshot file exists: three
empty maps. -/
def NewFileStore : FileStore :=
  { Middlewares := ∅, Routers := ∅, Services := ∅ }

namespace FileStore

/-- Go `FileStore.ListMiddlewares`. -/
def ListMiddlewares (s : FileStore) : List models.Middleware :=
  s.Middlewares.entries.map (fun e => e.2)

/-- Go `FileStore.GetMiddleware`. -/
def GetMiddleware (s : FileStore) (id : String) : Except Error models.Middleware :=
  match s.Middlewares.lookup id with
  | none => Except.error Error.ErrNotFound
  | some middleware => Except.ok middleware

/-- Go `FileStore.CreateMiddleware`. -/
def CreateMiddleware (s : FileStore) (middleware : models.Middleware) :
    Option Error × FileStore :=
  if (s.Middlewares.lookup middleware.ID).isSome then
    (some Error.ErrAlreadyExists, s)
  else
    (none, { s with Middlewares := s.Middlewares.insert middleware.ID middleware })

/-- Go `FileStore.UpdateMiddleware`. -/
def UpdateMiddleware (s : FileStore) (id : String) (middleware : models.Middleware) :
    Option Error × FileStore :=
  if (s.Middlewares.lookup id).isNone then
    (some Error.ErrNotFound, s)
  else
    let middleware := { middleware with ID := id }
    (none, { s with Middlewares := s.Middlewares.insert id middleware })

/-- Go `FileStore.middlewareInUse`: the scan of the routers map. -/
def middlewareInUse (s : FileStore) (id : String) : Bool × List String :=
  let usedBy := (s.Routers.entries.filter
    (fun e => e.2.Middlewares.any (fun mw => mw.ID == id))).map (fun e => "router:" ++ e.1)
  (decide (usedBy.length > 0), usedBy)

/-- Go `FileStore.MiddlewareInUse`. -/
def MiddlewareInUse (s : FileStore) (id : String) : Bool × List String :=
  middlewareInUse s id

/-- Go `FileStore.DeleteMiddleware`. -/
def DeleteMiddleware (s : FileStore) (id : String) : Option Error × FileStore :=
  if (s.Middlewares.lookup id).isNone then
    (some Error.ErrNotFound, s)
  else if (middlewareInUse s id).1 then
    (some Error.ErrResourceInUse, s)
  else
    (none, { s with Middlewares := s.Middlewares.erase id })

/-- Go `FileStore.MiddlewareExists`. -/
def MiddlewareExists (s : FileStore) (id : String) : Bool :=
  (s.Middlewares.lookup id).isSome

/-- Go `FileStore.ListRouters`. -/
def ListRouters (s : FileStore) : List models.Router :=
  s.Routers.entries.map (fun e => e.2)

/-- Go `FileStore.GetRouter`. -/
def GetRouter (s : FileStore) (id : String) : Except Error models.Router :=
  match s.Routers.lookup id with
  | none => Except.error Error.ErrNotFound
  | some router => Except.ok router

/-- Go `FileStore.CreateRouter`. -/
def CreateRouter (s : FileStore) (router : models.Router) : Option Error × FileStore :=
  if (s.Routers.lookup router.ID).isSome then
    (some Error.ErrAlreadyExists, s)
  else if (s.Services.lookup router.Service.ID).isNone then
    (some (Error.errorf ("service " ++ router.Service.ID ++ " not found")), s)
  else
    match router.Middlewares.find? (fun mw => (s.Middlewares.lookup mw.ID).isNone) with
    | some mw => (some (Error.errorf ("middleware " ++ mw.ID ++ " not found")), s)
    | none => (none, { s with Routers := s.Routers.insert router.ID router })

/-- Go `FileStore.DeleteRouter`. -/
def DeleteRouter (s : FileStore) (id : String) : Option Error × FileStore :=
  if (s.Routers.lookup id).isNone then
    (some Error.ErrNotFound, s)
  else
    (none, { s with Routers := s.Routers.erase id })

/-- Go `FileStore.RouterExists`. -/
def RouterExists (s : FileStore) (id : String) : Bool :=
  (s.Routers.lookup id).isSome

/-- Go `FileStore.RouterInUse`: constant, whatever the store and the id. -/
def RouterInUse (_s : FileStore) (_id : String) : Bool × List String :=
  (false, [])

/-- Go `FileStore.ListServices`. -/
def ListServices (s : FileStore) : List models.Service :=
  s.Services.entries.map (fun e => e.2)

/-- Go `FileStore.GetService`. -/
def GetService (s : FileStore) (id : String) : Except Error models.Service :=
  match s.Services.lookup id with
  | none => Except.error Error.ErrNotFound
  | some service => Except.ok service

/-- Go `FileStore.CreateService`. -/
def CreateService (s : FileStore) (service : models.Service) : Option Error × FileStore :=
  if (s.Services.lookup service.ID).isSome then
    (some Error.ErrAlreadyExists, s)
  else
    (none, { s with Services := s.Services.insert service.ID service })

/-- Go `FileStore.UpdateService`. -/
def UpdateService (s : FileStore) (id : String) (service : models.Service) :
    Option Error × FileStore :=
  if (s.Services.lookup id).isNone then
    (some Error.ErrNotFound, s)
  else
    let service := { service with ID := id }
    (none, { s with Services := s.Services.insert id service })

/-- Go `FileStore.serviceInUse`: the scan of the routers map. -/
def serviceInUse (s : FileStore) (id : String) : Bool × List String :=
  let usedBy := (s.Routers.entries.filter
    (fun e => e.2.Service.ID == id)).map (fun e => "router:" ++ e.1)
  (decide (usedBy.length > 0), usedBy)

/-- Go `FileStore.ServiceInUse`. -/
def ServiceInUse (s : FileStore) (id : String) : Bool × List String :=
  serviceInUse s id

/-- Go `FileStore.DeleteService`. -/
def DeleteService (s : FileStore) (id : String) : Option Error × FileStore :=
  if (s.Services.lookup id).isNone then
    (some Error.ErrNotFound, s)
  else if (serviceInUse s id).1 then
    (some (Error.wrap Error.ErrResourceInUse
      (Error.ErrResourceInUse.Message ++ ": " ++ sprintStrings (serviceInUse s id).2)), s)
  else
    (none, { s with Services := s.Services.erase id })

/-- Go `FileStore.ServiceExists`. -/
def ServiceExists (s : FileStore) (id : String) : Bool :=
  (s.Services.lookup id).isSome

/-- Go `FileStore.UpdateRouter`.  The source branches on
`router.Service.ID != ""`: in the true branch it returns the `service ... not
found` error when the service is missing, in the false branch it assigns
`router.Service = existingRouter.Service`.  Here the first `if` is the error
return of the true branch, and the `let` that follows is the assignment of the
false branch; the middleware loop and the map write come after both, as in
the source. -/
def UpdateRouter (s : FileStore) (id : String) (router : models.Router) :
    Option Error × FileStore :=
  match s.Routers.lookup id with
  | none => (some Error.ErrNotFound, s)
  | some existingRouter =>
    if router.Service.ID != "" && (s.Services.lookup router.Service.ID).isNone then
      (some (Error.errorf ("service " ++ router.Service.ID ++ " not found")), s)
    else
      let router :=
        if router.Service.ID != "" then router
        else { router with Service := existingRouter.Service }
      match router.Middlewares.find? (fun mw => (s.Middlewares.lookup mw.ID).isNone) with
      | some mw => (some (Error.errorf ("middleware " ++ mw.ID ++ " not found")), s)
      | none =>
        let router := { router with ID := id }
        (none, { s with Routers := s.Routers.insert id router })

end FileStore

end store

namespace store

/-- One mutating call on a `FileStore`, with its arguments. -/
inductive Op where
  | CreateMiddleware (middleware : models.Middleware)
  | UpdateMiddleware (id : String) (middleware : models.Middleware)
  | DeleteMiddleware (id : String)
  | CreateRouter (router : models.Router)
  | UpdateRouter (id : String) (router : models.Router)
  | DeleteRouter (id : String)
  | CreateService (service : models.Service)
  | UpdateService (id : String) (service : models.Service)
  | DeleteService (id : String)

/-- The call `op` made on the store `s`: the returned error and the store
after the call. -/
def Op.call (s : FileStore) : Op → Option Error × FileStore
  | Op.CreateMiddleware middleware => FileStore.CreateMiddleware s middleware
  | Op.UpdateMiddleware id middleware => FileStore.UpdateMiddleware s id middleware
  | Op.DeleteMiddleware id => FileStore.DeleteMiddleware s id
  | Op.CreateRouter router => FileStore.CreateRouter s router
  | Op.UpdateRouter id router => FileStore.UpdateRouter s id router
  | Op.DeleteRouter id => FileStore.DeleteRouter s id
  | Op.CreateService service => FileStore.CreateService s service
  | Op.UpdateService id service => FileStore.UpdateService s id service
  | Op.DeleteService id => FileStore.DeleteService s id

/-- The store after the calls `ops`, made one after the other on `s`, each one
succeeding or failing. -/
def run (s : FileStore) (ops : List Op) : FileStore :=
  ops.foldl (fun acc op => (op.call acc).2) s

end store

namespace traefik

/-- Go `traefik.HealthCheck`. -/
structure HealthCheck where
  Scheme : String := ""
  Mode : String := ""
  Path : String := ""
  Method : String := ""
  Status : Int := 0
  Port : Int := 0
  Interval : String := ""
  Timeout : String := ""
  Hostname : String := ""
  FollowRedirects : Option Bool := none
  Headers : List (String × String) := []
  deriving DecidableEq, Repr

/-- Go `traefik.ResponseForwarding`. -/
structure ResponseForwarding where
  FlushInterval : String := ""
  deriving DecidableEq, Repr

/-- Go `traefik.StickyCooke` (spelled so in the source). -/
structure StickyCooke where
  Name : String := ""
  Secure : Option Bool := none
  HTTPOnly : Option Bool := none
  SameSite : String := ""
  MaxAge : Int := 0
  Path : String := ""
  deriving DecidableEq, Repr

/-- Go `traefik.Sticky`. -/
structure Sticky where
  Cookie : Option StickyCooke := none
  deriving DecidableEq, Repr

/-- Go `traefik.Server`. -/
structure Server where
  URL : String := ""
  Weight : Option Int := none
  PreservePath : Option Bool := none
  deriving DecidableEq, Repr

/-- Go `traefik.LoadBalancerService`. -/
structure LoadBalancerService where
  Servers : List Server := []
  HealthCheck : Option HealthCheck := none
  PassHostHeader : Option Bool := none
  ResponseForwarding : Option ResponseForwarding := none
  ServersTransport : String := ""
  Sticky : Option Sticky := none
  deriving DecidableEq, Repr

/-- Go `traefik.WeightedServiceItem`. -/
structure WeightedServiceItem where
  Name : String := ""
  Weight : Int := 0
  deriving DecidableEq, Repr

/-- Go `traefik.WeightedService`. -/
structure WeightedService where
  Services : List WeightedServiceItem := []
  Sticky : Option Sticky := none
  HealthCheck : Option HealthCheck := none
  deriving DecidableEq, Repr

/-- Go `traefik.MirrorServiceItem`. -/
structure MirrorServiceItem where
  Name : String := ""
  Percent : Int := 0
  deriving DecidableEq, Repr

/-- Go `traefik.MirroringService`. -/
structure MirroringService where
  Service : String := ""
  MirrorBody : Option Bool := none
  MaxBodySize : Option Int := none
  Mirrors : List MirrorServiceItem := []
  HealthCheck : Option HealthCheck := none
  deriving DecidableEq, Repr

/-- Go `traefik.FailoverService`. -/
structure FailoverService where
  Service : String := ""
  Fallback : String := ""
  HealthCheck : Option HealthCheck := none
  deriving DecidableEq, Repr

/-- Go `traefik.Service`. -/
structure Service where
  LoadBalancer : Option LoadBalancerService := none
  Weighted : Option WeightedService := none
  Mirroring : Option MirroringService := none
  Failover : Option FailoverService := none
  URL : String := ""
  deriving DecidableEq, Repr

end traefik

namespace handlers

open store

/-- Go `convertHealthCheck`. -/
def convertHealthCheck : Option models.HealthCheck → Option traefik.HealthCheck
  | none => none
  | some healthCheck =>
    some
      { Scheme := healthCheck.Scheme
        Mode := healthCheck.Mode
        Path := healthCheck.Path
        Method := healthCheck.Method
        Status := healthCheck.Status
        Port := healthCheck.Port
        Interval := healthCheck.Interval
        Timeout := healthCheck.Timeout
        Hostname := healthCheck.Hostname
        Headers := healthCheck.Headers
        FollowRedirects := some (if healthCheck.FollowRedirects then true else false) }

/-- Go `convertSticky`. -/
def convertSticky : Option models.Sticky → Option traefik.Sticky
  | none => none
  | some sticky =>
    match sticky.Cookie with
    | none => none
    | some cookie =>
      some
        { Cookie := some
            { Name := cookie.Name
              Path := cookie.Path
              SameSite := cookie.SameSite
              MaxAge := cookie.MaxAge
              Secure := some (if cookie.Secure then true else false)
              HTTPOnly := some (if cookie.HTTPOnly then true else false) } }

/-- Go `convertService`: the five `if` blocks in source order, each ending in
`return`. -/
def convertService (service : models.Service) : traefik.Service :=
  if service.URL != "" then
    { LoadBalancer := some { Servers := [{ URL := service.URL }] } }
  else
    match service.LoadBalancer with
    | some lb =>
      { LoadBalancer := some
          { ServersTransport := lb.ServersTransport
            Servers := lb.Servers.map (fun (server : models.Server) =>
              ({ URL := server.URL
                 Weight := some (if server.Weight > 0 then server.Weight else 1)
                 PreservePath := some (if server.PreservePath then true else false) } :
                traefik.Server))
            HealthCheck :=
              match lb.HealthCheck with
              | some hc => convertHealthCheck (some hc)
              | none => none
            Sticky :=
              match lb.Sticky with
              | some st => convertSticky (some st)
              | none => none
            PassHostHeader := some true
            ResponseForwarding :=
              match lb.ResponseForwarding with
              | some rf => some { FlushInterval := rf.FlushInterval }
              | none => none } }
    | none =>
      match service.Weighted with
      | some w =>
        { Weighted := some
            { Services := w.Services.map (fun (item : models.WeightedServiceItem) =>
                ({ Name := item.Name.ID, Weight := item.Weight } :
                  traefik.WeightedServiceItem))
              HealthCheck :=
                match w.HealthCheck with
                | some hc => convertHealthCheck (some hc)
                | none => none
              Sticky :=
                match w.Sticky with
                | some st => convertSticky (some st)
                | none => none } }
      | none =>
        match service.Mirroring with
        | some m =>
          { Mirroring := some
              { Service := m.Service.ID
                MirrorBody := some (if m.MirrorBody then true else true)
                MaxBodySize := if m.MaxBodySize > 0 then some m.MaxBodySize else none
                Mirrors := m.Mirrors.map (fun (mirror : models.MirrorServiceItem) =>
                  ({ Name := mirror.Name.ID, Percent := mirror.Percent } :
                    traefik.MirrorServiceItem))
                HealthCheck :=
                  match m.HealthCheck with
                  | some hc => convertHealthCheck (some hc)
                  | none => none } }
        | none =>
          match service.Failover with
          | some f =>
            { Failover := some
                { Service := f.Service.ID
                  Fallback := f.Fallback.ID
                  HealthCheck :=
                    match f.HealthCheck with
                    | some hc => convertHealthCheck (some hc)
                    | none => none } }
          | none => {}

/-- Go `validateServiceConfiguration`: `none` for a nil error, otherwise the
error's message. -/
def validateServiceConfiguration (service : models.Service) : Option String :=
  if service.URL != "" then none
  else
    match service.LoadBalancer with
    | some lb =>
      if lb.Servers.length == 0 then
        some "load balancer service must have at least one server"
      else if lb.Servers.any (fun server => server.URL == "") then
        some "server URL is required for load balancer servers"
      else none
    | none =>
      match service.Weighted with
      | some w =>
        if w.Services.length == 0 then
          some "weighted service must have at least one service"
        else none
      | none =>
        match service.Mirroring with
        | some m =>
          if m.Service.ID == "" then
            some "main service ID is required for mirroring service"
          else none
        | none =>
          match service.Failover with
          | some f =>
            if f.Service.ID == "" then
              some "main service ID is required for failover service"
            else if f.Fallback.ID == "" then
              some "fallback service ID is required for failover service"
            else none
          | none =>
            some ("service must have either URL, LoadBalancer, Weighted, Mirroring, " ++
              "or Failover configuration")

/-- What a handler writes with `c.JSON(status, body)`. -/
structure Response where
  status : Nat
  body : JSONValue

/-- The body `map[string]string{"error": msg}`. -/
def errorBody (msg : String) : JSONValue :=
  JSONValue.object [("error", JSONValue.string msg)]

/-- The JSON form of a `models.ResourceResponse`. -/
def resourceResponse (id : String) (created updated deleted : Bool) : JSONValue :=
  JSONValue.object
    [("id", JSONValue.string id), ("created", JSONValue.bool created),
     ("updated", JSONValue.bool updated), ("deleted", JSONValue.bool deleted)]

/-- Go `MiddlewareHandler.Update` for `PUT /middlewares/:id`.  `id` is the path
parameter; `bound` is the result of `c.Bind(&middleware)`, `none` when binding
fails and otherwise the decoded body (an omitted `id` decodes to `""`). -/
def MiddlewareHandler.Update (s : FileStore) (id : String)
    (bound : Option models.Middleware) : Response × FileStore :=
  match bound with
  | none => ({ status := 400, body := errorBody "Invalid middleware data" }, s)
  | some middleware =>
    if middleware.ID != "" && middleware.ID != id then
      ({ status := 400, body := errorBody "ID in path must match ID in body" }, s)
    else
      let middleware := if middleware.ID == "" then { middleware with ID := id } else middleware
      if !(FileStore.MiddlewareExists s id) then
        ({ status := 404, body := errorBody "Middleware not found" }, s)
      else
        match FileStore.UpdateMiddleware s id middleware with
        | (some _, s') => ({ status := 500, body := errorBody "Failed to update middleware" }, s')
        | (none, s') => ({ status := 200, body := resourceResponse id false true false }, s')

/-- Go `ServiceHandler.Update` for `PUT /services/:id`, with `id` and `bound` as
for `MiddlewareHandler.Update`. -/
def ServiceHandler.Update (s : FileStore) (id : String)
    (bound : Option models.Service) : Response × FileStore :=
  match bound with
  | none => ({ status := 400, body := errorBody "Invalid service data" }, s)
  | some service =>
    if service.ID != "" && service.ID != id then
      ({ status := 400, body := errorBody "ID in path must match ID in body" }, s)
    else
      let service := if service.ID == "" then { service with ID := id } else service
      match validateServiceConfiguration service with
      | some msg => ({ status := 400, body := errorBody msg }, s)
      | none =>
        if !(FileStore.ServiceExists s id) then
          ({ status := 404, body := errorBody "Service not found" }, s)
        else
          match FileStore.UpdateService s id service with
          | (some _, s') => ({ status := 500, body := errorBody "Failed to update service" }, s')
          | (none, s') => ({ status := 200, body := resourceResponse id false true false }, s')

/-- The `service` field of a router body: a bare ID string or an object with a
string `id`; anything else leaves the zero `models.Service`. -/
def parseServiceField (serviceField : JSONValue) : models.Service :=
  match serviceField with
  | JSONValue.string serviceID => models.Service.ofID serviceID
  | JSONValue.object serviceMap =>
    match (JSONValue.index serviceMap "id").asString with
    | some serviceID => models.Service.ofID serviceID
    | none => models.Service.ofID ""
  | _ => models.Service.ofID ""

/-- The `middlewares` field of a router body: each element that is a string, or
an object with a string `id`, appends one `models.Middleware{ID: ...}`. -/
def parseMiddlewaresField (middlewaresField : JSONValue) : List models.Middleware :=
  match middlewaresField.asArray with
  | none => []
  | some elems =>
    elems.filterMap (fun mw =>
      match mw with
      | JSONValue.string mwID => some ({ ID := mwID } : models.Middleware)
      | JSONValue.object mwMap =>
        match (JSONValue.index mwMap "id").asString with
        | some mwID => some ({ ID := mwID } : models.Middleware)
        | none => none
      | _ => none)

/-- The `entryPoints` field of a router body: one string per array element, the
empty string for an element that is not a string. -/
def parseEntryPointsField (entryPointsField : JSONValue) : List String :=
  match entryPointsField.asArray with
  | none => []
  | some elems => elems.map (fun ep => (ep.asString).getD "")

/-- Go `RouterHandler.Update` for `PUT /routers/:id`.  `id` is the path
parameter; `bound` is the result of `c.Bind(&requestData)` into a
`map[string]interface{}`, `none` when binding fails.  The router is built from
the path ID and the body's `rule`, `entryPoints`, `service` and `middlewares`;
no other key of the body is read. -/
def RouterHandler.Update (s : FileStore) (id : String)
    (bound : Option (List (String × JSONValue))) : Response × FileStore :=
  match bound with
  | none => ({ status := 400, body := errorBody "Invalid router data" }, s)
  | some requestData =>
    let router : models.Router :=
      { ID := id
        Rule := ((JSONValue.index requestData "rule").asString).getD ""
        EntryPoints := parseEntryPointsField (JSONValue.index requestData "entryPoints")
        Service := parseServiceField (JSONValue.index requestData "service")
        Middlewares := parseMiddlewaresField (JSONValue.index requestData "middlewares") }
    if router.Rule == "" then
      ({ status := 400, body := errorBody "Router rule is required" }, s)
    else
      match FileStore.UpdateRouter s id router with
      | (some err, s') =>
        if IsNotFound err then
          ({ status := 404, body := errorBody "Router not found" }, s')
        else
          ({ status := 400, body := errorBody err.Message }, s')
      | (none, s') => ({ status := 200, body := resourceResponse id false true false }, s')

end handlers

namespace store

/-- Referential integrity of a store: every stored router's service ID and
middleware IDs are keys of the services and middlewares maps. -/
def RefsOK (s : FileStore) : Prop :=
  ∀ id r, s.Routers.lookup id = some r →
    r.Service.ID ∈ s.Services ∧ ∀ mw ∈ r.Middlewares, mw.ID ∈ s.Middlewares

/-- Every record of a store is stored under its own ID. -/
def KeysOK (s : FileStore) : Prop :=
  (∀ id m, s.Middlewares.lookup id = some m → m.ID = id) ∧
  (∀ id r, s.Routers.lookup id = some r → r.ID = id) ∧
  (∀ id v, s.Services.lookup id = some v → v.ID = id)

end store

namespace Sample

open store models

/-- A URL-form service `s1`. -/
def service : Service := { Service.ofID "s1" with URL := "http://b:80" }

/-- A middleware `m1`. -/
def middleware : Middleware := { ID := "m1", Type_ := "stripPrefix" }

/-- A router `r1` that uses `s1` and lists `m1` twice. -/
def router : Router :=
  { ID := "r1", Rule := "Host(a)", Service := Service.ofID "s1",
    Middlewares := [{ ID := "m1" }, { ID := "m1" }] }

/-- The calls that create `s1` and `m1`. -/
def setupOps : List Op := [Op.CreateService service, Op.CreateMiddleware middleware]

/-- The calls that create `s1`, `m1` and then `r1`. -/
def ops : List Op := setupOps ++ [Op.CreateRouter router]

/-- The store holding `s1` and `m1` and no router. -/
def setupStore : FileStore := run NewFileStore setupOps

/-- The store holding `s1`, `m1` and `r1`. -/
def fullStore : FileStore := run NewFileStore ops

/-- An update body for `r1` with another ID, no service and no middlewares. -/
def routerUpdate : Router := { ID := "zz", Rule := "Host(b)" }

/-- The decoded body of a `PUT /routers/r1` that carries the id `r2`. -/
def putRouterBody : List (String × JSONValue) :=
  [("id", JSONValue.string "r2"), ("rule", JSONValue.string "Host(b)"),
   ("service", JSONValue.string "s1")]

/-- A service with both a URL and a failover block. -/
def twoFormService : Service :=
  { Service.ofID "s2" with
    URL := "http://b:80"
    Failover := some { Service := Service.ofID "a", Fallback := Service.ofID "b" } }

end Sample

namespace JSONValue

/-- Go type assertion `v.(bool)`. -/
def asBool : JSONValue → Option Bool
  | JSONValue.bool b => some b
  | _ => none

end JSONValue

namespace traefik

/-- Go `traefik.Domain`. -/
structure Domain where
  Main : String := ""
  Sans : List String := []
  deriving DecidableEq

/-- Go `traefik.RouterTLS`. -/
structure RouterTLS where
  Options : String := ""
  CertResolver : String := ""
  Domains : List Domain := []
  deriving DecidableEq

/-- Go `traefik.Observability`. -/
structure Observability where
  AccessLogs : Bool := false
  Tracing : Bool := false
  Metrics : Bool := false
  deriving DecidableEq

/-- Go `traefik.Router`. -/
structure Router where
  EntryPoints : List String := []
  Middlewares : List String := []
  Service : String := ""
  Rule : String := ""
  Priority : Int := 0
  TLS : Option RouterTLS := none
  Observability : Option Observability := none
  deriving DecidableEq

/-- Go `traefik.AddPrefixConfig`. -/
structure AddPrefixConfig where
  Prefix : String := ""
  deriving DecidableEq

/-- Go `traefik.BasicAuthConfig`. -/
structure BasicAuthConfig where
  Users : List String := []
  UsersFile : String := ""
  Realm : String := ""
  RemoveHeader : Option Bool := none
  HeaderField : String := ""
  deriving DecidableEq

/-- Go `traefik.BufferingConfig`. -/
structure BufferingConfig where
  MaxRequestBodyBytes : Int := 0
  MemRequestBodyBytes : Int := 0
  MaxResponseBodyBytes : Int := 0
  MemResponseBodyBytes : Int := 0
  RetryExpression : String := ""
  deriving DecidableEq

/-- Go `traefik.ChainConfig`. -/
structure ChainConfig where
  Middlewares : List String := []
  deriving DecidableEq

/-- Go `traefik.CircuitBreakerConfig`. -/
structure CircuitBreakerConfig where
  Expression : String := ""
  CheckPeriod : String := ""
  FallbackDuration : String := ""
  RecoveryDuration : String := ""
  ResponseCode : Int := 0
  deriving DecidableEq

/-- Go `traefik.CompressConfig`. -/
structure CompressConfig where
  ExcludedContentTypes : List String := []
  IncludedContentTypes : List String := []
  MinResponseBodyBytes : Int := 0
  Encodings : List String := []
  DefaultEncoding : String := ""
  deriving DecidableEq

/-- Go `traefik.ContentTypeConfig`. -/
structure ContentTypeConfig where
  AutoDetect : Bool := false
  deriving DecidableEq

/-- Go `traefik.DigestAuthConfig`. -/
structure DigestAuthConfig where
  Users : List String := []
  UsersFile : String := ""
  RemoveHeader : Bool := false
  Realm : String := ""
  HeaderField : String := ""
  deriving DecidableEq

/-- Go `traefik.ErrorsConfig`. -/
structure ErrorsConfig where
  Status : List String := []
  Service : String := ""
  Query : String := ""
  deriving DecidableEq

/-- Go `traefik.ForwardAuthTLS`. -/
structure ForwardAuthTLS where
  CA : String := ""
  Cert : String := ""
  Key : String := ""
  InsecureSkipVerify : Bool := false
  CAOptional : Bool := false
  deriving DecidableEq

/-- Go `traefik.ForwardAuthConfig`. -/
structure ForwardAuthConfig where
  Address : String := ""
  TLS : Option ForwardAuthTLS := none
  TrustForwardHeader : Bool := false
  AuthResponseHeaders : List String := []
  AuthResponseHeadersRegex : String := ""
  AuthRequestHeaders : List String := []
  AddAuthCookiesToResponse : List String := []
  HeaderField : String := ""
  ForwardBody : Bool := false
  MaxBodySize : Int := 0
  PreserveLocationHeader : Bool := false
  deriving DecidableEq

/-- Go `traefik.GrpcWebConfig`. -/
structure GrpcWebConfig where
  AllowOrigins : List String := []
  deriving DecidableEq

/-- Go `traefik.HeadersConfig`. -/
structure HeadersConfig where
  CustomRequestHeaders : List (String × String) := []
  CustomResponseHeaders : List (String × String) := []
  AccessControlAllowCredentials : Bool := false
  AccessControlAllowHeaders : List String := []
  AccessControlAllowMethods : List String := []
  AccessControlAllowOriginList : List String := []
  AccessControlAllowOriginListRegex : List String := []
  AccessControlExposeHeaders : List String := []
  AccessControlMaxAge : Int := 0
  AddVaryHeader : Bool := false
  AllowedHosts : List String := []
  HostsProxyHeaders : List String := []
  SSLProxyHeaders : List (String × String) := []
  STSSeconds : Int := 0
  STSIncludeSubdomains : Bool := false
  STSPreload : Bool := false
  ForceSTSHeader : Bool := false
  FrameDeny : Bool := false
  CustomFrameOptionsValue : String := ""
  ContentTypeNosniff : Bool := false
  BrowserXSSFilter : Bool := false
  CustomBrowserXSSValue : String := ""
  ContentSecurityPolicy : String := ""
  ContentSecurityPolicyReportOnly : String := ""
  PublicKey : String := ""
  ReferrerPolicy : String := ""
  PermissionsPolicy : String := ""
  IsDevelopment : Bool := false
  FeaturePolicy : String := ""
  SSLRedirect : Bool := false
  SSLTemporaryRedirect : Bool := false
  SSLHost : String := ""
  SSLForceHost : Bool := false
  deriving DecidableEq

/-- Go `traefik.IPStrategy`. -/
structure IPStrategy where
  Depth : Int := 0
  ExcludedIPs : List String := []
  IPv6Subnet : Int := 0
  deriving DecidableEq

/-- Go `traefik.IPAllowListConfig`. -/
structure IPAllowListConfig where
  SourceRange : List String := []
  IPStrategy : Option IPStrategy := none
  RejectStatusCode : Int := 0
  deriving DecidableEq

/-- Go `traefik.IPWhiteListConfig`. -/
structure IPWhiteListConfig where
  SourceRange : List String := []
  IPStrategy : Option IPStrategy := none
  deriving DecidableEq

/-- Go `traefik.SourceCriterion`. -/
structure SourceCriterion where
  IPStrategy : Option IPStrategy := none
  RequestHeaderName : String := ""
  RequestHost : Bool := false
  deriving DecidableEq

/-- Go `traefik.InFlightReqConfig`. -/
structure InFlightReqConfig where
  Amount : Int := 0
  SourceCriterion : Option SourceCriterion := none
  deriving DecidableEq

/-- Go `traefik.ClientCertSubject`. -/
structure ClientCertSubject where
  Country : Bool := false
  Province : Bool := false
  Locality : Bool := false
  Organization : Bool := false
  OrganizationalUnit : Bool := false
  CommonName : Bool := false
  SerialNumber : Bool := false
  DomainComponent : Bool := false
  deriving DecidableEq

/-- Go `traefik.ClientCertIssuer`. -/
structure ClientCertIssuer where
  Country : Bool := false
  Province : Bool := false
  Locality : Bool := false
  Organization : Bool := false
  CommonName : Bool := false
  SerialNumber : Bool := false
  DomainComponent : Bool := false
  deriving DecidableEq

/-- Go `traefik.ClientCertInfo`. -/
structure ClientCertInfo where
  NotAfter : Bool := false
  NotBefore : Bool := false
  Sans : Bool := false
  SerialNumber : Bool := false
  Subject : Option ClientCertSubject := none
  Issuer : Option ClientCertIssuer := none
  deriving DecidableEq

/-- Go `traefik.PassTLSClientCertConfig`. -/
structure PassTLSClientCertConfig where
  PEM : Bool := false
  Info : Option ClientCertInfo := none
  deriving DecidableEq

/-- Go `traefik.RateLimitConfig`. -/
structure RateLimitConfig where
  Average : Int := 0
  Period : String := ""
  Burst : Int := 0
  SourceCriterion : Option SourceCriterion := none
  deriving DecidableEq

/-- Go `traefik.RedirectRegexConfig`. -/
structure RedirectRegexConfig where
  Regex : String := ""
  Replacement : String := ""
  Permanent : Bool := false
  deriving DecidableEq

/-- Go `traefik.RedirectSchemeConfig`. -/
structure RedirectSchemeConfig where
  Scheme : String := ""
  Port : String := ""
  Permanent : Bool := false
  deriving DecidableEq

/-- Go `traefik.ReplacePathConfig`. -/
structure ReplacePathConfig where
  Path : String := ""
  deriving DecidableEq

/-- Go `traefik.ReplacePathRegexConfig`. -/
structure ReplacePathRegexConfig where
  Regex : String := ""
  Replacement : String := ""
  deriving DecidableEq

/-- Go `traefik.RetryConfig`. -/
structure RetryConfig where
  Attempts : Int := 0
  InitialInterval : String := ""
  deriving DecidableEq

/-- Go `traefik.StripPrefixConfig`. -/
structure StripPrefixConfig where
  Prefixes : List String := []
  ForceSlash : Bool := false
  deriving DecidableEq

/-- Go `traefik.StripPrefixRegexConfig`. -/
structure StripPrefixRegexConfig where
  Regex : List String := []
  deriving DecidableEq

/-- Go `traefik.Middleware`. -/
structure Middleware where
  AddPrefix : Option AddPrefixConfig := none
  BasicAuth : Option BasicAuthConfig := none
  Buffering : Option BufferingConfig := none
  Chain : Option ChainConfig := none
  CircuitBreaker : Option CircuitBreakerConfig := none
  Compress : Option CompressConfig := none
  ContentType : Option ContentTypeConfig := none
  DigestAuth : Option DigestAuthConfig := none
  Errors : Option ErrorsConfig := none
  ForwardAuth : Option ForwardAuthConfig := none
  GrpcWeb : Option GrpcWebConfig := none
  Headers : Option HeadersConfig := none
  IPAllowList : Option IPAllowListConfig := none
  IPWhiteList : Option IPWhiteListConfig := none
  InFlightReq : Option InFlightReqConfig := none
  PassTLSClientCert : Option PassTLSClientCertConfig := none
  Plugin : List (String × JSONValue) := []
  RateLimit : Option RateLimitConfig := none
  RedirectRegex : Option RedirectRegexConfig := none
  RedirectScheme : Option RedirectSchemeConfig := none
  ReplacePath : Option ReplacePathConfig := none
  ReplacePathRegex : Option ReplacePathRegexConfig := none
  Retry : Option RetryConfig := none
  StripPrefix : Option StripPrefixConfig := none
  StripPrefixRegex : Option StripPrefixRegexConfig := none

/-- Go `traefik.HTTPConfiguration`. -/
structure HTTPConfiguration where
  Routers : GoMap Router := ∅
  Services : GoMap Service := ∅
  Middlewares : GoMap Middleware := ∅

/-- Go `traefik.TCPRouterTLS`. -/
structure TCPRouterTLS where
  Passthrough : Bool := false
  Options : String := ""
  CertResolver : String := ""
  Domains : List Domain := []
  deriving DecidableEq

/-- Go `traefik.TCPRouter`. -/
structure TCPRouter where
  EntryPoints : List String := []
  Middlewares : List String := []
  Service : String := ""
  Rule : String := ""
  RuleSyntax : String := ""
  Priority : Int := 0
  TLS : Option TCPRouterTLS := none
  deriving DecidableEq

/-- Go `traefik.ProxyProtocol`. -/
structure ProxyProtocol where
  Version : Int := 0
  deriving DecidableEq

/-- Go `traefik.TCPServer`. -/
structure TCPServer where
  Address : String := ""
  TLS : Bool := false
  deriving DecidableEq

/-- Go `traefik.TCPLoadBalancerService`. -/
structure TCPLoadBalancerService where
  ProxyProtocol : Option ProxyProtocol := none
  Servers : List TCPServer := []
  ServersTransport : String := ""
  TerminationDelay : Int := 0
  deriving DecidableEq

/-- Go `traefik.TCPWeightedService`. -/
structure TCPWeightedService where
  Services : List WeightedServiceItem := []
  deriving DecidableEq

/-- Go `traefik.TCPService`. -/
structure TCPService where
  LoadBalancer : Option TCPLoadBalancerService := none
  Weighted : Option TCPWeightedService := none
  deriving DecidableEq

/-- Go `traefik.TCPIPAllowListConfig`. -/
structure TCPIPAllowListConfig where
  SourceRange : List String := []
  deriving DecidableEq

/-- Go `traefik.TCPIPWhiteListConfig`. -/
structure TCPIPWhiteListConfig where
  SourceRange : List String := []
  deriving DecidableEq

/-- Go `traefik.TCPInFlightConnConfig`. -/
structure TCPInFlightConnConfig where
  Amount : Int := 0
  deriving DecidableEq

/-- Go `traefik.TCPMiddleware`. -/
structure TCPMiddleware where
  IPAllowList : Option TCPIPAllowListConfig := none
  IPWhiteList : Option TCPIPWhiteListConfig := none
  InFlightConn : Option TCPInFlightConnConfig := none
  deriving DecidableEq

/-- Go `traefik.TCPConfiguration`. -/
structure TCPConfiguration where
  Routers : GoMap TCPRouter := ∅
  Services : GoMap TCPService := ∅
  Middlewares : GoMap TCPMiddleware := ∅
  deriving DecidableEq

/-- Go `traefik.UDPRouter`. -/
structure UDPRouter where
  EntryPoints : List String := []
  Service : String := ""
  deriving DecidableEq

/-- Go `traefik.UDPServer`. -/
structure UDPServer where
  Address : String := ""
  deriving DecidableEq

/-- Go `traefik.UDPLoadBalancerService`. -/
structure UDPLoadBalancerService where
  Servers : List UDPServer := []
  deriving DecidableEq

/-- Go `traefik.UDPWeightedService`. -/
structure UDPWeightedService where
  Services : List WeightedServiceItem := []
  deriving DecidableEq

/-- Go `traefik.UDPService`. -/
structure UDPService where
  LoadBalancer : Option UDPLoadBalancerService := none
  Weighted : Option UDPWeightedService := none
  deriving DecidableEq

/-- Go `traefik.UDPConfiguration`. -/
structure UDPConfiguration where
  Routers : GoMap UDPRouter := ∅
  Services : GoMap UDPService := ∅
  deriving DecidableEq

/-- Go `traefik.TLSCertificate`. -/
structure TLSCertificate where
  CertFile : String := ""
  KeyFile : String := ""
  Stores : List String := []
  deriving DecidableEq

/-- Go `traefik.ClientAuth`. -/
structure ClientAuth where
  CAFiles : List String := []
  ClientAuthType : String := ""
  deriving DecidableEq

/-- Go `traefik.TLSOption`. -/
structure TLSOption where
  MinVersion : String := ""
  MaxVersion : String := ""
  CipherSuites : List String := []
  CurvePreferences : List String := []
  ClientAuth : Option ClientAuth := none
  SNIStrict : Bool := false
  ALPNProtocols : List String := []
  PreferServerCipherSuites : Bool := false
  deriving DecidableEq

/-- Go `traefik.DefaultCertificate`. -/
structure DefaultCertificate where
  CertFile : String := ""
  KeyFile : String := ""
  deriving DecidableEq

/-- Go `traefik.DomainWithSans`. -/
structure DomainWithSans where
  Main : String := ""
  Sans : List String := []
  deriving DecidableEq

/-- Go `traefik.DefaultGeneratedCert`. -/
structure DefaultGeneratedCert where
  Resolver : String := ""
  Domain : Option DomainWithSans := none
  deriving DecidableEq

/-- Go `traefik.TLSStore`. -/
structure TLSStore where
  DefaultCertificate : Option DefaultCertificate := none
  DefaultGeneratedCert : Option DefaultGeneratedCert := none
  deriving DecidableEq

/-- Go `traefik.TLSConfiguration`. -/
structure TLSConfiguration where
  Certificates : List TLSCertificate := []
  Options : GoMap TLSOption := ∅
  Stores : GoMap TLSStore := ∅
  deriving DecidableEq

/-- Go `traefik.DynamicConfig`. -/
structure DynamicConfig where
  HTTP : Option HTTPConfiguration := none
  TCP : Option TCPConfiguration := none
  UDP : Option UDPConfiguration := none
  TLS : Option TLSConfiguration := none
  SSLHost : String := ""
  SSLForceHost : Bool := false

end traefik

namespace handlers

/-- Go `convertRouter`.  The middleware IDs are copied only when the list is
non-empty, and so are the TLS domains; an empty list maps to the nil slice. -/
def convertRouter (router : models.Router) : traefik.Router :=
  { EntryPoints := router.EntryPoints
    Rule := router.Rule
    Priority := router.Priority
    Service := router.Service.ID
    Middlewares :=
      if router.Middlewares.length > 0 then
        router.Middlewares.map (fun (mw : models.Middleware) => mw.ID)
      else []
    TLS :=
      match router.TLS with
      | some tls =>
        some
          { Options := tls.Options
            CertResolver := tls.CertResolver
            Domains :=
              if tls.Domains.length > 0 then
                tls.Domains.map (fun (domain : models.Domain) =>
                  ({ Main := domain.Main, Sans := domain.Sans } : traefik.Domain))
              else [] }
      | none => none
    Observability :=
      match router.Observability with
      | some obs =>
        some { AccessLogs := obs.AccessLogs, Tracing := obs.Tracing, Metrics := obs.Metrics }
      | none => none }

/-- The loop of `convertMiddleware` that keeps the string elements of a decoded
JSON array, in order. -/
def stringElements (elems : List JSONValue) : List String :=
  elems.filterMap (fun e => e.asString)

/-- Go `convertMiddleware`: the `switch` on the type tag, one branch per `case`;
a tag without a `case` leaves the zero `traefik.Middleware`, and so does a
config that is not a JSON object. -/
def convertMiddleware (middleware : models.Middleware) : traefik.Middleware :=
  if middleware.Type_ = "redirectScheme" then
    match middleware.Config.asObject with
    | some configMap =>
      { RedirectScheme := some
          { Scheme := ((JSONValue.index configMap "scheme").asString).getD ""
            Permanent := ((JSONValue.index configMap "permanent").asBool).getD false } }
    | none => {}
  else if middleware.Type_ = "addPrefix" then
    match middleware.Config.asObject with
    | some configMap =>
      { AddPrefix := some
          { Prefix := ((JSONValue.index configMap "prefix").asString).getD "" } }
    | none => {}
  else if middleware.Type_ = "basicAuth" then
    match middleware.Config.asObject with
    | some configMap =>
      { BasicAuth := some
          { Users :=
              match (JSONValue.index configMap "users").asArray with
              | some users => stringElements users
              | none => []
            UsersFile := ((JSONValue.index configMap "usersFile").asString).getD ""
            Realm := ((JSONValue.index configMap "realm").asString).getD ""
            RemoveHeader := (JSONValue.index configMap "removeHeader").asBool
            HeaderField := ((JSONValue.index configMap "headerField").asString).getD "" } }
    | none => {}
  else if middleware.Type_ = "stripPrefix" then
    match middleware.Config.asObject with
    | some configMap =>
      { StripPrefix := some
          { Prefixes :=
              match (JSONValue.index configMap "prefixes").asArray with
              | some prefixes => stringElements prefixes
              | none => []
            ForceSlash := ((JSONValue.index configMap "forceSlash").asBool).getD false } }
    | none => {}
  else {}

/-- Go `convertToTraefikConfig`: three loops, each writing `map[x.ID] = convert(x)`
for the elements in list order into an initially empty map. -/
def convertToTraefikConfig (routers : List models.Router) (services : List models.Service)
    (middlewares : List models.Middleware) : traefik.DynamicConfig :=
  { HTTP := some
      { Middlewares := middlewares.foldl (fun m mw => m.insert mw.ID (convertMiddleware mw)) ∅
        Services := services.foldl (fun m svc => m.insert svc.ID (convertService svc)) ∅
        Routers := routers.foldl (fun m router => m.insert router.ID (convertRouter router)) ∅ } }

end handlers

namespace Sample

open models

/-- The URL-form service of the projection scenario. -/
def urlService : Service := { Service.ofID "s" with URL := "http://b:80" }

/-- A load balancer block with two servers, one without weight, and a stored
`PassHostHeader` of `false`. -/
def loadBalancer : LoadBalancerService :=
  { Servers := [{ URL := "http://a:80" }, { URL := "http://b:80", Weight := 3, PreservePath := true }]
    PassHostHeader := false
    ServersTransport := "t1"
    ResponseForwarding := some { FlushInterval := "100ms" } }

/-- A service in load balancer form. -/
def loadBalancerService : Service :=
  { Service.ofID "lb" with LoadBalancer := some loadBalancer }

/-- A mirroring block with one mirror and a body limit. -/
def mirroring : MirroringService :=
  { Service := Service.ofID "main"
    MaxBodySize := 10
    Mirrors := [{ Name := Service.ofID "shadow", Percent := 20 }] }

/-- A service in mirroring form. -/
def mirroringService : Service :=
  { Service.ofID "mir" with Mirroring := some mirroring }

/-- The decoded config `{"prefixes":["/api"]}`. -/
def stripPrefixConfig : List (String × JSONValue) :=
  [("prefixes", JSONValue.array [JSONValue.string "/api"])]

/-- The strip-prefix middleware of the projection scenario. -/
def stripPrefixMiddleware : Middleware :=
  { ID := "sp", Type_ := "stripPrefix", Config := JSONValue.object stripPrefixConfig }

/-- The decoded config `{"scheme":"https","permanent":true}`. -/
def redirectSchemeConfig : List (String × JSONValue) :=
  [("scheme", JSONValue.string "https"), ("permanent", JSONValue.bool true)]

/-- A redirect-scheme middleware. -/
def redirectSchemeMiddleware : Middleware :=
  { ID := "rs", Type_ := "redirectScheme", Config := JSONValue.object redirectSchemeConfig }

end Sample

namespace strings

/-- Go `strings.HasPrefix(s, pre)`. -/
def HasPrefix (s pre : String) : Bool :=
  pre.data.isPrefixOf s.data

end strings

namespace echo

/-- The part of an `echo.Context` the middleware and the provider handler read:
`Path` is `c.Request().URL.Path` and `Header name` is
`c.Request().Header.Get(name)`, the empty string for an absent header. -/
structure Context where
  Path : String
  Header : String → String

end echo

namespace config

/-- Go `config.Server`; the two timeouts are durations in nanoseconds. -/
structure Server where
  Host : String := ""
  Port : Int := 0
  BasePath : String := ""
  ReadTimeout : Int := 0
  WriteTimeout : Int := 0
  deriving DecidableEq

/-- Go `config.Storage`; the interval is a duration in nanoseconds. -/
structure Storage where
  FilePath : String := ""
  SaveInterval : Int := 0
  deriving DecidableEq

/-- Go `config.Auth`. -/
structure Auth where
  Enabled : Bool := false
  HeaderName : String := ""
  Key : String := ""
  deriving DecidableEq

/-- Go `config.Provider`. -/
structure Provider where
  ProviderPath : String := ""
  Auth : Option Auth := none
  deriving DecidableEq

/-- Go `config.Logger`. -/
structure Logger where
  Level : String := ""
  Format : String := ""
  FilePath : String := ""
  UseColors : Bool := false
  deriving DecidableEq

/-- Go `config.Cors`. -/
structure Cors where
  AllowedOrigins : List String := []
  AllowedMethods : List String := []
  AllowedHeaders : List String := []
  AllowCredentials : Bool := false
  MaxAge : Int := 0
  deriving DecidableEq

/-- Go `config.Config`. -/
structure Config where
  Server : Server := {}
  Storage : Storage := {}
  Provider : Provider := {}
  Logger : Logger := {}
  Cors : Cors := {}
  Auth : Auth := {}
  deriving DecidableEq

end config

namespace handlers

open store

/-- Go type assertion `v.(float64)` followed by `int(...)`, on the integer
numbers of the embedding. -/
def asInt : JSONValue → Option Int
  | JSONValue.number n => some n
  | _ => none

/-- The `tls.domains` array of a router body: one `models.Domain` per element
that is an object, with `main` when it is a string and the string elements of
`sans` when it is an array. -/
def parseDomainsField (domainsField : List JSONValue) : List models.Domain :=
  domainsField.filterMap (fun d =>
    match d.asObject with
    | some domainMap =>
      some
        { Main := ((JSONValue.index domainMap "main").asString).getD ""
          Sans :=
            match (JSONValue.index domainMap "sans").asArray with
            | some sansField => stringElements sansField
            | none => [] }
    | none => none)

/-- The `tls` field of a router body: a TLS block when the field is an object. -/
def parseTLSField (tlsField : JSONValue) : Option models.RouterTLS :=
  match tlsField.asObject with
  | some tlsMap =>
    some
      { Options := ((JSONValue.index tlsMap "options").asString).getD ""
        CertResolver := ((JSONValue.index tlsMap "certResolver").asString).getD ""
        Domains :=
          match (JSONValue.index tlsMap "domains").asArray with
          | some domainsField => parseDomainsField domainsField
          | none => [] }
  | none => none

/-- The `observability` field of a router body: a block when the field is an
object, each flag read through a `bool` type assertion. -/
def parseObservabilityField (obsField : JSONValue) : Option models.Observability :=
  match obsField.asObject with
  | some obsMap =>
    some
      { AccessLogs := ((JSONValue.index obsMap "accessLogs").asBool).getD false
        Tracing := ((JSONValue.index obsMap "tracing").asBool).getD false
        Metrics := ((JSONValue.index obsMap "metrics").asBool).getD false }
  | none => none

/-- The router that `RouterHandler.Create` builds from the decoded body, before
it validates it. -/
def parseRouterCreate (requestData : List (String × JSONValue)) : models.Router :=
  { ID := ((JSONValue.index requestData "id").asString).getD ""
    Rule := ((JSONValue.index requestData "rule").asString).getD ""
    EntryPoints := parseEntryPointsField (JSONValue.index requestData "entryPoints")
    Service := parseServiceField (JSONValue.index requestData "service")
    Middlewares := parseMiddlewaresField (JSONValue.index requestData "middlewares")
    Priority := (asInt (JSONValue.index requestData "priority")).getD 0
    TLS := parseTLSField (JSONValue.index requestData "tls")
    Observability := parseObservabilityField (JSONValue.index requestData "observability") }

/-- The router that `RouterHandler.Update` builds from the path ID and the
decoded body, before it validates it. -/
def parseRouterUpdate (id : String) (requestData : List (String × JSONValue)) :
    models.Router :=
  { ID := id
    Rule := ((JSONValue.index requestData "rule").asString).getD ""
    EntryPoints := parseEntryPointsField (JSONValue.index requestData "entryPoints")
    Service := parseServiceField (JSONValue.index requestData "service")
    Middlewares := parseMiddlewaresField (JSONValue.index requestData "middlewares") }

/-- Go `RouterHandler.Create` for `POST /routers`.  `bound` is the result of
`c.Bind(&requestData)`, `none` when binding fails.  Each store call is made in
a goroutine and awaited under a 10 s deadline; the calls are in-memory and are
taken to return before the deadline, so the 504 branches are left out.  The
existence checks and the create are separate store calls, made here one after
the other on the same store. -/
def RouterHandler.Create (s : FileStore) (bound : Option (List (String × JSONValue))) :
    Response × FileStore :=
  match bound with
  | none => ({ status := 400, body := errorBody "Invalid router data" }, s)
  | some requestData =>
    let router := parseRouterCreate requestData
    if router.ID == "" then
      ({ status := 400, body := errorBody "Router ID is required" }, s)
    else if router.Rule == "" then
      ({ status := 400, body := errorBody "Router rule is required" }, s)
    else if router.Service.ID == "" then
      ({ status := 400, body := errorBody "Router service ID is required" }, s)
    else if !(FileStore.ServiceExists s router.Service.ID) then
      ({ status := 400, body := errorBody "Referenced service does not exist" }, s)
    else
      match router.Middlewares.find? (fun mw => !(FileStore.MiddlewareExists s mw.ID)) with
      | some mw =>
        ({ status := 400,
           body := errorBody ("Referenced middleware does not exist: " ++ mw.ID) }, s)
      | none =>
        if FileStore.RouterExists s router.ID then
          ({ status := 409, body := errorBody "Router already exists" }, s)
        else
          match FileStore.CreateRouter s router with
          | (some _, s') => ({ status := 500, body := errorBody "Failed to create router" }, s')
          | (none, s') =>
            ({ status := 201, body := resourceResponse router.ID true false false }, s')

/-- Go `MiddlewareHandler.Create` for `POST /middlewares`, with `bound` the
result of `c.Bind(&middleware)`. -/
def MiddlewareHandler.Create (s : FileStore) (bound : Option models.Middleware) :
    Response × FileStore :=
  match bound with
  | none => ({ status := 400, body := errorBody "Invalid middleware data" }, s)
  | some middleware =>
    if middleware.ID == "" then
      ({ status := 400, body := errorBody "Middleware ID is required" }, s)
    else if middleware.Type_ == "" then
      ({ status := 400, body := errorBody "Middleware type is required" }, s)
    else if FileStore.MiddlewareExists s middleware.ID then
      ({ status := 409, body := errorBody "Middleware already exists" }, s)
    else
      match FileStore.CreateMiddleware s middleware with
      | (some _, s') =>
        ({ status := 500, body := errorBody "Failed to create middleware" }, s')
      | (none, s') =>
        ({ status := 201, body := resourceResponse middleware.ID true false false }, s')

/-- The body `map[string]interface{}{"error": msg, "used_by": usedBy}`. -/
def inUseBody (msg : String) (usedBy : List String) : JSONValue :=
  JSONValue.object
    [("error", JSONValue.string msg),
     ("used_by", JSONValue.array (usedBy.map JSONValue.string))]

/-- Go `MiddlewareHandler.Delete` for `DELETE /middlewares/:id`. -/
def MiddlewareHandler.Delete (s : FileStore) (id : String) : Response × FileStore :=
  if !(FileStore.MiddlewareExists s id) then
    ({ status := 404, body := errorBody "Middleware not found" }, s)
  else if (FileStore.MiddlewareInUse s id).1 then
    ({ status := 409,
       body := inUseBody "Middleware is in use by other resources and cannot be deleted"
         (FileStore.MiddlewareInUse s id).2 }, s)
  else
    match FileStore.DeleteMiddleware s id with
    | (some err, s') =>
      if IsResourceInUse err then
        ({ status := 409,
           body := errorBody "Middleware is in use by other resources and cannot be deleted" },
          s')
      else ({ status := 500, body := errorBody "Failed to delete middleware" }, s')
    | (none, s') => ({ status := 200, body := resourceResponse id false false true }, s')

/-- Go `ServiceHandler.Delete` for `DELETE /services/:id`. -/
def ServiceHandler.Delete (s : FileStore) (id : String) : Response × FileStore :=
  if !(FileStore.ServiceExists s id) then
    ({ status := 404, body := errorBody "Service not found" }, s)
  else if (FileStore.ServiceInUse s id).1 then
    ({ status := 409,
       body := inUseBody "Service is in use by other resources and cannot be deleted"
         (FileStore.ServiceInUse s id).2 }, s)
  else
    match FileStore.DeleteService s id with
    | (some err, s') =>
      if IsResourceInUse err then
        ({ status := 409,
           body := errorBody "Service is in use by other resources and cannot be deleted" },
          s')
      else ({ status := 500, body := errorBody "Failed to delete service" }, s')
    | (none, s') => ({ status := 200, body := resourceResponse id false false true }, s')

/-- What the provider endpoint writes: an error body, or the projected
configuration. -/
inductive ProviderBody where
  | error (v : JSONValue)
  | config (c : traefik.DynamicConfig)

/-- The response of the provider endpoint. -/
structure ProviderResponse where
  status : Nat
  body : ProviderBody

/-- Go `ProviderHandler.GetConfig`.  The three `List` calls of a `FileStore`
return a nil error, so the 500 branches are not reached. -/
def ProviderHandler.GetConfig (s : FileStore) (_c : echo.Context) : ProviderResponse :=
  { status := 200
    body := ProviderBody.config
      (convertToTraefikConfig (FileStore.ListRouters s) (FileStore.ListServices s)
        (FileStore.ListMiddlewares s)) }

/-- Go `ProviderHandlerWithAuth.GetConfigWithAuth`, with `authConfig` the
handler's `AuthConfig` pointer. -/
def ProviderHandlerWithAuth.GetConfigWithAuth (authConfig : Option config.Auth)
    (s : FileStore) (c : echo.Context) : ProviderResponse :=
  let serve : ProviderResponse :=
    { status := 200
      body := ProviderBody.config
        (convertToTraefikConfig (FileStore.ListRouters s) (FileStore.ListServices s)
          (FileStore.ListMiddlewares s)) }
  match authConfig with
  | none => serve
  | some auth =>
    if auth.Enabled then
      if c.Header auth.HeaderName == "" then
        { status := 401, body := ProviderBody.error (errorBody "API key missing") }
      else if c.Header auth.HeaderName != auth.Key then
        { status := 401, body := ProviderBody.error (errorBody "Invalid API key") }
      else serve
    else serve

/-- Go `HealthHandler.Check`; `version` is the handler's version and `uptime`
the formatted time since its start. -/
def HealthHandler.Check (version uptime : String) (_c : echo.Context) : Response :=
  { status := 200
    body := JSONValue.object
      [("status", JSONValue.string "healthy"), ("version", JSONValue.string version),
       ("uptime", JSONValue.string uptime)] }

end handlers

namespace middleware

/-- Go `middleware.AuthOptions`. -/
structure AuthOptions where
  Enabled : Bool := false
  HeaderName : String := ""
  Key : String := ""
  ExcludePaths : List String := []

/-- The body of the 401 answers of `Auth`. -/
def unauthorizedBody (message : String) : JSONValue :=
  JSONValue.object
    [("code", JSONValue.string "unauthorized"), ("message", JSONValue.string message)]

/-- Go `middleware.Auth`, applied to the handler `next` and the context `c`.
The result is `Except.ok (next c)` when the middleware calls `next`, and
`Except.error r` when it writes the response `r` itself without calling it. -/
def Auth {ρ : Type} (opts : AuthOptions) (next : echo.Context → ρ) (c : echo.Context) :
    Except handlers.Response ρ :=
  if !opts.Enabled then
    Except.ok (next c)
  else if opts.ExcludePaths.any (fun excludePath => strings.HasPrefix c.Path excludePath) then
    Except.ok (next c)
  else if c.Header opts.HeaderName == "" then
    Except.error { status := 401, body := unauthorizedBody "API key missing" }
  else if c.Header opts.HeaderName != opts.Key then
    Except.error { status := 401, body := unauthorizedBody "Invalid API key" }
  else
    Except.ok (next c)

end middleware

namespace server

/-- The `excludedPaths` computed by `Server.Setup`. -/
def excludedPaths (cfg : config.Config) : List String :=
  if cfg.Auth.Enabled then ["/health"] ++ [cfg.Provider.ProviderPath] else ["/health"]

/-- The API authentication step of `Server.Setup`: the `Auth` middleware is
installed in front of every route when `cfg.Auth.Enabled`, and nothing is
installed otherwise.  The request-id, logging, recovery, timeout and CORS
middlewares of the library are not part of the embedding. -/
def Setup {ρ : Type} (cfg : config.Config) (next : echo.Context → ρ) (c : echo.Context) :
    Except handlers.Response ρ :=
  if cfg.Auth.Enabled then
    middleware.Auth
      { Enabled := cfg.Auth.Enabled
        HeaderName := cfg.Auth.HeaderName
        Key := cfg.Auth.Key
        ExcludePaths := excludedPaths cfg } next c
  else Except.ok (next c)

end server

namespace routes

/-- The path under which `RegisterRoutes` registers the health handler: the
group prefix `basePath` followed by `/health`. -/
def healthPath (cfg : config.Config) : String :=
  cfg.Server.BasePath ++ "/health"

/-- The handler that `RegisterRoutes` registers for `GET cfg.Provider.ProviderPath`. -/
def providerHandler (cfg : config.Config) (s : store.FileStore) (c : echo.Context) :
    handlers.ProviderResponse :=
  if cfg.Provider.Auth.isNone && cfg.Auth.Enabled then
    handlers.ProviderHandler.GetConfig s c
  else
    handlers.ProviderHandlerWithAuth.GetConfigWithAuth cfg.Provider.Auth s c

end routes

namespace Sample

open models

/-- The configuration loaded with `AUTH_ENABLED=true`, `AUTH_KEY=secret` and
the default base path and provider path. -/
def gatedConfig : config.Config :=
  { Server := { Port := 9000, BasePath := "/api/v1" }
    Provider := { ProviderPath := "/traefik/provider" }
    Auth := { Enabled := true, HeaderName := "X-API-Key", Key := "secret" } }

/-- A request to the health endpoint that carries no header. -/
def healthRequest : echo.Context :=
  { Path := "/api/v1/health", Header := fun _ => "" }

/-- A configuration with both gates enabled, with different keys. -/
def twoGateConfig : config.Config :=
  { Server := { Port := 9000, BasePath := "/api/v1" }
    Provider :=
      { ProviderPath := "/traefik/provider"
        Auth := some { Enabled := true, HeaderName := "X-Provider-Key", Key := "pk" } }
    Auth := { Enabled := true, HeaderName := "X-API-Key", Key := "secret" } }

/-- The provider gate of `twoGateConfig`. -/
def providerGate : config.Auth :=
  { Enabled := true, HeaderName := "X-Provider-Key", Key := "pk" }

/-- A request to the provider path that carries the API-wide key and no
provider key. -/
def providerRequest : echo.Context :=
  { Path := "/traefik/provider"
    Header := fun name => if name = "X-API-Key" then "secret" else "" }

/-- A router body whose service is the bare ID string `s1`. -/
def stringShapeBody : List (String × JSONValue) :=
  [("id", JSONValue.string "r1"), ("rule", JSONValue.string "Host(a)"),
   ("service", JSONValue.string "s1"),
   ("middlewares", JSONValue.array [JSONValue.string "m1"])]

/-- The same router body with the service in object form. -/
def objectShapeBody : List (String × JSONValue) :=
  [("id", JSONValue.string "r1"), ("rule", JSONValue.string "Host(a)"),
   ("service", JSONValue.object [("id", JSONValue.string "s1")]),
   ("middlewares", JSONValue.array [JSONValue.string "m1"])]

/-- A middleware body for a second create under the ID `m1`. -/
def otherMiddleware : Middleware := { ID := "m1", Type_ := "addPrefix" }

end Sample

namespace strconv

/-- Go `strconv.ParseBool`: `none` stands for the error return. -/
def ParseBool (str : String) : Option Bool :=
  if str = "1" ∨ str = "t" ∨ str = "T" ∨ str = "true" ∨ str = "TRUE" ∨ str = "True" then
    some true
  else if str = "0" ∨ str = "f" ∨ str = "F" ∨ str = "false" ∨ str = "FALSE" ∨ str = "False" then
    some false
  else
    none

end strconv

namespace config

/-- What `LoadConfig` asks of the process and of the libraries it calls:
`os.Getenv` (the empty string for an unset variable), `os.TempDir`,
`os.MkdirAll` (`none` on success, the error text otherwise), and the library
functions `filepath.Join`, `filepath.Dir`, `strconv.Atoi`, `time.ParseDuration`
(nanoseconds) and `strings.Split`. -/
structure Environ where
  Getenv : String → String
  TempDir : String
  MkdirAll : String → Option String
  Join : String → String → String
  Dir : String → String
  Atoi : String → Option Int
  ParseDuration : String → Option Int
  Split : String → String → List String

/-- Go `config.getEnv`. -/
def getEnv (env : Environ) (key defaultValue : String) : String :=
  let value := env.Getenv key
  if value = "" then defaultValue else value

/-- Go `config.getEnvAsInt`. -/
def getEnvAsInt (env : Environ) (key : String) (defaultValue : Int) : Int :=
  let valueStr := getEnv env key ""
  if valueStr = "" then defaultValue
  else
    match env.Atoi valueStr with
    | none => defaultValue
    | some value => value

/-- Go `config.getEnvAsBool`. -/
def getEnvAsBool (env : Environ) (key : String) (defaultValue : Bool) : Bool :=
  let valueStr := getEnv env key ""
  if valueStr = "" then defaultValue
  else
    match strconv.ParseBool valueStr with
    | none => defaultValue
    | some value => value

/-- Go `config.getEnvAsDuration`. -/
def getEnvAsDuration (env : Environ) (key : String) (defaultValue : Int) : Int :=
  let valueStr := getEnv env key ""
  if valueStr = "" then defaultValue
  else
    match env.ParseDuration valueStr with
    | none => defaultValue
    | some value => value

/-- Go `config.getEnvAsSlice`. -/
def getEnvAsSlice (env : Environ) (key : String) (defaultValue : List String) : List String :=
  let valueStr := getEnv env key ""
  if valueStr = "" then defaultValue else env.Split valueStr ","

/-- The directory `LoadConfig` creates: `filepath.Dir` of the storage file
path. -/
def storageDir (env : Environ) : String :=
  env.Dir (getEnv env "STORAGE_FILE_PATH" (env.Join env.TempDir "traefik-manager.json"))

/-- Go `config.LoadConfig`, in a process where `os.Stat` finds neither the
`envFile` argument nor `./.env`, so that `godotenv` is never called and the
environment is read as it stands.  `Except.error` carries the message of the
returned error. -/
def LoadConfig (env : Environ) : Except String Config :=
  let server : Server :=
    { Host := getEnv env "SERVER_HOST" ""
      Port := getEnvAsInt env "SERVER_PORT" 9000
      BasePath := getEnv env "SERVER_BASE_PATH" "/api/v1"
      ReadTimeout := getEnvAsDuration env "SERVER_READ_TIMEOUT" (15 * 1000000000)
      WriteTimeout := getEnvAsDuration env "SERVER_WRITE_TIMEOUT" (15 * 1000000000) }
  let defaultStoragePath := env.Join env.TempDir "traefik-manager.json"
  let filePath := getEnv env "STORAGE_FILE_PATH" defaultStoragePath
  let storageDir := env.Dir filePath
  match env.MkdirAll storageDir with
  | some err => Except.error ("failed to create storage directory: " ++ err)
  | none =>
    let storage : Storage :=
      { FilePath := filePath
        SaveInterval := getEnvAsDuration env "STORAGE_SAVE_INTERVAL" (5 * 1000000000) }
    let providerAuthEnabled := getEnvAsBool env "PROVIDER_AUTH_ENABLED" false
    let provider : Provider :=
      { ProviderPath := getEnv env "PROVIDER_PATH" "/traefik/provider"
        Auth :=
          if providerAuthEnabled then
            some { Enabled := providerAuthEnabled
                   HeaderName := getEnv env "PROVIDER_AUTH_HEADER_NAME" "X-API-Key"
                   Key := getEnv env "PROVIDER_AUTH_KEY" "" }
          else none }
    let logger : Logger :=
      { Level := getEnv env "LOG_LEVEL" "info"
        Format := getEnv env "LOG_FORMAT" "json"
        FilePath := getEnv env "LOG_FILE_PATH" ""
        UseColors := getEnvAsBool env "LOG_USE_COLORS" true }
    let cors : Cors :=
      { AllowedOrigins := getEnvAsSlice env "CORS_ALLOWED_ORIGINS" ["*"]
        AllowedMethods :=
          getEnvAsSlice env "CORS_ALLOWED_METHODS" ["GET", "POST", "PUT", "DELETE", "OPTIONS"]
        AllowedHeaders :=
          getEnvAsSlice env "CORS_ALLOWED_HEADERS" ["Content-Type", "Authorization"]
        AllowCredentials := getEnvAsBool env "CORS_ALLOW_CREDENTIALS" false
        MaxAge := getEnvAsInt env "CORS_MAX_AGE" 300 }
    let auth : Auth :=
      { Enabled := getEnvAsBool env "AUTH_ENABLED" false
        HeaderName := getEnv env "AUTH_HEADER_NAME" "X-API-Key"
        Key := getEnv env "AUTH_KEY" "" }
    let config : Config :=
      { Server := server, Storage := storage, Provider := provider, Logger := logger,
        Cors := cors, Auth := auth }
    if config.Auth.Enabled && config.Auth.Key == "" then
      Except.error "AUTH_KEY is required when AUTH_ENABLED is true"
    else
      match config.Provider.Auth with
      | some providerAuth =>
        if providerAuth.Enabled && providerAuth.Key == "" then
          Except.error "PROVIDER_AUTH_KEY is required when PROVIDER_AUTH_ENABLED is true"
        else Except.ok config
      | none => Except.ok config

end config

namespace store

/-- One of the three keys of a decoded snapshot document: left out, `null`, or
a JSON object decoded into records. -/
inductive SnapshotField (α : Type) where
  | absent
  | null
  | object (m : GoMap α)

/-- The snapshot document, as `encoding/json` reads and writes `storeData`
under the keys `middlewares`, `routers` and `services`. -/
structure Snapshot where
  Middlewares : SnapshotField models.Middleware
  Routers : SnapshotField models.Router
  Services : SnapshotField models.Service

/-- What `os.ReadFile` and `json.Unmarshal` make of the snapshot file:
`ReadFile` fails; or `Unmarshal` returns an error, after having decoded
`decoded` into the aggregate (nothing for a syntax error); or the file
decodes into a document. -/
inductive File where
  | unreadable (err : String)
  | invalid (err : String) (decoded : Snapshot)
  | document (doc : Snapshot)

/-- The effect of `json.Unmarshal` on one map field of the aggregate: a key
left out keeps the map, `null` sets it to the nil map, and an object is decoded
into the existing map, entry by entry, keeping the entries under other keys. -/
def unmarshalField {α : Type} (current : GoMap α) : SnapshotField α → GoMap α
  | SnapshotField.absent => current
  | SnapshotField.null => ∅
  | SnapshotField.object m => m ∪ current

/-- The effect of `json.Unmarshal(data, &s.data)` on the aggregate. -/
def unmarshal (s : FileStore) (doc : Snapshot) : FileStore :=
  { Middlewares := unmarshalField s.Middlewares doc.Middlewares
    Routers := unmarshalField s.Routers doc.Routers
    Services := unmarshalField s.Services doc.Services }

/-- Go `FileStore.Load`, on the outcome `file` of reading and decoding the
snapshot file.  A nil map and an empty map are both `∅` here, so the three
`if ... == nil` assignments that follow a successful decode are the
identity. -/
def FileStore.Load (s : FileStore) (file : File) : Option Error × FileStore :=
  match file with
  | File.unreadable err =>
    (some (Error.wrap (Error.errorf err) ("failed to read store data: " ++ err)), s)
  | File.invalid err decoded =>
    (some (Error.wrap (Error.errorf err) ("failed to unmarshal store data: " ++ err)),
      unmarshal s decoded)
  | File.document doc => (none, unmarshal s doc)

/-- Go `store.NewFileStore(filePath)` once the directory exists: `file` is
`none` when `os.Stat(filePath)` fails, and the snapshot file otherwise. -/
def NewFileStoreOn (file : Option File) : Except Error FileStore :=
  match file with
  | none => Except.ok NewFileStore
  | some f =>
    match FileStore.Load NewFileStore f with
    | (some err, _) =>
      Except.error (Error.wrap err ("failed to load store data: " ++ err.Message))
    | (none, s) => Except.ok s

end store

namespace JSONValue

mutual
/-- The nesting depth of a JSON value: 0 for a scalar, one more than the
deepest element for an array or an object. -/
def depth : JSONValue → Nat
  | JSONValue.array xs => depthList xs + 1
  | JSONValue.object fields => depthFields fields + 1
  | _ => 0
/-- The largest depth among the elements of an array. -/
def depthList : List JSONValue → Nat
  | [] => 0
  | x :: xs => max (depth x) (depthList xs)
/-- The largest depth among the values of an object. -/
def depthFields : List (String × JSONValue) → Nat
  | [] => 0
  | (_, v) :: fields => max (depth v) (depthFields fields)
end

end JSONValue

namespace json

/-- One field of a Go struct as `encoding/json` writes it: the key of its
`json` tag, whether `omitempty` leaves it out (the tag has the option and the
value is empty), and the encoded value. -/
structure StructField where
  key : String
  omitted : Bool
  value : JSONValue

/-- The JSON object `encoding/json` writes for a struct: its fields in
declaration order, without the omitted ones. -/
def encodeStruct (fs : List StructField) : JSONValue :=
  JSONValue.object (fs.filterMap (fun f => if f.omitted then none else some (f.key, f.value)))

/-- A nil pointer is written as `null`, another as its target. -/
def encodePointer {α : Type} (enc : α → JSONValue) : Option α → JSONValue
  | none => JSONValue.null
  | some x => enc x

/-- A slice is written as the array of its elements. -/
def encodeSlice {α : Type} (enc : α → JSONValue) (xs : List α) : JSONValue :=
  JSONValue.array (xs.map enc)

/-- Decoding into a Go `string` that holds its zero value: `null` leaves it,
a JSON string sets it, anything else is an error (`none`). -/
def decodeString : JSONValue → Option String
  | JSONValue.null => some ""
  | JSONValue.string s => some s
  | _ => none

/-- Decoding into a zero Go `int`. -/
def decodeInt : JSONValue → Option Int
  | JSONValue.null => some 0
  | JSONValue.number n => some n
  | _ => none

/-- Decoding into a zero Go `bool`. -/
def decodeBool : JSONValue → Option Bool
  | JSONValue.null => some false
  | JSONValue.bool b => some b
  | _ => none

/-- Decoding into a nil pointer: `null` leaves it nil, any other value is
decoded into a fresh target. -/
def decodePointer {α : Type} (dec : JSONValue → Option α) : JSONValue → Option (Option α)
  | JSONValue.null => some none
  | v => (dec v).map some

/-- Decoding each element of an array, in order; one error fails the whole. -/
def decodeAll {α : Type} (dec : JSONValue → Option α) : List JSONValue → Option (List α)
  | [] => some []
  | x :: xs =>
    match dec x, decodeAll dec xs with
    | some y, some ys => some (y :: ys)
    | _, _ => none

/-- Decoding into a nil slice: `null` leaves it nil, an array gives one element
per entry, anything else is an error. -/
def decodeSlice {α : Type} (dec : JSONValue → Option α) : JSONValue → Option (List α)
  | JSONValue.null => some []
  | JSONValue.array xs => decodeAll dec xs
  | _ => none

/-- Decoding into a zero struct: `null` leaves it, an object is handed to the
field decoder `build`, anything else is an error. -/
def decodeStruct {α : Type} (zero : α) (build : List (String × JSONValue) → Option α) :
    JSONValue → Option α
  | JSONValue.null => some zero
  | JSONValue.object fields => build fields
  | _ => none

/-- The value written for the field with key `k`: `null` when no field has
that key or the field is omitted. -/
def fieldValue (fs : List StructField) (k : String) : JSONValue :=
  match fs.find? (fun f => f.key == k) with
  | some f => if f.omitted then JSONValue.null else f.value
  | none => JSONValue.null

end json

namespace json

open models

/-- The JSON written for a `map[string]string`. -/
def encodeHeaders (headers : List (String × String)) : JSONValue :=
  JSONValue.object (headers.map (fun kv => (kv.1, JSONValue.string kv.2)))

/-- The JSON written for a `models.HealthCheck`. -/
def encodeHealthCheck (h : HealthCheck) : JSONValue :=
  encodeStruct
    [{ key := "scheme", omitted := h.Scheme == "", value := JSONValue.string h.Scheme },
     { key := "mode", omitted := h.Mode == "", value := JSONValue.string h.Mode },
     { key := "path", omitted := h.Path == "", value := JSONValue.string h.Path },
     { key := "method", omitted := h.Method == "", value := JSONValue.string h.Method },
     { key := "status", omitted := h.Status == 0, value := JSONValue.number h.Status },
     { key := "port", omitted := h.Port == 0, value := JSONValue.number h.Port },
     { key := "interval", omitted := h.Interval == "", value := JSONValue.string h.Interval },
     { key := "timeout", omitted := h.Timeout == "", value := JSONValue.string h.Timeout },
     { key := "hostname", omitted := h.Hostname == "", value := JSONValue.string h.Hostname },
     { key := "followRedirects", omitted := !h.FollowRedirects,
       value := JSONValue.bool h.FollowRedirects },
     { key := "headers", omitted := h.Headers.isEmpty, value := encodeHeaders h.Headers }]

/-- The JSON written for a `models.ResponseForwarding`. -/
def encodeResponseForwarding (r : ResponseForwarding) : JSONValue :=
  encodeStruct
    [{ key := "flushInterval", omitted := r.FlushInterval == "",
       value := JSONValue.string r.FlushInterval }]

/-- The JSON written for a `models.StickyCookie`. -/
def encodeStickyCookie (c : StickyCookie) : JSONValue :=
  encodeStruct
    [{ key := "name", omitted := false, value := JSONValue.string c.Name },
     { key := "secure", omitted := !c.Secure, value := JSONValue.bool c.Secure },
     { key := "httpOnly", omitted := !c.HTTPOnly, value := JSONValue.bool c.HTTPOnly },
     { key := "sameSite", omitted := c.SameSite == "", value := JSONValue.string c.SameSite },
     { key := "maxAge", omitted := c.MaxAge == 0, value := JSONValue.number c.MaxAge },
     { key := "path", omitted := c.Path == "", value := JSONValue.string c.Path }]

/-- The JSON written for a `models.Sticky`. -/
def encodeSticky (s : Sticky) : JSONValue :=
  encodeStruct
    [{ key := "cookie", omitted := s.Cookie.isNone,
       value := encodePointer encodeStickyCookie s.Cookie }]

/-- The JSON written for a `models.Server`. -/
def encodeServer (s : Server) : JSONValue :=
  encodeStruct
    [{ key := "url", omitted := false, value := JSONValue.string s.URL },
     { key := "weight", omitted := s.Weight == 0, value := JSONValue.number s.Weight },
     { key := "preservePath", omitted := !s.PreservePath,
       value := JSONValue.bool s.PreservePath }]

/-- The JSON written for a `models.LoadBalancerService`. -/
def encodeLoadBalancer (lb : LoadBalancerService) : JSONValue :=
  encodeStruct
    [{ key := "servers", omitted := false, value := encodeSlice encodeServer lb.Servers },
     { key := "healthCheck", omitted := lb.HealthCheck.isNone,
       value := encodePointer encodeHealthCheck lb.HealthCheck },
     { key := "passHostHeader", omitted := !lb.PassHostHeader,
       value := JSONValue.bool lb.PassHostHeader },
     { key := "responseForwarding", omitted := lb.ResponseForwarding.isNone,
       value := encodePointer encodeResponseForwarding lb.ResponseForwarding },
     { key := "serversTransport", omitted := lb.ServersTransport == "",
       value := JSONValue.string lb.ServersTransport },
     { key := "sticky", omitted := lb.Sticky.isNone,
       value := encodePointer encodeSticky lb.Sticky }]

mutual
/-- The JSON written for a `models.Service`. -/
def encodeService : Service → JSONValue
  | ⟨id, serviceType, url, loadBalancer, weighted, mirroring, failover⟩ =>
    encodeStruct
      [{ key := "id", omitted := false, value := JSONValue.string id },
       { key := "serviceType", omitted := serviceType == "",
         value := JSONValue.string serviceType },
       { key := "url", omitted := url == "", value := JSONValue.string url },
       { key := "loadBalancer", omitted := loadBalancer.isNone,
         value := encodePointer encodeLoadBalancer loadBalancer },
       { key := "weighted", omitted := weighted.isNone, value := encodeWeighted weighted },
       { key := "mirroring", omitted := mirroring.isNone, value := encodeMirroring mirroring },
       { key := "failover", omitted := failover.isNone, value := encodeFailover failover }]
/-- The JSON written for a `*models.WeightedService`. -/
def encodeWeighted : Option (WeightedServiceOf Service) → JSONValue
  | none => JSONValue.null
  | some ⟨services, sticky, healthCheck⟩ =>
    encodeStruct
      [{ key := "services", omitted := false,
         value := JSONValue.array (encodeWeightedItems services) },
       { key := "sticky", omitted := sticky.isNone, value := encodePointer encodeSticky sticky },
       { key := "healthCheck", omitted := healthCheck.isNone,
         value := encodePointer encodeHealthCheck healthCheck }]
/-- The JSON written for the elements of a `[]models.WeightedServiceItem`. -/
def encodeWeightedItems : List (WeightedServiceItemOf Service) → List JSONValue
  | [] => []
  | ⟨name, weight⟩ :: rest =>
    encodeStruct
      [{ key := "name", omitted := false, value := encodeService name },
       { key := "weight", omitted := false, value := JSONValue.number weight }] ::
      encodeWeightedItems rest
/-- The JSON written for a `*models.MirroringService`. -/
def encodeMirroring : Option (MirroringServiceOf Service) → JSONValue
  | none => JSONValue.null
  | some ⟨service, mirrorBody, maxBodySize, mirrors, healthCheck⟩ =>
    encodeStruct
      [{ key := "service", omitted := false, value := encodeService service },
       { key := "mirrorBody", omitted := !mirrorBody, value := JSONValue.bool mirrorBody },
       { key := "maxBodySize", omitted := maxBodySize == 0,
         value := JSONValue.number maxBodySize },
       { key := "mirrors", omitted := false,
         value := JSONValue.array (encodeMirrorItems mirrors) },
       { key := "healthCheck", omitted := healthCheck.isNone,
         value := encodePointer encodeHealthCheck healthCheck }]
/-- The JSON written for the elements of a `[]models.MirrorServiceItem`. -/
def encodeMirrorItems : List (MirrorServiceItemOf Service) → List JSONValue
  | [] => []
  | ⟨name, percent⟩ :: rest =>
    encodeStruct
      [{ key := "name", omitted := false, value := encodeService name },
       { key := "percent", omitted := false, value := JSONValue.number percent }] ::
      encodeMirrorItems rest
/-- The JSON written for a `*models.FailoverService`. -/
def encodeFailover : Option (FailoverServiceOf Service) → JSONValue
  | none => JSONValue.null
  | some ⟨service, fallback, healthCheck⟩ =>
    encodeStruct
      [{ key := "service", omitted := false, value := encodeService service },
       { key := "fallback", omitted := false, value := encodeService fallback },
       { key := "healthCheck", omitted := healthCheck.isNone,
         value := encodePointer encodeHealthCheck healthCheck }]
end

/-- The JSON written for a `models.Middleware`; the `interface{}` config holds
a decoded JSON value and is written as that value. -/
def encodeMiddleware (m : Middleware) : JSONValue :=
  encodeStruct
    [{ key := "id", omitted := false, value := JSONValue.string m.ID },
     { key := "type", omitted := false, value := JSONValue.string m.Type_ },
     { key := "config", omitted := false, value := m.Config }]

/-- The JSON written for a `models.Domain`. -/
def encodeDomain (d : Domain) : JSONValue :=
  encodeStruct
    [{ key := "main", omitted := false, value := JSONValue.string d.Main },
     { key := "sans", omitted := d.Sans.isEmpty, value := encodeSlice JSONValue.string d.Sans }]

/-- The JSON written for a `models.RouterTLS`. -/
def encodeRouterTLS (t : RouterTLS) : JSONValue :=
  encodeStruct
    [{ key := "options", omitted := t.Options == "", value := JSONValue.string t.Options },
     { key := "certResolver", omitted := t.CertResolver == "",
       value := JSONValue.string t.CertResolver },
     { key := "domains", omitted := t.Domains.isEmpty,
       value := encodeSlice encodeDomain t.Domains }]

/-- The JSON written for a `models.Observability`. -/
def encodeObservability (o : Observability) : JSONValue :=
  encodeStruct
    [{ key := "accessLogs", omitted := !o.AccessLogs, value := JSONValue.bool o.AccessLogs },
     { key := "tracing", omitted := !o.Tracing, value := JSONValue.bool o.Tracing },
     { key := "metrics", omitted := !o.Metrics, value := JSONValue.bool o.Metrics }]

/-- The JSON written for a `models.Router`. -/
def encodeRouter (r : Router) : JSONValue :=
  encodeStruct
    [{ key := "id", omitted := false, value := JSONValue.string r.ID },
     { key := "entryPoints", omitted := r.EntryPoints.isEmpty,
       value := encodeSlice JSONValue.string r.EntryPoints },
     { key := "middlewares", omitted := r.Middlewares.isEmpty,
       value := encodeSlice encodeMiddleware r.Middlewares },
     { key := "service", omitted := false, value := encodeService r.Service },
     { key := "rule", omitted := false, value := JSONValue.string r.Rule },
     { key := "ruleSyntax", omitted := r.RuleSyntax == "", value := JSONValue.string r.RuleSyntax },
     { key := "priority", omitted := r.Priority == 0, value := JSONValue.number r.Priority },
     { key := "tls", omitted := r.TLS.isNone, value := encodePointer encodeRouterTLS r.TLS },
     { key := "observability", omitted := r.Observability.isNone,
       value := encodePointer encodeObservability r.Observability }]

/-- The JSON written for a `map[string]T`, one member per key. -/
def encodeMap {α : Type} (enc : α → JSONValue) (m : GoMap α) : JSONValue :=
  JSONValue.object (m.entries.map (fun e => (e.1, enc e.2)))

/-- Go `json.MarshalIndent(s.data, "", "  ")` on the aggregate, as a JSON
value.  The error return is for values `encoding/json` cannot write; the
aggregate holds strings, integers, booleans and decoded JSON values only, so it
is never taken. -/
def MarshalIndent (data : store.storeData) : Except String JSONValue :=
  Except.ok (encodeStruct
    [{ key := "middlewares", omitted := false,
       value := encodeMap encodeMiddleware data.Middlewares },
     { key := "routers", omitted := false, value := encodeMap encodeRouter data.Routers },
     { key := "services", omitted := false, value := encodeMap encodeService data.Services }])

/-- The members of a JSON object decoded as strings, in order. -/
def decodeHeaderFields : List (String × JSONValue) → Option (List (String × String))
  | [] => some []
  | (k, v) :: rest =>
    match decodeString v, decodeHeaderFields rest with
    | some s, some ss => some ((k, s) :: ss)
    | _, _ => none

/-- Decoding into a nil `map[string]string`. -/
def decodeHeaders : JSONValue → Option (List (String × String))
  | JSONValue.null => some []
  | JSONValue.object fields => decodeHeaderFields fields
  | _ => none

/-- Decoding into a zero `models.HealthCheck`. -/
def decodeHealthCheck : JSONValue → Option HealthCheck :=
  decodeStruct {} (fun fields => do
    let scheme ← decodeString (JSONValue.index fields "scheme")
    let mode ← decodeString (JSONValue.index fields "mode")
    let path ← decodeString (JSONValue.index fields "path")
    let method ← decodeString (JSONValue.index fields "method")
    let status ← decodeInt (JSONValue.index fields "status")
    let port ← decodeInt (JSONValue.index fields "port")
    let interval ← decodeString (JSONValue.index fields "interval")
    let timeout ← decodeString (JSONValue.index fields "timeout")
    let hostname ← decodeString (JSONValue.index fields "hostname")
    let followRedirects ← decodeBool (JSONValue.index fields "followRedirects")
    let headers ← decodeHeaders (JSONValue.index fields "headers")
    pure
      { Scheme := scheme, Mode := mode, Path := path, Method := method, Status := status,
        Port := port, Interval := interval, Timeout := timeout, Hostname := hostname,
        FollowRedirects := followRedirects, Headers := headers })

/-- Decoding into a zero `models.ResponseForwarding`. -/
def decodeResponseForwarding : JSONValue → Option ResponseForwarding :=
  decodeStruct {} (fun fields => do
    let flushInterval ← decodeString (JSONValue.index fields "flushInterval")
    pure { FlushInterval := flushInterval })

/-- Decoding into a zero `models.StickyCookie`. -/
def decodeStickyCookie : JSONValue → Option StickyCookie :=
  decodeStruct {} (fun fields => do
    let name ← decodeString (JSONValue.index fields "name")
    let secure ← decodeBool (JSONValue.index fields "secure")
    let httpOnly ← decodeBool (JSONValue.index fields "httpOnly")
    let sameSite ← decodeString (JSONValue.index fields "sameSite")
    let maxAge ← decodeInt (JSONValue.index fields "maxAge")
    let path ← decodeString (JSONValue.index fields "path")
    pure
      { Name := name, Secure := secure, HTTPOnly := httpOnly, SameSite := sameSite,
        MaxAge := maxAge, Path := path })

/-- Decoding into a zero `models.Sticky`. -/
def decodeSticky : JSONValue → Option Sticky :=
  decodeStruct {} (fun fields => do
    let cookie ← decodePointer decodeStickyCookie (JSONValue.index fields "cookie")
    pure { Cookie := cookie })

/-- Decoding into a zero `models.Server`. -/
def decodeServer : JSONValue → Option Server :=
  decodeStruct {} (fun fields => do
    let url ← decodeString (JSONValue.index fields "url")
    let weight ← decodeInt (JSONValue.index fields "weight")
    let preservePath ← decodeBool (JSONValue.index fields "preservePath")
    pure { URL := url, Weight := weight, PreservePath := preservePath })

/-- Decoding into a zero `models.LoadBalancerService`. -/
def decodeLoadBalancer : JSONValue → Option LoadBalancerService :=
  decodeStruct {} (fun fields => do
    let servers ← decodeSlice decodeServer (JSONValue.index fields "servers")
    let healthCheck ← decodePointer decodeHealthCheck (JSONValue.index fields "healthCheck")
    let passHostHeader ← decodeBool (JSONValue.index fields "passHostHeader")
    let responseForwarding ←
      decodePointer decodeResponseForwarding (JSONValue.index fields "responseForwarding")
    let serversTransport ← decodeString (JSONValue.index fields "serversTransport")
    let sticky ← decodePointer decodeSticky (JSONValue.index fields "sticky")
    pure
      { Servers := servers, HealthCheck := healthCheck, PassHostHeader := passHostHeader,
        ResponseForwarding := responseForwarding, ServersTransport := serversTransport,
        Sticky := sticky })

/-- Decoding into a zero `models.WeightedServiceItem`, with `dec` for the
nested service. -/
def decodeWeightedItem (dec : JSONValue → Option Service) :
    JSONValue → Option WeightedServiceItem :=
  decodeStruct { Name := Service.ofID "" } (fun fields => do
    let name ← dec (JSONValue.index fields "name")
    let weight ← decodeInt (JSONValue.index fields "weight")
    pure { Name := name, Weight := weight })

/-- Decoding into a zero `models.WeightedService`. -/
def decodeWeighted (dec : JSONValue → Option Service) : JSONValue → Option WeightedService :=
  decodeStruct {} (fun fields => do
    let services ← decodeSlice (decodeWeightedItem dec) (JSONValue.index fields "services")
    let sticky ← decodePointer decodeSticky (JSONValue.index fields "sticky")
    let healthCheck ← decodePointer decodeHealthCheck (JSONValue.index fields "healthCheck")
    pure { Services := services, Sticky := sticky, HealthCheck := healthCheck })

/-- Decoding into a zero `models.MirrorServiceItem`. -/
def decodeMirrorItem (dec : JSONValue → Option Service) :
    JSONValue → Option MirrorServiceItem :=
  decodeStruct { Name := Service.ofID "" } (fun fields => do
    let name ← dec (JSONValue.index fields "name")
    let percent ← decodeInt (JSONValue.index fields "percent")
    pure { Name := name, Percent := percent })

/-- Decoding into a zero `models.MirroringService`. -/
def decodeMirroring (dec : JSONValue → Option Service) :
    JSONValue → Option MirroringService :=
  decodeStruct { Service := Service.ofID "" } (fun fields => do
    let service ← dec (JSONValue.index fields "service")
    let mirrorBody ← decodeBool (JSONValue.index fields "mirrorBody")
    let maxBodySize ← decodeInt (JSONValue.index fields "maxBodySize")
    let mirrors ← decodeSlice (decodeMirrorItem dec) (JSONValue.index fields "mirrors")
    let healthCheck ← decodePointer decodeHealthCheck (JSONValue.index fields "healthCheck")
    pure
      { Service := service, MirrorBody := mirrorBody, MaxBodySize := maxBodySize,
        Mirrors := mirrors, HealthCheck := healthCheck })

/-- Decoding into a zero `models.FailoverService`. -/
def decodeFailover (dec : JSONValue → Option Service) : JSONValue → Option FailoverService :=
  decodeStruct { Service := Service.ofID "", Fallback := Service.ofID "" } (fun fields => do
    let service ← dec (JSONValue.index fields "service")
    let fallback ← dec (JSONValue.index fields "fallback")
    let healthCheck ← decodePointer decodeHealthCheck (JSONValue.index fields "healthCheck")
    pure { Service := service, Fallback := fallback, HealthCheck := healthCheck })

/-- Decoding into a zero `models.Service`.  A service can hold services; the
first argument bounds how many levels of them are followed, and `none` is
returned beyond it. -/
def decodeService : Nat → JSONValue → Option Service
  | 0, _ => none
  | fuel + 1, v =>
    decodeStruct (Service.ofID "") (fun fields => do
      let id ← decodeString (JSONValue.index fields "id")
      let serviceType ← decodeString (JSONValue.index fields "serviceType")
      let url ← decodeString (JSONValue.index fields "url")
      let loadBalancer ←
        decodePointer decodeLoadBalancer (JSONValue.index fields "loadBalancer")
      let weighted ←
        decodePointer (decodeWeighted (decodeService fuel)) (JSONValue.index fields "weighted")
      let mirroring ←
        decodePointer (decodeMirroring (decodeService fuel)) (JSONValue.index fields "mirroring")
      let failover ←
        decodePointer (decodeFailover (decodeService fuel)) (JSONValue.index fields "failover")
      pure
        { ID := id, ServiceType := serviceType, URL := url, LoadBalancer := loadBalancer,
          Weighted := weighted, Mirroring := mirroring, Failover := failover }) v

/-- Decoding into a zero `models.Middleware`; the `interface{}` config takes
the decoded JSON value as it is. -/
def decodeMiddleware : JSONValue → Option Middleware :=
  decodeStruct {} (fun fields => do
    let id ← decodeString (JSONValue.index fields "id")
    let typeName ← decodeString (JSONValue.index fields "type")
    pure { ID := id, Type_ := typeName, Config := JSONValue.index fields "config" })

/-- Decoding into a zero `models.Domain`. -/
def decodeDomain : JSONValue → Option Domain :=
  decodeStruct {} (fun fields => do
    let main ← decodeString (JSONValue.index fields "main")
    let sans ← decodeSlice decodeString (JSONValue.index fields "sans")
    pure { Main := main, Sans := sans })

/-- Decoding into a zero `models.RouterTLS`. -/
def decodeRouterTLS : JSONValue → Option RouterTLS :=
  decodeStruct {} (fun fields => do
    let options ← decodeString (JSONValue.index fields "options")
    let certResolver ← decodeString (JSONValue.index fields "certResolver")
    let domains ← decodeSlice decodeDomain (JSONValue.index fields "domains")
    pure { Options := options, CertResolver := certResolver, Domains := domains })

/-- Decoding into a zero `models.Observability`. -/
def decodeObservability : JSONValue → Option Observability :=
  decodeStruct {} (fun fields => do
    let accessLogs ← decodeBool (JSONValue.index fields "accessLogs")
    let tracing ← decodeBool (JSONValue.index fields "tracing")
    let metrics ← decodeBool (JSONValue.index fields "metrics")
    pure { AccessLogs := accessLogs, Tracing := tracing, Metrics := metrics })

/-- Decoding into a zero `models.Router`, following `fuel` levels of nested
services. -/
def decodeRouter (fuel : Nat) : JSONValue → Option Router :=
  decodeStruct {} (fun fields => do
    let id ← decodeString (JSONValue.index fields "id")
    let entryPoints ← decodeSlice decodeString (JSONValue.index fields "entryPoints")
    let middlewares ← decodeSlice decodeMiddleware (JSONValue.index fields "middlewares")
    let service ← decodeService fuel (JSONValue.index fields "service")
    let rule ← decodeString (JSONValue.index fields "rule")
    let ruleSyntax ← decodeString (JSONValue.index fields "ruleSyntax")
    let priority ← decodeInt (JSONValue.index fields "priority")
    let tls ← decodePointer decodeRouterTLS (JSONValue.index fields "tls")
    let observability ←
      decodePointer decodeObservability (JSONValue.index fields "observability")
    pure
      { ID := id, EntryPoints := entryPoints, Middlewares := middlewares, Service := service,
        Rule := rule, RuleSyntax := ruleSyntax, Priority := priority, TLS := tls,
        Observability := observability })

/-- Decoding the members of an object into a `map[string]T`, in order: each
member is decoded into a fresh element and stored under its key. -/
def decodeEntries {α : Type} (dec : JSONValue → Option α) :
    List (String × JSONValue) → GoMap α → Option (GoMap α)
  | [], acc => some acc
  | (k, v) :: rest, acc =>
    match dec v with
    | some x => decodeEntries dec rest (acc.insert k x)
    | none => none

/-- One of the three keys of the snapshot document: the last member with that
key, if any, decoded as a map. -/
def decodeSnapshotField {α : Type} (dec : JSONValue → Option α)
    (fields : List (String × JSONValue)) (key : String) : Option (store.SnapshotField α) :=
  match fields.reverse.find? (fun kv => kv.1 == key) with
  | none => some store.SnapshotField.absent
  | some (_, JSONValue.null) => some store.SnapshotField.null
  | some (_, JSONValue.object members) =>
    (decodeEntries dec members ∅).map store.SnapshotField.object
  | some _ => none

/-- What `json.Unmarshal(data, &s.data)` decodes the file content into, `none`
when it returns an error.  Keys are matched exactly, and the field decoders
read the last member of a repeated key.  Nested services are followed as deep
as the value is nested. -/
def Unmarshal (data : JSONValue) : Option store.Snapshot :=
  match data with
  | JSONValue.null =>
    some
      { Middlewares := store.SnapshotField.absent, Routers := store.SnapshotField.absent,
        Services := store.SnapshotField.absent }
  | JSONValue.object fields => do
    let middlewares ← decodeSnapshotField decodeMiddleware fields "middlewares"
    let routers ← decodeSnapshotField (decodeRouter data.depth) fields "routers"
    let services ← decodeSnapshotField (decodeService data.depth) fields "services"
    pure { Middlewares := middlewares, Routers := routers, Services := services }
  | _ => none

end json

namespace store

/-- Go `FileStore.save` and `FileStore.Save`: the returned error and the
content written to the file, as a JSON value.  `writeError` is the error of
`os.WriteFile`, `none` when the write succeeds. -/
def FileStore.save (s : FileStore) (writeError : Option String) :
    Option Error × Option JSONValue :=
  match json.MarshalIndent s with
  | Except.error err =>
    (some (Error.wrap (Error.errorf err) ("failed to marshal store data: " ++ err)), none)
  | Except.ok data =>
    match writeError with
    | some err =>
      (some (Error.wrap (Error.errorf err) ("failed to write store data: " ++ err)), none)
    | none => (none, some data)

end store

namespace Sample

open store models

/-- A weighted service whose only item names the service `ghost`. -/
def weightedService : Service :=
  { Service.ofID "w" with
    Weighted := some { Services := [{ Name := Service.ofID "ghost", Weight := 1 }] } }

/-- A failover service from `s1` to `ghost`. -/
def failoverService : Service :=
  { Service.ofID "fo" with
    Failover := some { Service := Service.ofID "s1", Fallback := Service.ofID "ghost" } }

/-- The store holding the services `s1` and `fo` and nothing else. -/
def nestedStore : FileStore :=
  run NewFileStore [Op.CreateService service, Op.CreateService failoverService]

/-- A process environment holding the variables `vars` and no other, with a
file system in which every directory can be created.  The library functions
are stand-ins that are exact on the values met here: paths are absolute and
clean, and no duration variable is set. -/
def environ (vars : List (String × String)) : config.Environ :=
  { Getenv := fun key => (vars.lookup key).getD ""
    TempDir := "/tmp"
    MkdirAll := fun _ => none
    Join := fun dir file => dir ++ "/" ++ file
    Dir := fun path => "/".intercalate (path.splitOn "/").dropLast
    Atoi := fun str => str.toInt?
    ParseDuration := fun _ => none
    Split := fun str sep => str.splitOn sep }

/-- A snapshot document with the router `r1` (service `s1`, middleware `m1`),
`null` for the middlewares and no `services` key. -/
def routersOnlySnapshot : Snapshot :=
  { Middlewares := SnapshotField.null
    Routers := SnapshotField.object ((∅ : GoMap Router).insert "r1" router)
    Services := SnapshotField.absent }

/-- A `POST /routers` body with a priority, a TLS block and an observability
block. -/
def prioritisedBody : List (String × JSONValue) :=
  [("id", JSONValue.string "r9"), ("rule", JSONValue.string "Host(a)"),
   ("service", JSONValue.string "s1"), ("priority", JSONValue.number 5),
   ("tls", JSONValue.object [("certResolver", JSONValue.string "le")]),
   ("observability", JSONValue.object [("metrics", JSONValue.bool true)])]

/-- The store after `POST /routers` with `prioritisedBody` on the store holding
`s1` and `m1`. -/
def prioritisedStore : FileStore :=
  (handlers.RouterHandler.Create setupStore (some prioritisedBody)).2

/-- A `PUT /routers/r9` body that again carries a priority, a TLS block and an
observability block. -/
def prioritisedUpdate : List (String × JSONValue) :=
  [("rule", JSONValue.string "Host(b)"), ("priority", JSONValue.number 7),
   ("tls", JSONValue.object [("certResolver", JSONValue.string "le")]),
   ("observability", JSONValue.object [("metrics", JSONValue.bool true)])]

/-- A `middlewares` array with one well-shaped element and three that are
neither a string nor an object with a string `id`. -/
def mixedMiddlewares : List JSONValue :=
  [JSONValue.number 5, JSONValue.string "m1", JSONValue.object [("name", JSONValue.string "m1")],
   JSONValue.object [("id", JSONValue.number 7)]]

/-- A `POST /routers` body that lists `mixedMiddlewares`. -/
def mixedBody : List (String × JSONValue) :=
  [("id", JSONValue.string "r1"), ("rule", JSONValue.string "Host(a)"),
   ("service", JSONValue.string "s1"), ("middlewares", JSONValue.array mixedMiddlewares)]

end Sample

/-! ## Theorems -/

section Theorems

open store store.FileStore models handlers

theorem router_prefix_injective : Function.Injective (fun r : String => "router:" ++ r) := by
  intro a b h
  have h2 := congrArg String.data h
  simp only [String.data_append] at h2
  exact String.ext (List.append_cancel_left h2)

theorem GoMap.lookup_insert_some {α : Type} {m : GoMap α} {k k' : String} {v r : α}
    (h : (m.insert k v).lookup k' = some r) :
    (k' = k ∧ r = v) ∨ (k' ≠ k ∧ m.lookup k' = some r) := by
  by_cases hk : k' = k
  · subst hk
    rw [AList.lookup_insert] at h
    exact Or.inl ⟨rfl, (Option.some.inj h).symm⟩
  · rw [AList.lookup_insert_ne hk] at h
    exact Or.inr ⟨hk, h⟩

theorem GoMap.lookup_erase_some {α : Type} {m : GoMap α} {k k' : String} {r : α}
    (h : (m.erase k).lookup k' = some r) : k' ≠ k ∧ m.lookup k' = some r := by
  by_cases hk : k' = k
  · subst hk
    rw [AList.lookup_erase] at h
    cases h
  · rw [AList.lookup_erase_ne hk] at h
    exact ⟨hk, h⟩

theorem GoMap.mem_of_lookup {α : Type} {m : GoMap α} {k : String} {r : α}
    (h : m.lookup k = some r) : k ∈ m := by
  rw [← AList.lookup_isSome, h]; rfl

theorem GoMap.isNone_lookup {α : Type} {m : GoMap α} {k : String} :
    (m.lookup k).isNone = true ↔ k ∉ m := by
  rw [Option.isNone_iff_eq_none, AList.lookup_eq_none]

theorem GoMap.isSome_lookup {α : Type} {m : GoMap α} {k : String} :
    (m.lookup k).isSome = true ↔ k ∈ m := AList.lookup_isSome

theorem mem_serviceInUse (s : FileStore) (id x : String) :
    x ∈ (serviceInUse s id).2 ↔
      ∃ rid r, s.Routers.lookup rid = some r ∧ r.Service.ID = id ∧ x = "router:" ++ rid := by
  simp only [serviceInUse, List.mem_map, List.mem_filter, beq_iff_eq]
  constructor
  · rintro ⟨⟨rid, r⟩, ⟨hmem, hid⟩, rfl⟩
    exact ⟨rid, r, AList.mem_lookup_iff.mpr hmem, hid, rfl⟩
  · rintro ⟨rid, r, hl, hid, rfl⟩
    exact ⟨⟨rid, r⟩, ⟨AList.mem_lookup_iff.mp hl, hid⟩, rfl⟩

theorem mem_middlewareInUse (s : FileStore) (id x : String) :
    x ∈ (middlewareInUse s id).2 ↔
      ∃ rid r, s.Routers.lookup rid = some r ∧ (∃ mw ∈ r.Middlewares, mw.ID = id) ∧
        x = "router:" ++ rid := by
  simp only [middlewareInUse, List.mem_map, List.mem_filter, List.any_eq_true, beq_iff_eq]
  constructor
  · rintro ⟨⟨rid, r⟩, ⟨hmem, hid⟩, rfl⟩
    exact ⟨rid, r, AList.mem_lookup_iff.mpr hmem, hid, rfl⟩
  · rintro ⟨rid, r, hl, hid, rfl⟩
    exact ⟨⟨rid, r⟩, ⟨AList.mem_lookup_iff.mp hl, hid⟩, rfl⟩

theorem nodup_usedBy {α : Type} (m : GoMap α) (p : (_ : String) × α → Bool) :
    ((m.entries.filter p).map (fun e => "router:" ++ e.1)).Nodup := by
  have h1 : ((m.entries.filter p).map Sigma.fst).Nodup :=
    List.Nodup.sublist (List.Sublist.map _ (List.filter_sublist _)) m.keys_nodup
  have h2 := List.Nodup.map router_prefix_injective h1
  simpa [List.map_map, Function.comp] using h2

theorem serviceInUse_flag (s : FileStore) (id : String) :
    (serviceInUse s id).1 = true ↔ (serviceInUse s id).2 ≠ [] := by
  simp [serviceInUse, List.length_pos]

theorem middlewareInUse_flag (s : FileStore) (id : String) :
    (middlewareInUse s id).1 = true ↔ (middlewareInUse s id).2 ≠ [] := by
  simp [middlewareInUse, List.length_pos]

theorem serviceInUse_iff (s : FileStore) (id : String) :
    (serviceInUse s id).1 = true ↔
      ∃ rid r, s.Routers.lookup rid = some r ∧ r.Service.ID = id := by
  rw [serviceInUse_flag]
  constructor
  · intro hne
    obtain ⟨x, hx⟩ := List.exists_mem_of_ne_nil _ hne
    obtain ⟨rid, r, h1, h2, _⟩ := (mem_serviceInUse s id x).mp hx
    exact ⟨rid, r, h1, h2⟩
  · rintro ⟨rid, r, h1, h2⟩
    exact List.ne_nil_of_mem ((mem_serviceInUse s id _).mpr ⟨rid, r, h1, h2, rfl⟩)

theorem middlewareInUse_iff (s : FileStore) (id : String) :
    (middlewareInUse s id).1 = true ↔
      ∃ rid r, s.Routers.lookup rid = some r ∧ ∃ mw ∈ r.Middlewares, mw.ID = id := by
  rw [middlewareInUse_flag]
  constructor
  · intro hne
    obtain ⟨x, hx⟩ := List.exists_mem_of_ne_nil _ hne
    obtain ⟨rid, r, h1, h2, _⟩ := (mem_middlewareInUse s id x).mp hx
    exact ⟨rid, r, h1, h2⟩
  · rintro ⟨rid, r, h1, h2⟩
    exact List.ne_nil_of_mem ((mem_middlewareInUse s id _).mpr ⟨rid, r, h1, h2, rfl⟩)

theorem refsOK_new : RefsOK NewFileStore := by
  intro id r h
  simp [NewFileStore, AList.lookup_empty] at h

theorem refsOK_call (s : FileStore) (op : Op) (h : RefsOK s) : RefsOK (op.call s).2 := by
  cases op with
  | CreateMiddleware m =>
    simp only [Op.call, CreateMiddleware]
    split
    · exact h
    · intro id r hr
      obtain ⟨h1, h2⟩ := h id r hr
      exact ⟨h1, fun mw hmw => (AList.mem_insert _).mpr (Or.inr (h2 mw hmw))⟩
  | UpdateMiddleware mid m =>
    simp only [Op.call, UpdateMiddleware]
    split
    · exact h
    · intro id r hr
      obtain ⟨h1, h2⟩ := h id r hr
      exact ⟨h1, fun mw hmw => (AList.mem_insert _).mpr (Or.inr (h2 mw hmw))⟩
  | DeleteMiddleware mid =>
    simp only [Op.call, DeleteMiddleware]
    split
    · exact h
    · split
      · exact h
      · rename_i hu
        intro id r hr
        obtain ⟨h1, h2⟩ := h id r hr
        refine ⟨h1, fun mw hmw => AList.mem_erase.mpr ⟨?_, h2 mw hmw⟩⟩
        intro he
        exact hu ((middlewareInUse_iff s mid).mpr ⟨id, r, hr, mw, hmw, he⟩)
  | CreateRouter router =>
    simp only [Op.call, CreateRouter]
    split
    · exact h
    · split
      · exact h
      · rename_i hs
        split
        · exact h
        · rename_i hf
          intro id r hr
          rcases GoMap.lookup_insert_some hr with ⟨_, rfl⟩ | ⟨_, hr'⟩
          · refine ⟨?_, fun mw hmw => ?_⟩
            · by_contra hc
              exact hs (GoMap.isNone_lookup.mpr hc)
            · have := List.find?_eq_none.mp hf mw hmw
              by_contra hc
              exact this (GoMap.isNone_lookup.mpr hc)
          · exact h id r hr'
  | UpdateRouter rid router =>
    simp only [Op.call, UpdateRouter]
    split
    · exact h
    · rename_i existing hex
      split
      · exact h
      · rename_i hs
        split
        · exact h
        · rename_i hf
          intro id r hr
          rcases GoMap.lookup_insert_some hr with ⟨_, rfl⟩ | ⟨_, hr'⟩
          · refine ⟨?_, fun mw hmw => ?_⟩
            · by_cases hne : router.Service.ID = ""
              · simp only [hne, bne_self_eq_false, Bool.false_eq_true, if_false]
                exact (h rid existing hex).1
              · have hne' : (router.Service.ID != "") = true := by simpa using hne
                simp only [hne', if_true]
                by_contra hc
                apply hs
                simp [hne', GoMap.isNone_lookup.mpr hc]
            · have := List.find?_eq_none.mp hf mw (by
                by_cases hne : router.Service.ID = ""
                · simpa [hne] using hmw
                · have hne' : (router.Service.ID != "") = true := by simpa using hne
                  simpa [hne'] using hmw)
              by_contra hc
              exact this (GoMap.isNone_lookup.mpr hc)
          · exact h id r hr'
  | DeleteRouter rid =>
    simp only [Op.call, DeleteRouter]
    split
    · exact h
    · intro id r hr
      exact h id r (GoMap.lookup_erase_some hr).2
  | CreateService svc =>
    simp only [Op.call, CreateService]
    split
    · exact h
    · intro id r hr
      obtain ⟨h1, h2⟩ := h id r hr
      exact ⟨(AList.mem_insert _).mpr (Or.inr h1), h2⟩
  | UpdateService sid svc =>
    simp only [Op.call, UpdateService]
    split
    · exact h
    · intro id r hr
      obtain ⟨h1, h2⟩ := h id r hr
      exact ⟨(AList.mem_insert _).mpr (Or.inr h1), h2⟩
  | DeleteService sid =>
    simp only [Op.call, DeleteService]
    split
    · exact h
    · split
      · exact h
      · rename_i hu
        intro id r hr
        obtain ⟨h1, h2⟩ := h id r hr
        refine ⟨AList.mem_erase.mpr ⟨?_, h1⟩, h2⟩
        intro he
        exact hu ((serviceInUse_iff s sid).mpr ⟨id, r, hr, he⟩)

theorem refsOK_run (ops : List Op) (s : FileStore) (h : RefsOK s) : RefsOK (run s ops) := by
  induction ops generalizing s with
  | nil => exact h
  | cons op rest ih => exact ih _ (refsOK_call s op h)

theorem keysOK_new : KeysOK NewFileStore := by
  refine ⟨?_, ?_, ?_⟩ <;> intro id r h <;> simp [NewFileStore, AList.lookup_empty] at h

theorem keysOK_call (s : FileStore) (op : Op) (h : KeysOK s) : KeysOK (op.call s).2 := by
  obtain ⟨hm, hr, hs⟩ := h
  cases op with
  | CreateMiddleware m =>
    simp only [Op.call, CreateMiddleware]
    split
    · exact ⟨hm, hr, hs⟩
    · refine ⟨fun id v hv => ?_, hr, hs⟩
      rcases GoMap.lookup_insert_some hv with ⟨rfl, rfl⟩ | ⟨_, hv'⟩
      · rfl
      · exact hm id v hv'
  | UpdateMiddleware mid m =>
    simp only [Op.call, UpdateMiddleware]
    split
    · exact ⟨hm, hr, hs⟩
    · refine ⟨fun id v hv => ?_, hr, hs⟩
      rcases GoMap.lookup_insert_some hv with ⟨rfl, rfl⟩ | ⟨_, hv'⟩
      · rfl
      · exact hm id v hv'
  | DeleteMiddleware mid =>
    simp only [Op.call, DeleteMiddleware]
    split
    · exact ⟨hm, hr, hs⟩
    · split
      · exact ⟨hm, hr, hs⟩
      · exact ⟨fun id v hv => hm id v (GoMap.lookup_erase_some hv).2, hr, hs⟩
  | CreateRouter router =>
    simp only [Op.call, CreateRouter]
    split
    · exact ⟨hm, hr, hs⟩
    · split
      · exact ⟨hm, hr, hs⟩
      · split
        · exact ⟨hm, hr, hs⟩
        · refine ⟨hm, fun id v hv => ?_, hs⟩
          rcases GoMap.lookup_insert_some hv with ⟨rfl, rfl⟩ | ⟨_, hv'⟩
          · rfl
          · exact hr id v hv'
  | UpdateRouter rid router =>
    simp only [Op.call, UpdateRouter]
    split
    · exact ⟨hm, hr, hs⟩
    · split
      · exact ⟨hm, hr, hs⟩
      · split
        · exact ⟨hm, hr, hs⟩
        · refine ⟨hm, fun id v hv => ?_, hs⟩
          rcases GoMap.lookup_insert_some hv with ⟨rfl, rfl⟩ | ⟨_, hv'⟩
          · rfl
          · exact hr id v hv'
  | DeleteRouter rid =>
    simp only [Op.call, DeleteRouter]
    split
    · exact ⟨hm, hr, hs⟩
    · exact ⟨hm, fun id v hv => hr id v (GoMap.lookup_erase_some hv).2, hs⟩
  | CreateService svc =>
    simp only [Op.call, CreateService]
    split
    · exact ⟨hm, hr, hs⟩
    · refine ⟨hm, hr, fun id v hv => ?_⟩
      rcases GoMap.lookup_insert_some hv with ⟨rfl, rfl⟩ | ⟨_, hv'⟩
      · rfl
      · exact hs id v hv'
  | UpdateService sid svc =>
    simp only [Op.call, UpdateService]
    split
    · exact ⟨hm, hr, hs⟩
    · refine ⟨hm, hr, fun id v hv => ?_⟩
      rcases GoMap.lookup_insert_some hv with ⟨rfl, rfl⟩ | ⟨_, hv'⟩
      · rfl
      · exact hs id v hv'
  | DeleteService sid =>
    simp only [Op.call, DeleteService]
    split
    · exact ⟨hm, hr, hs⟩
    · split
      · exact ⟨hm, hr, hs⟩
      · exact ⟨hm, hr, fun id v hv => hs id v (GoMap.lookup_erase_some hv).2⟩

theorem keysOK_run (ops : List Op) (s : FileStore) (h : KeysOK s) : KeysOK (run s ops) := by
  induction ops generalizing s with
  | nil => exact h
  | cons op rest ih => exact ih _ (keysOK_call s op h)

theorem GoMap.map_id_eq_keys {α : Type} (m : GoMap α) (f : α → String)
    (h : ∀ id v, m.lookup id = some v → f v = id) :
    (m.entries.map (fun e => e.2)).map f = m.keys := by
  rw [List.map_map]
  apply List.map_congr_left
  intro e he
  exact h e.1 e.2 (AList.mem_lookup_iff.mpr he)

theorem GoMap.count_ids {α : Type} (m : GoMap α) (f : α → String)
    (h : ∀ id v, m.lookup id = some v → f v = id) (id : String) :
    ((m.entries.map (fun e => e.2)).map f).count id = if (m.lookup id).isSome then 1 else 0 := by
  rw [GoMap.map_id_eq_keys m f h, List.count_eq_of_nodup m.keys_nodup]
  by_cases hk : id ∈ m
  · rw [if_pos (AList.mem_keys.mp hk), if_pos (GoMap.isSome_lookup.mpr hk)]
  · rw [if_neg (fun hc => hk (AList.mem_keys.mpr hc)), if_neg (fun hc => hk (GoMap.isSome_lookup.mp hc))]

theorem GoMap.mem_values_iff {α : Type} (m : GoMap α) (v : α) :
    v ∈ m.entries.map (fun e => e.2) ↔ ∃ id, m.lookup id = some v := by
  simp only [List.mem_map]
  constructor
  · rintro ⟨⟨k, w⟩, he, rfl⟩
    exact ⟨k, AList.mem_lookup_iff.mpr he⟩
  · rintro ⟨k, hk⟩
    exact ⟨⟨k, v⟩, AList.mem_lookup_iff.mp hk, rfl⟩

theorem GoMap.exists_value_of_mem {α : Type} (m : GoMap α) (k : String) (hk : k ∈ m) :
    ∃ v, m.lookup k = some v := by
  have := GoMap.isSome_lookup.mpr hk
  exact Option.isSome_iff_exists.mp this

/-- C1: starting from the empty store, after any finite sequence of create,
update and delete calls (each succeeding or failing), every stored router's
`Service.ID` is the ID of a stored service and every ID in its `Middlewares`
list is the ID of a stored middleware. -/
theorem routers_reference_stored_resources (ops : List Op) (r : Router)
    (h : r ∈ ListRouters (run NewFileStore ops)) :
    (∃ svc ∈ ListServices (run NewFileStore ops), svc.ID = r.Service.ID) ∧
      ∀ mw ∈ r.Middlewares, ∃ m ∈ ListMiddlewares (run NewFileStore ops), m.ID = mw.ID := by
  have hrefs := refsOK_run ops NewFileStore refsOK_new
  obtain ⟨hkm, _, hks⟩ := keysOK_run ops NewFileStore keysOK_new
  obtain ⟨rid, hrid⟩ := (GoMap.mem_values_iff _ r).mp h
  obtain ⟨h1, h2⟩ := hrefs rid r hrid
  constructor
  · obtain ⟨svc, hsvc⟩ := GoMap.exists_value_of_mem _ _ h1
    exact ⟨svc, (GoMap.mem_values_iff _ svc).mpr ⟨_, hsvc⟩, hks _ _ hsvc⟩
  · intro mw hmw
    obtain ⟨m, hm⟩ := GoMap.exists_value_of_mem _ _ (h2 mw hmw)
    exact ⟨m, (GoMap.mem_values_iff _ m).mpr ⟨_, hm⟩, hkm _ _ hm⟩

/-- C9: in every store reachable from the empty store, each record is stored
under its own ID in each of the three kinds, and `ListK` returns exactly one
record with a given ID when that ID is stored and none otherwise. -/
theorem records_stored_under_own_id (ops : List Op) :
    ((∀ id m, (run NewFileStore ops).Middlewares.lookup id = some m → m.ID = id) ∧
      (∀ id r, (run NewFileStore ops).Routers.lookup id = some r → r.ID = id) ∧
      (∀ id v, (run NewFileStore ops).Services.lookup id = some v → v.ID = id)) ∧
    (∀ id, ((ListMiddlewares (run NewFileStore ops)).map (fun m => m.ID)).count id =
      if MiddlewareExists (run NewFileStore ops) id then 1 else 0) ∧
    (∀ id, ((ListRouters (run NewFileStore ops)).map (fun r => r.ID)).count id =
      if RouterExists (run NewFileStore ops) id then 1 else 0) ∧
    (∀ id, ((ListServices (run NewFileStore ops)).map (fun v => v.ID)).count id =
      if ServiceExists (run NewFileStore ops) id then 1 else 0) := by
  have hk := keysOK_run ops NewFileStore keysOK_new
  exact ⟨hk, fun id => GoMap.count_ids _ _ hk.1 id, fun id => GoMap.count_ids _ _ hk.2.1 id,
    fun id => GoMap.count_ids _ _ hk.2.2 id⟩

theorem isNone_of_isSome_false {α : Type} {o : Option α} (h : o.isSome = false) :
    o.isNone = true := by
  cases o <;> simp_all

theorem isNone_false_of_isSome {α : Type} {o : Option α} (h : o.isSome = true) :
    ¬ (o.isNone = true) := by
  cases o <;> simp_all

theorem isSome_of_not_isNone {α : Type} {o : Option α} (h : ¬ (o.isNone = true)) :
    o.isSome = true := by
  cases o <;> simp_all

theorem CreateRouter_of_exists (s : FileStore) (r : Router) (h : RouterExists s r.ID = true) :
    CreateRouter s r = (some Error.ErrAlreadyExists, s) := by
  unfold CreateRouter
  rw [if_pos (show (s.Routers.lookup r.ID).isSome = true from h)]

theorem CreateRouter_of_no_service (s : FileStore) (r : Router)
    (hr : RouterExists s r.ID = false) (hs : ServiceExists s r.Service.ID = false) :
    CreateRouter s r =
      (some (Error.errorf ("service " ++ r.Service.ID ++ " not found")), s) := by
  unfold CreateRouter
  rw [if_neg (by rw [show (s.Routers.lookup r.ID).isSome = false from hr]; simp),
    if_pos (isNone_of_isSome_false hs)]

theorem CreateRouter_of_missing (s : FileStore) (r : Router) (mw : Middleware)
    (hr : RouterExists s r.ID = false) (hs : ServiceExists s r.Service.ID = true)
    (hf : r.Middlewares.find? (fun mw => (s.Middlewares.lookup mw.ID).isNone) = some mw) :
    CreateRouter s r = (some (Error.errorf ("middleware " ++ mw.ID ++ " not found")), s) := by
  unfold CreateRouter
  rw [if_neg (by rw [show (s.Routers.lookup r.ID).isSome = false from hr]; simp),
    if_neg (isNone_false_of_isSome hs), hf]

theorem CreateRouter_of_all_stored (s : FileStore) (r : Router)
    (hr : RouterExists s r.ID = false) (hs : ServiceExists s r.Service.ID = true)
    (hf : r.Middlewares.find? (fun mw => (s.Middlewares.lookup mw.ID).isNone) = none) :
    CreateRouter s r = (none, { s with Routers := s.Routers.insert r.ID r }) := by
  unfold CreateRouter
  rw [if_neg (by rw [show (s.Routers.lookup r.ID).isSome = false from hr]; simp),
    if_neg (isNone_false_of_isSome hs), hf]

theorem find_missing_eq_none (s : FileStore) (mws : List Middleware) :
    mws.find? (fun mw => (s.Middlewares.lookup mw.ID).isNone) = none ↔
      ∀ mw ∈ mws, MiddlewareExists s mw.ID = true := by
  rw [List.find?_eq_none]
  constructor
  · intro h mw hmw
    exact isSome_of_not_isNone (h mw hmw)
  · intro h mw hmw
    exact isNone_false_of_isSome (h mw hmw)

theorem find_missing_eq_some (s : FileStore) (mws : List Middleware) (mw : Middleware)
    (h : mws.find? (fun mw => (s.Middlewares.lookup mw.ID).isNone) = some mw) :
    mw ∈ mws ∧ MiddlewareExists s mw.ID = false := by
  refine ⟨List.mem_of_find?_eq_some h, ?_⟩
  have h2 := List.find?_some h
  simp only [MiddlewareExists]
  cases hl : s.Middlewares.lookup mw.ID with
  | none => rfl
  | some v => rw [hl] at h2; simp at h2

/-- C2: `CreateRouter r` returns `ErrAlreadyExists` when `r.ID` is stored;
otherwise the error `service <id> not found` when `r.Service.ID` is not a
stored service; otherwise the error `middleware <id> not found` for a listed
middleware that is not stored; otherwise nil, and the store then maps `r.ID`
to `r`.  It succeeds exactly when none of the failure conditions holds. -/
theorem createRouter_outcome (s : FileStore) (r : Router) :
    (RouterExists s r.ID = true → CreateRouter s r = (some Error.ErrAlreadyExists, s)) ∧
    (RouterExists s r.ID = false → ServiceExists s r.Service.ID = false →
      CreateRouter s r = (some (Error.errorf ("service " ++ r.Service.ID ++ " not found")), s)) ∧
    (RouterExists s r.ID = false → ServiceExists s r.Service.ID = true →
      (∃ mw ∈ r.Middlewares, MiddlewareExists s mw.ID = false) →
      ∃ mw ∈ r.Middlewares, MiddlewareExists s mw.ID = false ∧
        CreateRouter s r = (some (Error.errorf ("middleware " ++ mw.ID ++ " not found")), s)) ∧
    (RouterExists s r.ID = false → ServiceExists s r.Service.ID = true →
      (∀ mw ∈ r.Middlewares, MiddlewareExists s mw.ID = true) →
      (CreateRouter s r).1 = none ∧ GetRouter (CreateRouter s r).2 r.ID = Except.ok r ∧
        (CreateRouter s r).2 = { s with Routers := s.Routers.insert r.ID r }) ∧
    ((CreateRouter s r).1 = none ↔
      (RouterExists s r.ID = false ∧ ServiceExists s r.Service.ID = true ∧
        ∀ mw ∈ r.Middlewares, MiddlewareExists s mw.ID = true)) := by
  refine ⟨CreateRouter_of_exists s r, CreateRouter_of_no_service s r, ?_, ?_, ?_⟩
  · rintro hr hs ⟨mw0, hmw0, hmiss⟩
    cases hf : r.Middlewares.find? (fun mw => (s.Middlewares.lookup mw.ID).isNone) with
    | some mw =>
      obtain ⟨h1, h2⟩ := find_missing_eq_some s _ mw hf
      exact ⟨mw, h1, h2, CreateRouter_of_missing s r mw hr hs hf⟩
    | none =>
      have := (find_missing_eq_none s _).mp hf mw0 hmw0
      rw [hmiss] at this
      cases this
  · intro hr hs hm
    rw [CreateRouter_of_all_stored s r hr hs ((find_missing_eq_none s _).mpr hm)]
    refine ⟨rfl, ?_, rfl⟩
    simp only [GetRouter, AList.lookup_insert]
  · constructor
    · intro hnone
      cases hr : RouterExists s r.ID with
      | true =>
        rw [CreateRouter_of_exists s r hr] at hnone
        cases hnone
      | false =>
        cases hs : ServiceExists s r.Service.ID with
        | false =>
          rw [CreateRouter_of_no_service s r hr hs] at hnone
          cases hnone
        | true =>
          refine ⟨rfl, rfl, ?_⟩
          cases hf : r.Middlewares.find? (fun mw => (s.Middlewares.lookup mw.ID).isNone) with
          | some mw =>
            rw [CreateRouter_of_missing s r mw hr hs hf] at hnone
            cases hnone
          | none => exact (find_missing_eq_none s _).mp hf
    · rintro ⟨hr, hs, hm⟩
      rw [CreateRouter_of_all_stored s r hr hs ((find_missing_eq_none s _).mpr hm)]

theorem serviceInUse_iff_list (s : FileStore) (id : String) :
    (serviceInUse s id).1 = true ↔ ∃ r ∈ ListRouters s, r.Service.ID = id := by
  rw [serviceInUse_iff]
  constructor
  · rintro ⟨rid, r, h1, h2⟩
    exact ⟨r, (GoMap.mem_values_iff _ r).mpr ⟨rid, h1⟩, h2⟩
  · rintro ⟨r, hr, h2⟩
    obtain ⟨rid, h1⟩ := (GoMap.mem_values_iff _ r).mp hr
    exact ⟨rid, r, h1, h2⟩

theorem middlewareInUse_iff_list (s : FileStore) (id : String) :
    (middlewareInUse s id).1 = true ↔
      ∃ r ∈ ListRouters s, ∃ mw ∈ r.Middlewares, mw.ID = id := by
  rw [middlewareInUse_iff]
  constructor
  · rintro ⟨rid, r, h1, h2⟩
    exact ⟨r, (GoMap.mem_values_iff _ r).mpr ⟨rid, h1⟩, h2⟩
  · rintro ⟨r, hr, h2⟩
    obtain ⟨rid, h1⟩ := (GoMap.mem_values_iff _ r).mp hr
    exact ⟨rid, r, h1, h2⟩

/-- C3: `DeleteService id` and `DeleteMiddleware id` return `ErrNotFound`
when `id` is absent; when `id` is present and some stored router references it
they return an error for which `IsResourceInUse` is true and the resource stays
stored; when `id` is present and unreferenced they return nil and the resource
is removed. -/
theorem delete_service_middleware_outcome (s : FileStore) (id : String) :
    (ServiceExists s id = false → DeleteService s id = (some Error.ErrNotFound, s)) ∧
    (ServiceExists s id = true → (∃ r ∈ ListRouters s, r.Service.ID = id) →
      ∃ err, DeleteService s id = (some err, s) ∧ IsResourceInUse err = true ∧
        ServiceExists (DeleteService s id).2 id = true) ∧
    (ServiceExists s id = true → (∀ r ∈ ListRouters s, r.Service.ID ≠ id) →
      DeleteService s id = (none, { s with Services := s.Services.erase id }) ∧
        ServiceExists (DeleteService s id).2 id = false) ∧
    (MiddlewareExists s id = false → DeleteMiddleware s id = (some Error.ErrNotFound, s)) ∧
    (MiddlewareExists s id = true →
      (∃ r ∈ ListRouters s, ∃ mw ∈ r.Middlewares, mw.ID = id) →
      ∃ err, DeleteMiddleware s id = (some err, s) ∧ IsResourceInUse err = true ∧
        MiddlewareExists (DeleteMiddleware s id).2 id = true) ∧
    (MiddlewareExists s id = true →
      (∀ r ∈ ListRouters s, ∀ mw ∈ r.Middlewares, mw.ID ≠ id) →
      DeleteMiddleware s id = (none, { s with Middlewares := s.Middlewares.erase id }) ∧
        MiddlewareExists (DeleteMiddleware s id).2 id = false) := by
  refine ⟨?_, ?_, ?_, ?_, ?_, ?_⟩
  · intro h
    unfold DeleteService
    rw [if_pos (isNone_of_isSome_false h)]
  · intro h hu
    have hin := (serviceInUse_iff_list s id).mpr hu
    have heq : DeleteService s id = (some (Error.wrap Error.ErrResourceInUse
        (Error.ErrResourceInUse.Message ++ ": " ++ sprintStrings (serviceInUse s id).2)), s) := by
      unfold DeleteService
      rw [if_neg (isNone_false_of_isSome h), if_pos hin]
    refine ⟨_, heq, ?_, ?_⟩
    · simp [IsResourceInUse, Error.Is]
    · rw [heq]; exact h
  · intro h hu
    have hin : ¬ ((serviceInUse s id).1 = true) := by
      intro hc
      obtain ⟨r, hr, he⟩ := (serviceInUse_iff_list s id).mp hc
      exact hu r hr he
    have heq : DeleteService s id = (none, { s with Services := s.Services.erase id }) := by
      unfold DeleteService
      rw [if_neg (isNone_false_of_isSome h), if_neg hin]
    refine ⟨heq, ?_⟩
    rw [heq]
    simp only [ServiceExists, AList.lookup_erase, Option.isSome_none]
  · intro h
    unfold DeleteMiddleware
    rw [if_pos (isNone_of_isSome_false h)]
  · intro h hu
    have hin := (middlewareInUse_iff_list s id).mpr hu
    have heq : DeleteMiddleware s id = (some Error.ErrResourceInUse, s) := by
      unfold DeleteMiddleware
      rw [if_neg (isNone_false_of_isSome h), if_pos hin]
    refine ⟨_, heq, ?_, ?_⟩
    · simp [IsResourceInUse, Error.Is]
    · rw [heq]; exact h
  · intro h hu
    have hin : ¬ ((middlewareInUse s id).1 = true) := by
      intro hc
      obtain ⟨r, hr, mw, hmw, he⟩ := (middlewareInUse_iff_list s id).mp hc
      exact hu r hr mw hmw he
    have heq : DeleteMiddleware s id = (none, { s with Middlewares := s.Middlewares.erase id }) := by
      unfold DeleteMiddleware
      rw [if_neg (isNone_false_of_isSome h), if_neg hin]
    refine ⟨heq, ?_⟩
    rw [heq]
    simp only [MiddlewareExists, AList.lookup_erase, Option.isSome_none]

/-- C4: the list returned by `ServiceInUse id` holds `router:<r>` exactly
once for each stored router `r` whose `Service.ID` is `id` and nothing else, and
the flag is true iff the list is non-empty; `MiddlewareInUse id` does the same
for the routers whose `Middlewares` contain `id`, once per router; `RouterInUse`
returns `(false, [])`. -/
theorem inUse_lists_referring_routers (s : FileStore) (id : String) :
    ((∀ rid r, s.Routers.lookup rid = some r → r.Service.ID = id →
        (ServiceInUse s id).2.count ("router:" ++ rid) = 1) ∧
      (∀ x ∈ (ServiceInUse s id).2,
        ∃ rid r, s.Routers.lookup rid = some r ∧ r.Service.ID = id ∧ x = "router:" ++ rid) ∧
      ((ServiceInUse s id).1 = true ↔ (ServiceInUse s id).2 ≠ [])) ∧
    ((∀ rid r, s.Routers.lookup rid = some r → (∃ mw ∈ r.Middlewares, mw.ID = id) →
        (MiddlewareInUse s id).2.count ("router:" ++ rid) = 1) ∧
      (∀ x ∈ (MiddlewareInUse s id).2,
        ∃ rid r, s.Routers.lookup rid = some r ∧ (∃ mw ∈ r.Middlewares, mw.ID = id) ∧
          x = "router:" ++ rid) ∧
      ((MiddlewareInUse s id).1 = true ↔ (MiddlewareInUse s id).2 ≠ [])) ∧
    RouterInUse s id = (false, []) := by
  refine ⟨⟨?_, ?_, serviceInUse_flag s id⟩, ⟨?_, ?_, middlewareInUse_flag s id⟩, rfl⟩
  · intro rid r h1 h2
    exact List.count_eq_one_of_mem (nodup_usedBy _ _)
      ((mem_serviceInUse s id _).mpr ⟨rid, r, h1, h2, rfl⟩)
  · intro x hx
    exact (mem_serviceInUse s id x).mp hx
  · intro rid r h1 h2
    exact List.count_eq_one_of_mem (nodup_usedBy _ _)
      ((mem_middlewareInUse s id _).mpr ⟨rid, r, h1, h2, rfl⟩)
  · intro x hx
    exact (mem_middlewareInUse s id x).mp hx

/-- C5: a create, update or delete call that returns an error leaves the
three maps of the store as they were. -/
theorem failed_call_leaves_store_unchanged (s : FileStore) (op : Op)
    (h : (op.call s).1 ≠ none) : (op.call s).2 = s := by
  cases op with
  | CreateMiddleware m =>
    simp only [Op.call, CreateMiddleware] at h ⊢
    split
    · rfl
    · rename_i hc; rw [if_neg hc] at h; exact absurd rfl h
  | UpdateMiddleware mid m =>
    simp only [Op.call, UpdateMiddleware] at h ⊢
    split
    · rfl
    · rename_i hc; rw [if_neg hc] at h; exact absurd rfl h
  | DeleteMiddleware mid =>
    simp only [Op.call, DeleteMiddleware] at h ⊢
    split
    · rfl
    · split
      · rfl
      · rename_i hc hd; rw [if_neg hc, if_neg hd] at h; exact absurd rfl h
  | CreateRouter router =>
    simp only [Op.call, CreateRouter] at h ⊢
    split
    · rfl
    · split
      · rfl
      · rename_i hc hd
        rw [if_neg hc, if_neg hd] at h
        split
        · rfl
        · rename_i hf; rw [hf] at h; exact absurd rfl h
  | UpdateRouter rid router =>
    simp only [Op.call, UpdateRouter] at h ⊢
    split
    · rfl
    · rename_i existing hex
      split
      · rfl
      · rename_i hd
        rw [hex] at h
        simp only [] at h
        rw [if_neg hd] at h
        split
        · rfl
        · rename_i hf; rw [hf] at h; exact absurd rfl h
  | DeleteRouter rid =>
    simp only [Op.call, DeleteRouter] at h ⊢
    split
    · rfl
    · rename_i hc; rw [if_neg hc] at h; exact absurd rfl h
  | CreateService svc =>
    simp only [Op.call, CreateService] at h ⊢
    split
    · rfl
    · rename_i hc; rw [if_neg hc] at h; exact absurd rfl h
  | UpdateService sid svc =>
    simp only [Op.call, UpdateService] at h ⊢
    split
    · rfl
    · rename_i hc; rw [if_neg hc] at h; exact absurd rfl h
  | DeleteService sid =>
    simp only [Op.call, DeleteService] at h ⊢
    split
    · rfl
    · split
      · rfl
      · rename_i hc hd; rw [if_neg hc, if_neg hd] at h; exact absurd rfl h

theorem UpdateRouter_success (s : FileStore) (id : String) (r : Router)
    (h : (UpdateRouter s id r).1 = none) :
    ∃ prev, s.Routers.lookup id = some prev ∧
      (r.Service.ID ≠ "" → ServiceExists s r.Service.ID = true) ∧
      (∀ mw ∈ r.Middlewares, MiddlewareExists s mw.ID = true) ∧
      (UpdateRouter s id r).2 =
        { Middlewares := s.Middlewares, Services := s.Services,
          Routers := s.Routers.insert id { r with
            ID := id, Service := if r.Service.ID = "" then prev.Service else r.Service } } := by
  unfold UpdateRouter at h ⊢
  cases hl : s.Routers.lookup id with
  | none => rw [hl] at h; cases h
  | some prev =>
    rw [hl] at h
    simp only [] at h ⊢
    by_cases hne : r.Service.ID = ""
    · have hb : (r.Service.ID != "") = false := by simp [hne]
      simp only [hb, Bool.false_and, Bool.false_eq_true, if_false] at h ⊢
      cases hf : r.Middlewares.find? (fun mw => (s.Middlewares.lookup mw.ID).isNone) with
      | some mw => rw [hf] at h; cases h
      | none =>
        refine ⟨prev, rfl, fun hc => absurd hne hc, (find_missing_eq_none s _).mp hf, ?_⟩
        simp only [if_pos hne]
    · have hb : (r.Service.ID != "") = true := by simp [hne]
      simp only [hb, Bool.true_and, if_true] at h ⊢
      by_cases hsv : (s.Services.lookup r.Service.ID).isNone = true
      · rw [if_pos hsv] at h; cases h
      · rw [if_neg hsv] at h ⊢
        cases hf : r.Middlewares.find? (fun mw => (s.Middlewares.lookup mw.ID).isNone) with
        | some mw => rw [hf] at h; cases h
        | none =>
          refine ⟨prev, rfl, fun _ => isSome_of_not_isNone hsv,
            (find_missing_eq_none s _).mp hf, ?_⟩
          simp only [if_neg hne]

/-- C6: a successful `UpdateRouter id r` stores the previous router's
`Service` when `r.Service.ID` is empty, and `r.Service`, which must be stored,
when it is not; the stored `Middlewares` list is `r.Middlewares`, so an empty
list leaves the router without middlewares. -/
theorem updateRouter_service_and_middlewares (s : FileStore) (id : String) (r : Router)
    (h : (UpdateRouter s id r).1 = none) :
    ∃ prev stored, GetRouter s id = Except.ok prev ∧
      GetRouter (UpdateRouter s id r).2 id = Except.ok stored ∧
      (r.Service.ID = "" → stored.Service = prev.Service) ∧
      (r.Service.ID ≠ "" → ServiceExists s r.Service.ID = true ∧ stored.Service = r.Service) ∧
      stored.Middlewares = r.Middlewares ∧
      (r.Middlewares = [] → stored.Middlewares = []) := by
  obtain ⟨prev, hprev, hsvc, _, heq⟩ := UpdateRouter_success s id r h
  refine ⟨prev, { r with
    ID := id, Service := if r.Service.ID = "" then prev.Service else r.Service },
    ?_, ?_, ?_, ?_, rfl, fun he => he⟩
  · simp only [GetRouter, hprev]
  · rw [heq]
    simp only [GetRouter, AList.lookup_insert]
  · intro he
    simp only [if_pos he]
  · intro hne
    exact ⟨hsvc hne, by simp only [if_neg hne]⟩

/-- C7: for each kind, `UpdateK id r` returns `ErrNotFound` when `id` is not
stored; when it succeeds the record stored under `id` has ID `id` whatever
`r.ID` was, and exactly the IDs stored before are stored after (so nothing is
added under `r.ID`). -/
theorem update_keeps_path_id (s : FileStore) (id : String) :
    (∀ m : Middleware,
      (MiddlewareExists s id = false → UpdateMiddleware s id m = (some Error.ErrNotFound, s)) ∧
      ((UpdateMiddleware s id m).1 = none →
        (∃ stored, GetMiddleware (UpdateMiddleware s id m).2 id = Except.ok stored ∧
          stored.ID = id) ∧
        ∀ k, MiddlewareExists (UpdateMiddleware s id m).2 k = MiddlewareExists s k)) ∧
    (∀ v : Service,
      (ServiceExists s id = false → UpdateService s id v = (some Error.ErrNotFound, s)) ∧
      ((UpdateService s id v).1 = none →
        (∃ stored, GetService (UpdateService s id v).2 id = Except.ok stored ∧
          stored.ID = id) ∧
        ∀ k, ServiceExists (UpdateService s id v).2 k = ServiceExists s k)) ∧
    (∀ r : Router,
      (RouterExists s id = false → UpdateRouter s id r = (some Error.ErrNotFound, s)) ∧
      ((UpdateRouter s id r).1 = none →
        (∃ stored, GetRouter (UpdateRouter s id r).2 id = Except.ok stored ∧
          stored.ID = id) ∧
        ∀ k, RouterExists (UpdateRouter s id r).2 k = RouterExists s k)) := by
  have hex : ∀ {α : Type} (m : GoMap α) (v : α) (k : String),
      (m.lookup id).isSome = true →
      ((m.insert id v).lookup k).isSome = (m.lookup k).isSome := by
    intro α m v k hid
    by_cases hk : k = id
    · subst hk
      rw [AList.lookup_insert, hid]
      rfl
    · rw [AList.lookup_insert_ne hk]
  refine ⟨fun m => ⟨?_, ?_⟩, fun v => ⟨?_, ?_⟩, fun r => ⟨?_, ?_⟩⟩
  · intro h
    unfold UpdateMiddleware
    rw [if_pos (isNone_of_isSome_false h)]
  · intro h
    unfold UpdateMiddleware at h ⊢
    by_cases hc : (s.Middlewares.lookup id).isNone = true
    · rw [if_pos hc] at h; cases h
    · rw [if_neg hc]
      refine ⟨⟨{ m with ID := id }, ?_, rfl⟩, fun k => hex _ _ k (isSome_of_not_isNone hc)⟩
      simp only [GetMiddleware, AList.lookup_insert]
  · intro h
    unfold UpdateService
    rw [if_pos (isNone_of_isSome_false h)]
  · intro h
    unfold UpdateService at h ⊢
    by_cases hc : (s.Services.lookup id).isNone = true
    · rw [if_pos hc] at h; cases h
    · rw [if_neg hc]
      refine ⟨⟨{ v with ID := id }, ?_, rfl⟩, fun k => hex _ _ k (isSome_of_not_isNone hc)⟩
      simp only [GetService, AList.lookup_insert]
  · intro h
    unfold UpdateRouter
    have : s.Routers.lookup id = none := by
      simp only [RouterExists] at h
      cases hl : s.Routers.lookup id with
      | none => rfl
      | some v => rw [hl] at h; cases h
    rw [this]
  · intro h
    obtain ⟨prev, hprev, _, _, heq⟩ := UpdateRouter_success s id r h
    rw [heq]
    refine ⟨⟨{ r with
      ID := id, Service := if r.Service.ID = "" then prev.Service else r.Service }, ?_, rfl⟩,
      fun k => hex _ _ k (by rw [hprev]; rfl)⟩
    simp only [GetRouter, AList.lookup_insert]

/-- Witness for C1 on the store holding `s1`, `m1` and `r1`. -/
theorem routers_reference_stored_resources_witness :
    Sample.router ∈ ListRouters (run NewFileStore Sample.ops) ∧
    ((∃ svc ∈ ListServices (run NewFileStore Sample.ops), svc.ID = Sample.router.Service.ID) ∧
      ∀ mw ∈ Sample.router.Middlewares,
        ∃ m ∈ ListMiddlewares (run NewFileStore Sample.ops), m.ID = mw.ID) :=
  ⟨List.mem_cons_self _ _,
    routers_reference_stored_resources Sample.ops Sample.router (List.mem_cons_self _ _)⟩

/-- Witness for C2: creating `r1` on the store holding `s1` and `m1` succeeds
and stores it. -/
theorem createRouter_outcome_witness :
    (CreateRouter Sample.setupStore Sample.router).1 = none ∧
      GetRouter (CreateRouter Sample.setupStore Sample.router).2 Sample.router.ID =
        Except.ok Sample.router ∧
      (CreateRouter Sample.setupStore Sample.router).2 =
        { Sample.setupStore with
          Routers := Sample.setupStore.Routers.insert Sample.router.ID Sample.router } :=
  (createRouter_outcome Sample.setupStore Sample.router).2.2.2.1
    (by decide) (by decide) (by decide)

/-- Witness for C3: deleting `s1` while `r1` uses it fails with an in-use
error and keeps `s1`. -/
theorem delete_service_middleware_outcome_witness :
    ∃ err, DeleteService Sample.fullStore "s1" = (some err, Sample.fullStore) ∧
      IsResourceInUse err = true ∧
      ServiceExists (DeleteService Sample.fullStore "s1").2 "s1" = true :=
  (delete_service_middleware_outcome Sample.fullStore "s1").2.1 (by decide)
    ⟨Sample.router, List.mem_cons_self _ _, rfl⟩

/-- Witness for C5: the failing delete of the used service `s1`. -/
theorem failed_call_leaves_store_unchanged_witness :
    (Op.call Sample.fullStore (Op.DeleteService "s1")).1 ≠ none ∧
      (Op.call Sample.fullStore (Op.DeleteService "s1")).2 = Sample.fullStore :=
  ⟨by decide,
    failed_call_leaves_store_unchanged Sample.fullStore (Op.DeleteService "s1") (by decide)⟩

/-- Witness for C6: updating `r1` with a body that has no service and no
middlewares. -/
theorem updateRouter_service_and_middlewares_witness :
    (UpdateRouter Sample.fullStore "r1" Sample.routerUpdate).1 = none ∧
    ∃ prev stored, GetRouter Sample.fullStore "r1" = Except.ok prev ∧
      GetRouter (UpdateRouter Sample.fullStore "r1" Sample.routerUpdate).2 "r1" =
        Except.ok stored ∧
      (Sample.routerUpdate.Service.ID = "" → stored.Service = prev.Service) ∧
      (Sample.routerUpdate.Service.ID ≠ "" →
        ServiceExists Sample.fullStore Sample.routerUpdate.Service.ID = true ∧
          stored.Service = Sample.routerUpdate.Service) ∧
      stored.Middlewares = Sample.routerUpdate.Middlewares ∧
      (Sample.routerUpdate.Middlewares = [] → stored.Middlewares = []) :=
  ⟨by decide,
    updateRouter_service_and_middlewares Sample.fullStore "r1" Sample.routerUpdate (by decide)⟩

/-- Witness for C7: updating `r1` with a body whose ID is `zz`. -/
theorem update_keeps_path_id_witness :
    (∃ stored,
      GetRouter (UpdateRouter Sample.fullStore "r1" Sample.routerUpdate).2 "r1" =
        Except.ok stored ∧ stored.ID = "r1") ∧
    ∀ k, RouterExists (UpdateRouter Sample.fullStore "r1" Sample.routerUpdate).2 k =
      RouterExists Sample.fullStore k :=
  ((update_keeps_path_id Sample.fullStore "r1").2.2 Sample.routerUpdate).2 (by decide)

/-- C8: the router case fails on the code.  `PUT /routers/r1` with a body
whose id is `r2` is answered with 200 and rewrites `r1`, while the middleware
and service handlers answer a mismatching body id with 400 and leave the store
unchanged. -/
theorem put_router_ignores_body_id :
    ((RouterHandler.Update Sample.fullStore "r1" (some Sample.putRouterBody)).1.status = 200 ∧
      ((RouterHandler.Update Sample.fullStore "r1" (some Sample.putRouterBody)).2.Routers.lookup "r1").map
        (fun r => r.Rule) = some "Host(b)" ∧
      (Sample.fullStore.Routers.lookup "r1").map (fun r => r.Rule) = some "Host(a)") ∧
    (∀ (s : FileStore) (id : String) (m : Middleware), m.ID ≠ "" → m.ID ≠ id →
      (MiddlewareHandler.Update s id (some m)).1.status = 400 ∧
        (MiddlewareHandler.Update s id (some m)).2 = s) ∧
    (∀ (s : FileStore) (id : String) (v : Service), v.ID ≠ "" → v.ID ≠ id →
      (ServiceHandler.Update s id (some v)).1.status = 400 ∧
        (ServiceHandler.Update s id (some v)).2 = s) := by
  refine ⟨⟨by decide, by decide, by decide⟩, ?_, ?_⟩
  · intro s id m h1 h2
    have hb : (m.ID != "" && m.ID != id) = true := by simp [h1, h2]
    simp only [MiddlewareHandler.Update, hb, if_true, and_self]
  · intro s id v h1 h2
    have hb : (v.ID != "" && v.ID != id) = true := by simp [h1, h2]
    simp only [ServiceHandler.Update, hb, if_true, and_self]

/-- C10: for a service with at least one form populated, `convertService` sets
exactly one of `loadBalancer`, `weighted`, `mirroring`, `failover`, chosen by
the first populated form in the order URL, LoadBalancer, Weighted, Mirroring,
Failover (URL and LoadBalancer both give `loadBalancer`), and the output does
not depend on any later form. -/
theorem convertService_first_form (svc : models.Service)
    (h : svc.URL ≠ "" ∨ svc.LoadBalancer.isSome = true ∨ svc.Weighted.isSome = true ∨
      svc.Mirroring.isSome = true ∨ svc.Failover.isSome = true) :
    ((convertService svc).LoadBalancer.isSome.toNat + (convertService svc).Weighted.isSome.toNat +
      (convertService svc).Mirroring.isSome.toNat + (convertService svc).Failover.isSome.toNat = 1) ∧
    ((svc.URL ≠ "" ∨ svc.LoadBalancer.isSome = true) →
      (convertService svc).LoadBalancer.isSome = true) ∧
    (svc.URL = "" → svc.LoadBalancer = none → svc.Weighted.isSome = true →
      (convertService svc).Weighted.isSome = true) ∧
    (svc.URL = "" → svc.LoadBalancer = none → svc.Weighted.isNone = true →
      svc.Mirroring.isSome = true → (convertService svc).Mirroring.isSome = true) ∧
    (svc.URL = "" → svc.LoadBalancer = none → svc.Weighted.isNone = true →
      svc.Mirroring.isNone = true → svc.Failover.isSome = true →
      (convertService svc).Failover.isSome = true) ∧
    (∀ svc' : models.Service, svc.URL ≠ "" → svc'.URL = svc.URL →
      convertService svc' = convertService svc) ∧
    (∀ svc' : models.Service, svc.URL = "" → svc.LoadBalancer.isSome = true →
      svc'.URL = "" → svc'.LoadBalancer = svc.LoadBalancer →
      convertService svc' = convertService svc) ∧
    (∀ svc' : models.Service, svc.URL = "" → svc.LoadBalancer = none →
      svc.Weighted.isSome = true → svc'.URL = "" → svc'.LoadBalancer = none →
      svc'.Weighted = svc.Weighted → convertService svc' = convertService svc) ∧
    (∀ svc' : models.Service, svc.URL = "" → svc.LoadBalancer = none →
      svc.Weighted.isNone = true → svc.Mirroring.isSome = true → svc'.URL = "" →
      svc'.LoadBalancer = none → svc'.Weighted.isNone = true →
      svc'.Mirroring = svc.Mirroring → convertService svc' = convertService svc) := by
  obtain ⟨id, ty, url, lb, w, m, f⟩ := svc
  simp only at h
  by_cases hu : url = ""
  · subst hu
    cases lb with
    | some lb =>
      refine ⟨by simp [convertService], by simp [convertService], by simp, by simp, by simp,
        by simp, ?_, by simp, by simp⟩
      rintro ⟨id', ty', url', lb', w', m', f'⟩ _ _ h1 h2
      simp only at h1 h2
      subst h1 h2
      simp [convertService]
    | none =>
      cases w with
      | some w =>
        refine ⟨by simp [convertService], by simp, by simp [convertService], by simp, by simp,
          by simp, by simp, ?_, by simp⟩
        rintro ⟨id', ty', url', lb', w', m', f'⟩ _ _ _ h1 h2 h3
        simp only at h1 h2 h3
        subst h1 h2 h3
        simp [convertService]
      | none =>
        cases m with
        | some m =>
          refine ⟨by simp [convertService], by simp, by simp, by simp [convertService], by simp,
            by simp, by simp, by simp, ?_⟩
          rintro ⟨id', ty', url', lb', w', m', f'⟩ _ _ _ _ h1 h2 h3 h4
          simp only at h1 h2 h3 h4
          cases w' with
          | some w' => simp at h3
          | none =>
            subst h1 h2 h4
            simp [convertService]
        | none =>
          cases f with
          | some f =>
            exact ⟨by simp [convertService], by simp, by simp, by simp, by simp [convertService],
              by simp, by simp, by simp, by simp⟩
          | none => simp at h
  · refine ⟨by simp [convertService, hu], by simp [convertService, hu], ?_, ?_, ?_, ?_, ?_, ?_, ?_⟩
    · intro h0; exact absurd h0 hu
    · intro h0; exact absurd h0 hu
    · intro h0; exact absurd h0 hu
    · rintro ⟨id', ty', url', lb', w', m', f'⟩ _ h1
      simp only at h1
      subst h1
      simp [convertService, hu]
    · intro _ h0; exact absurd h0 hu
    · intro _ h0; exact absurd h0 hu
    · intro _ h0; exact absurd h0 hu

/-- Witness for C10: a service with a URL and a failover block. -/
theorem convertService_first_form_witness :
    (convertService Sample.twoFormService).LoadBalancer.isSome = true ∧
      (convertService Sample.twoFormService).Failover.isSome = false ∧
      ((convertService Sample.twoFormService).LoadBalancer.isSome.toNat +
        (convertService Sample.twoFormService).Weighted.isSome.toNat +
        (convertService Sample.twoFormService).Mirroring.isSome.toNat +
        (convertService Sample.twoFormService).Failover.isSome.toNat = 1) :=
  ⟨(convertService_first_form Sample.twoFormService (Or.inl (by decide))).2.1
      (Or.inl (by decide)),
    by decide,
    (convertService_first_form Sample.twoFormService (Or.inl (by decide))).1⟩

/-! ### Projection to the gateway schema -/

/-- C11: for a service with non-empty URL `u`, `convertService` sets only
`loadBalancer`, holding the single server `u` without weight or preservePath,
and no health check, sticky block, passHostHeader, response forwarding or
servers transport. -/
theorem convertService_url_form (svc : models.Service) (h : svc.URL ≠ "") :
    convertService svc =
      { LoadBalancer := some
          { Servers := [{ URL := svc.URL, Weight := none, PreservePath := none }]
            HealthCheck := none
            PassHostHeader := none
            ResponseForwarding := none
            ServersTransport := ""
            Sticky := none }
        Weighted := none
        Mirroring := none
        Failover := none
        URL := "" } := by
  simp [convertService, h]

/-- Counterexample to C12: the projection of `{id: s, url: http://b:80}` has no
load balancer whose servers are `[{url, weight: 1, preservePath: false}]` and
whose passHostHeader is true. -/
theorem url_projection_has_no_defaults :
    ¬ ∃ lb, (convertService Sample.urlService).LoadBalancer = some lb ∧
      lb.Servers = [{ URL := "http://b:80", Weight := some 1, PreservePath := some false }] ∧
      lb.PassHostHeader = some true := by
  rintro ⟨lb, h1, h2, h3⟩
  have h4 : (convertService Sample.urlService).LoadBalancer =
      some { Servers := [{ URL := "http://b:80" }] } := by decide
  rw [h4] at h1
  cases h1
  revert h3
  decide

/-- C12, amended: a URL-form service `{id: s, url: u}` projects to a
loadBalancer whose servers are `[{url: u}]`, without weight and preservePath,
and whose passHostHeader is absent. -/
theorem url_projection_single_server (s u : String) (h : u ≠ "") :
    ∃ lb, (convertService { Service.ofID s with URL := u }).LoadBalancer = some lb ∧
      lb.Servers = [{ URL := u, Weight := none, PreservePath := none }] ∧
      lb.PassHostHeader = none := by
  refine ⟨{ Servers := [{ URL := u }] }, ?_, rfl, rfl⟩
  simp [convertService, Service.ofID, h]

/-- C13: for a service with empty URL and a LoadBalancer block, the projected
loadBalancer has one server per input server in order, with the input url,
weight equal to the input weight when it is positive and 1 otherwise, and
preservePath equal to the input flag; passHostHeader is true whatever the
stored value; serversTransport is copied; responseForwarding carries the
stored flush interval when the block is present and is absent otherwise. -/
theorem convertService_loadBalancer_form (svc : models.Service) (lb : models.LoadBalancerService)
    (hu : svc.URL = "") (hlb : svc.LoadBalancer = some lb) :
    ∃ out, (convertService svc).LoadBalancer = some out ∧
      out.Servers = lb.Servers.map (fun server =>
        { URL := server.URL
          Weight := some (if server.Weight > 0 then server.Weight else 1)
          PreservePath := some server.PreservePath }) ∧
      out.Servers.length = lb.Servers.length ∧
      out.PassHostHeader = some true ∧
      out.ServersTransport = lb.ServersTransport ∧
      out.ResponseForwarding =
        lb.ResponseForwarding.map (fun rf => { FlushInterval := rf.FlushInterval }) := by
  obtain ⟨id, ty, url, lb0, w, m, f⟩ := svc
  simp only at hu hlb
  subst hu hlb
  refine ⟨_, by simp [convertService]; rfl, ?_, ?_, rfl, rfl, ?_⟩
  · apply List.map_congr_left
    intro server _
    cases server.PreservePath <;> rfl
  · simp
  · cases lb.ResponseForwarding <;> rfl

/-- C14: `convertRouter` copies entryPoints, rule and priority, sets service to
`router.Service.ID` and middlewares to the IDs of `router.Middlewares` in
order (none for an empty list); tls is present iff the router has a TLS block,
with options and certResolver copied and one `{main, sans}` per domain in
order; observability is present iff the router has it, with its three flags
copied. -/
theorem convertRouter_projection (router : models.Router) :
    (convertRouter router).EntryPoints = router.EntryPoints ∧
    (convertRouter router).Rule = router.Rule ∧
    (convertRouter router).Priority = router.Priority ∧
    (convertRouter router).Service = router.Service.ID ∧
    (convertRouter router).Middlewares = router.Middlewares.map (fun mw => mw.ID) ∧
    (convertRouter router).Middlewares.length = router.Middlewares.length ∧
    (router.Middlewares = [] → (convertRouter router).Middlewares = []) ∧
    ((convertRouter router).TLS.isSome = router.TLS.isSome) ∧
    (∀ tls, router.TLS = some tls →
      (convertRouter router).TLS = some
        { Options := tls.Options
          CertResolver := tls.CertResolver
          Domains := tls.Domains.map (fun domain =>
            { Main := domain.Main, Sans := domain.Sans }) }) ∧
    ((convertRouter router).Observability.isSome = router.Observability.isSome) ∧
    (∀ obs, router.Observability = some obs →
      (convertRouter router).Observability = some
        { AccessLogs := obs.AccessLogs, Tracing := obs.Tracing, Metrics := obs.Metrics }) := by
  have hm : (convertRouter router).Middlewares = router.Middlewares.map (fun mw => mw.ID) := by
    simp only [convertRouter]
    cases router.Middlewares <;> simp
  refine ⟨rfl, rfl, rfl, rfl, hm, ?_, ?_, ?_, ?_, ?_, ?_⟩
  · rw [hm, List.length_map]
  · intro h
    rw [hm, h]
    rfl
  · simp only [convertRouter]
    cases router.TLS <;> rfl
  · intro tls h
    simp only [convertRouter, h]
    cases tls.Domains <;> simp
  · simp only [convertRouter]
    cases router.Observability <;> rfl
  · intro obs h
    simp only [convertRouter, h]

/-- C15: a service projected in mirroring form has service equal to
`Mirroring.Service.ID`, one `{name, percent}` per input mirror in order,
mirrorBody true for every input, and maxBodySize present iff the stored value
is positive, in which case it is the stored value. -/
theorem convertService_mirroring_form (svc : models.Service) (m : models.MirroringService)
    (hu : svc.URL = "") (hlb : svc.LoadBalancer = none) (hw : svc.Weighted.isNone = true)
    (hm : svc.Mirroring = some m) :
    ∃ out, (convertService svc).Mirroring = some out ∧
      out.Service = m.Service.ID ∧
      out.Mirrors = m.Mirrors.map (fun mirror =>
        { Name := mirror.Name.ID, Percent := mirror.Percent }) ∧
      out.Mirrors.length = m.Mirrors.length ∧
      out.MirrorBody = some true ∧
      (out.MaxBodySize.isSome = true ↔ m.MaxBodySize > 0) ∧
      (m.MaxBodySize > 0 → out.MaxBodySize = some m.MaxBodySize) := by
  obtain ⟨id, ty, url, lb0, w, m0, f⟩ := svc
  simp only at hu hlb hw hm
  subst hu hlb hm
  cases w with
  | some w => simp at hw
  | none =>
    refine ⟨_, by simp [convertService]; rfl, rfl, rfl, by simp, by simp, ?_, ?_⟩
    · by_cases hp : m.MaxBodySize > 0 <;> simp [hp]
    · intro hp
      simp [hp]

/-- C16: `convertSticky` yields a sticky block iff the input block has a cookie;
then name, path, sameSite and maxAge are copied and secure and httpOnly are
present and equal to the stored flags.  A block without a cookie, like no
block, projects to no sticky block. -/
theorem convertSticky_cookie (sticky : models.Sticky) :
    ((convertSticky (some sticky)).isSome = sticky.Cookie.isSome) ∧
    (sticky.Cookie = none → convertSticky (some sticky) = none) ∧
    (∀ cookie, sticky.Cookie = some cookie →
      convertSticky (some sticky) = some
        { Cookie := some
            { Name := cookie.Name
              Path := cookie.Path
              SameSite := cookie.SameSite
              MaxAge := cookie.MaxAge
              Secure := some cookie.Secure
              HTTPOnly := some cookie.HTTPOnly } }) ∧
    convertSticky none = none := by
  refine ⟨?_, ?_, ?_, rfl⟩
  · simp only [convertSticky]
    cases sticky.Cookie <;> rfl
  · intro h
    simp only [convertSticky, h]
  · intro cookie h
    simp only [convertSticky, h]
    cases cookie.Secure <;> cases cookie.HTTPOnly <;> rfl

/-- C17: for a type tag other than redirectScheme, addPrefix, basicAuth and
stripPrefix (for example rateLimit) `convertMiddleware` returns the empty
middleware object whatever the config; for a recognized tag no sub-object
other than the one named by the tag is set. -/
theorem convertMiddleware_tags (mw : models.Middleware) :
    (mw.Type_ ≠ "redirectScheme" → mw.Type_ ≠ "addPrefix" → mw.Type_ ≠ "basicAuth" →
      mw.Type_ ≠ "stripPrefix" → convertMiddleware mw = {}) ∧
    (∀ config, convertMiddleware { ID := mw.ID, Type_ := "rateLimit", Config := config } = {}) ∧
    (mw.Type_ = "redirectScheme" →
      convertMiddleware mw = { RedirectScheme := (convertMiddleware mw).RedirectScheme }) ∧
    (mw.Type_ = "addPrefix" →
      convertMiddleware mw = { AddPrefix := (convertMiddleware mw).AddPrefix }) ∧
    (mw.Type_ = "basicAuth" →
      convertMiddleware mw = { BasicAuth := (convertMiddleware mw).BasicAuth }) ∧
    (mw.Type_ = "stripPrefix" →
      convertMiddleware mw = { StripPrefix := (convertMiddleware mw).StripPrefix }) := by
  refine ⟨?_, ?_, ?_, ?_, ?_, ?_⟩
  · intro h1 h2 h3 h4
    simp only [convertMiddleware, if_neg h1, if_neg h2, if_neg h3, if_neg h4]
  · intro config
    simp [convertMiddleware]
  · intro h
    simp only [convertMiddleware, if_pos h]
    cases mw.Config.asObject <;> rfl
  · intro h
    have h1 : mw.Type_ ≠ "redirectScheme" := by rw [h]; decide
    simp only [convertMiddleware, if_neg h1, if_pos h]
    cases mw.Config.asObject <;> rfl
  · intro h
    have h1 : mw.Type_ ≠ "redirectScheme" := by rw [h]; decide
    have h2 : mw.Type_ ≠ "addPrefix" := by rw [h]; decide
    simp only [convertMiddleware, if_neg h1, if_neg h2, if_pos h]
    cases mw.Config.asObject <;> rfl
  · intro h
    have h1 : mw.Type_ ≠ "redirectScheme" := by rw [h]; decide
    have h2 : mw.Type_ ≠ "addPrefix" := by rw [h]; decide
    have h3 : mw.Type_ ≠ "basicAuth" := by rw [h]; decide
    simp only [convertMiddleware, if_neg h1, if_neg h2, if_neg h3, if_pos h]
    cases mw.Config.asObject <;> rfl

theorem filterMap_asString_strings (strs : List String) :
    (strs.map JSONValue.string).filterMap JSONValue.asString = strs := by
  induction strs with
  | nil => rfl
  | cons a t ih => simpa [JSONValue.asString] using ih

/-- C18: for a middleware of type stripPrefix whose config is a JSON object
with an array field `prefixes`, the projection sets only stripPrefix; its
prefixes are the string elements of the array in order and its forceSlash is
the boolean field `forceSlash`, false when the field is missing. -/
theorem convertMiddleware_stripPrefix_form (mw : models.Middleware)
    (configMap : List (String × JSONValue)) (prefixes : List JSONValue)
    (ht : mw.Type_ = "stripPrefix") (hc : mw.Config = JSONValue.object configMap)
    (hp : JSONValue.index configMap "prefixes" = JSONValue.array prefixes) :
    ∃ sp, convertMiddleware mw = { StripPrefix := some sp } ∧
      sp.Prefixes = prefixes.filterMap JSONValue.asString ∧
      (∀ strs : List String, prefixes = strs.map JSONValue.string → sp.Prefixes = strs) ∧
      (∀ b, JSONValue.index configMap "forceSlash" = JSONValue.bool b → sp.ForceSlash = b) ∧
      (JSONValue.index configMap "forceSlash" = JSONValue.null → sp.ForceSlash = false) := by
  have h1 : mw.Type_ ≠ "redirectScheme" := by rw [ht]; decide
  have h2 : mw.Type_ ≠ "addPrefix" := by rw [ht]; decide
  have h3 : mw.Type_ ≠ "basicAuth" := by rw [ht]; decide
  refine ⟨{ Prefixes := prefixes.filterMap JSONValue.asString
            ForceSlash := ((JSONValue.index configMap "forceSlash").asBool).getD false },
    ?_, rfl, ?_, ?_, ?_⟩
  · simp only [convertMiddleware, if_neg h1, if_neg h2, if_neg h3, if_pos ht, hc,
      JSONValue.asObject, hp, JSONValue.asArray, stringElements]
  · intro strs hs
    subst hs
    exact filterMap_asString_strings strs
  · intro b hb
    simp only [hb, JSONValue.asBool, Option.getD_some]
  · intro hn
    simp only [hn, JSONValue.asBool, Option.getD_none]

/-- C19: for a middleware of type redirectScheme whose config is a JSON object,
the projection sets only redirectScheme, with scheme the string field
`scheme` (empty when missing or not a string), permanent the boolean field
`permanent` (false when missing), and port never set. -/
theorem convertMiddleware_redirectScheme_form (mw : models.Middleware)
    (configMap : List (String × JSONValue))
    (ht : mw.Type_ = "redirectScheme") (hc : mw.Config = JSONValue.object configMap) :
    ∃ rs, convertMiddleware mw = { RedirectScheme := some rs } ∧
      rs.Port = "" ∧
      (∀ s, JSONValue.index configMap "scheme" = JSONValue.string s → rs.Scheme = s) ∧
      ((JSONValue.index configMap "scheme").asString = none → rs.Scheme = "") ∧
      (∀ b, JSONValue.index configMap "permanent" = JSONValue.bool b → rs.Permanent = b) ∧
      ((JSONValue.index configMap "permanent").asBool = none → rs.Permanent = false) := by
  refine ⟨{ Scheme := ((JSONValue.index configMap "scheme").asString).getD ""
            Permanent := ((JSONValue.index configMap "permanent").asBool).getD false },
    ?_, rfl, ?_, ?_, ?_, ?_⟩
  · simp only [convertMiddleware, if_pos ht, hc, JSONValue.asObject]
  · intro s hs
    simp only [hs, JSONValue.asString, Option.getD_some]
  · intro hn
    simp only [hn, Option.getD_none]
  · intro b hb
    simp only [hb, JSONValue.asBool, Option.getD_some]
  · intro hn
    simp only [hn, Option.getD_none]

theorem GoMap.lookup_foldl_insert_of_not_mem {α β : Type} (key : α → String) (f : α → β)
    (l : List α) (init : GoMap β) (k : String) (hk : k ∉ l.map key) :
    (l.foldl (fun m x => m.insert (key x) (f x)) init).lookup k = init.lookup k := by
  induction l generalizing init with
  | nil => rfl
  | cons a t ih =>
    rw [List.map_cons, List.mem_cons, not_or] at hk
    rw [List.foldl_cons, ih _ hk.2, AList.lookup_insert_ne hk.1]

theorem GoMap.lookup_foldl_insert_of_mem {α β : Type} (key : α → String) (f : α → β)
    (l : List α) (init : GoMap β) (hnd : (l.map key).Nodup) (x : α) (hx : x ∈ l) :
    (l.foldl (fun m x => m.insert (key x) (f x)) init).lookup (key x) = some (f x) := by
  induction l generalizing init with
  | nil => cases hx
  | cons a t ih =>
    rw [List.map_cons, List.nodup_cons] at hnd
    rw [List.foldl_cons]
    rcases List.mem_cons.mp hx with rfl | hxt
    · rw [GoMap.lookup_foldl_insert_of_not_mem key f t _ _ hnd.1, AList.lookup_insert]
    · exact ih _ hnd.2 hxt

theorem GoMap.mem_foldl_insert_empty {α β : Type} (key : α → String) (f : α → β)
    (l : List α) (hnd : (l.map key).Nodup) (k : String) :
    k ∈ (l.foldl (fun m x => m.insert (key x) (f x)) (∅ : GoMap β)).keys ↔ k ∈ l.map key := by
  rw [← AList.mem_keys, ← AList.lookup_isSome]
  constructor
  · intro h
    by_contra hk
    rw [GoMap.lookup_foldl_insert_of_not_mem key f l _ k hk, AList.lookup_empty] at h
    cases h
  · intro h
    obtain ⟨x, hx, rfl⟩ := List.mem_map.mp h
    rw [GoMap.lookup_foldl_insert_of_mem key f l _ hnd x hx]
    rfl

theorem GoMap.keys_foldl_insert_perm {α β : Type} (key : α → String) (f : α → β)
    (l : List α) (hnd : (l.map key).Nodup) :
    (l.foldl (fun m x => m.insert (key x) (f x)) (∅ : GoMap β)).keys.Perm (l.map key) :=
  (List.perm_ext_iff_of_nodup (AList.keys_nodup _) hnd).mpr
    (fun k => GoMap.mem_foldl_insert_empty key f l hnd k)

theorem GoMap.keys_foldl_insert_length {α β : Type} (key : α → String) (f : α → β)
    (l : List α) (hnd : (l.map key).Nodup) :
    (l.foldl (fun m x => m.insert (key x) (f x)) (∅ : GoMap β)).keys.length = l.length := by
  rw [(GoMap.keys_foldl_insert_perm key f l hnd).length_eq, List.length_map]

theorem GoMap.foldl_insert_perm {α β : Type} (key : α → String) (f : α → β)
    (l l' : List α) (hnd : (l.map key).Nodup) (hp : l'.Perm l) :
    (l'.foldl (fun m x => m.insert (key x) (f x)) (∅ : GoMap β)).entries.Perm
      (l.foldl (fun m x => m.insert (key x) (f x)) (∅ : GoMap β)).entries := by
  have hnd' : (l'.map key).Nodup := (hp.map key).nodup_iff.mpr hnd
  apply List.lookup_ext (AList.nodupKeys _) (AList.nodupKeys _)
  intro k v
  have hl : ∀ m : GoMap β, List.dlookup k m.entries = m.lookup k := fun _ => rfl
  rw [hl, hl]
  by_cases hk : k ∈ l.map key
  · obtain ⟨x, hx, rfl⟩ := List.mem_map.mp hk
    rw [GoMap.lookup_foldl_insert_of_mem key f l _ hnd x hx,
      GoMap.lookup_foldl_insert_of_mem key f l' _ hnd' x (hp.mem_iff.mpr hx)]
  · have hk' : k ∉ l'.map key := fun hc => hk ((hp.map key).mem_iff.mp hc)
    rw [GoMap.lookup_foldl_insert_of_not_mem key f l _ k hk,
      GoMap.lookup_foldl_insert_of_not_mem key f l' _ k hk']

/-- C20: for lists with pairwise distinct IDs, the maps of
`convertToTraefikConfig` have exactly the input IDs as keys (so the sizes of
the lists), each ID mapped to the projection of its element, and permuting the
input lists gives the same maps. -/
theorem convertToTraefikConfig_maps (routers : List models.Router)
    (services : List models.Service) (middlewares : List models.Middleware)
    (hr : (routers.map (fun r => r.ID)).Nodup) (hs : (services.map (fun v => v.ID)).Nodup)
    (hm : (middlewares.map (fun m => m.ID)).Nodup) :
    ∃ http, (convertToTraefikConfig routers services middlewares).HTTP = some http ∧
      (http.Routers.keys.Perm (routers.map (fun r => r.ID)) ∧
        http.Routers.keys.length = routers.length ∧
        ∀ r ∈ routers, http.Routers.lookup r.ID = some (convertRouter r)) ∧
      (http.Services.keys.Perm (services.map (fun v => v.ID)) ∧
        http.Services.keys.length = services.length ∧
        ∀ v ∈ services, http.Services.lookup v.ID = some (convertService v)) ∧
      (http.Middlewares.keys.Perm (middlewares.map (fun m => m.ID)) ∧
        http.Middlewares.keys.length = middlewares.length ∧
        ∀ m ∈ middlewares, http.Middlewares.lookup m.ID = some (convertMiddleware m)) ∧
      ∀ routers' services' middlewares', routers'.Perm routers → services'.Perm services →
        middlewares'.Perm middlewares →
        ∃ http', (convertToTraefikConfig routers' services' middlewares').HTTP = some http' ∧
          http'.Routers.entries.Perm http.Routers.entries ∧
          http'.Services.entries.Perm http.Services.entries ∧
          http'.Middlewares.entries.Perm http.Middlewares.entries := by
  refine ⟨_, rfl, ⟨?_, ?_, ?_⟩, ⟨?_, ?_, ?_⟩, ⟨?_, ?_, ?_⟩, ?_⟩
  · exact GoMap.keys_foldl_insert_perm _ _ routers hr
  · exact GoMap.keys_foldl_insert_length _ _ routers hr
  · exact fun r h => GoMap.lookup_foldl_insert_of_mem _ _ routers _ hr r h
  · exact GoMap.keys_foldl_insert_perm _ _ services hs
  · exact GoMap.keys_foldl_insert_length _ _ services hs
  · exact fun v h => GoMap.lookup_foldl_insert_of_mem _ _ services _ hs v h
  · exact GoMap.keys_foldl_insert_perm _ _ middlewares hm
  · exact GoMap.keys_foldl_insert_length _ _ middlewares hm
  · exact fun m h => GoMap.lookup_foldl_insert_of_mem _ _ middlewares _ hm m h
  · intro routers' services' middlewares' pr ps pm
    exact ⟨_, rfl, GoMap.foldl_insert_perm _ _ routers routers' hr pr,
      GoMap.foldl_insert_perm _ _ services services' hs ps,
      GoMap.foldl_insert_perm _ _ middlewares middlewares' hm pm⟩

/-- Witness for C11 on the service `{id: s, url: http://b:80}`. -/
theorem convertService_url_form_witness :
    Sample.urlService.URL ≠ "" ∧
    convertService Sample.urlService =
      { LoadBalancer := some
          { Servers := [{ URL := Sample.urlService.URL, Weight := none, PreservePath := none }]
            HealthCheck := none
            PassHostHeader := none
            ResponseForwarding := none
            ServersTransport := ""
            Sticky := none }
        Weighted := none
        Mirroring := none
        Failover := none
        URL := "" } :=
  ⟨by decide, convertService_url_form Sample.urlService (by decide)⟩

/-- Witness for the amended C12 with `u = http://b:80`. -/
theorem url_projection_single_server_witness :
    ∃ lb, (convertService { Service.ofID "s" with URL := "http://b:80" }).LoadBalancer = some lb ∧
      lb.Servers = [{ URL := "http://b:80", Weight := none, PreservePath := none }] ∧
      lb.PassHostHeader = none :=
  url_projection_single_server "s" "http://b:80" (by decide)

/-- Witness for C13: two servers, the first without weight, and a stored
`PassHostHeader` of `false`. -/
theorem convertService_loadBalancer_form_witness :
    ∃ out, (convertService Sample.loadBalancerService).LoadBalancer = some out ∧
      out.Servers = Sample.loadBalancer.Servers.map (fun server =>
        { URL := server.URL
          Weight := some (if server.Weight > 0 then server.Weight else 1)
          PreservePath := some server.PreservePath }) ∧
      out.Servers.length = Sample.loadBalancer.Servers.length ∧
      out.PassHostHeader = some true ∧
      out.ServersTransport = Sample.loadBalancer.ServersTransport ∧
      out.ResponseForwarding =
        Sample.loadBalancer.ResponseForwarding.map (fun rf => { FlushInterval := rf.FlushInterval }) :=
  convertService_loadBalancer_form Sample.loadBalancerService Sample.loadBalancer rfl rfl

/-- Witness for C15: one mirror and a body limit of 10. -/
theorem convertService_mirroring_form_witness :
    ∃ out, (convertService Sample.mirroringService).Mirroring = some out ∧
      out.Service = Sample.mirroring.Service.ID ∧
      out.Mirrors = Sample.mirroring.Mirrors.map (fun mirror =>
        { Name := mirror.Name.ID, Percent := mirror.Percent }) ∧
      out.Mirrors.length = Sample.mirroring.Mirrors.length ∧
      out.MirrorBody = some true ∧
      (out.MaxBodySize.isSome = true ↔ Sample.mirroring.MaxBodySize > 0) ∧
      (Sample.mirroring.MaxBodySize > 0 → out.MaxBodySize = some Sample.mirroring.MaxBodySize) :=
  convertService_mirroring_form Sample.mirroringService Sample.mirroring rfl rfl rfl rfl

/-- Witness for C18: the config `{"prefixes":["/api"]}` projects to
`stripPrefix = {prefixes: ["/api"]}`. -/
theorem convertMiddleware_stripPrefix_form_witness :
    convertMiddleware Sample.stripPrefixMiddleware =
      { StripPrefix := some { Prefixes := ["/api"], ForceSlash := false } } := by
  obtain ⟨sp, h1, _, h3, _, h5⟩ :=
    convertMiddleware_stripPrefix_form Sample.stripPrefixMiddleware Sample.stripPrefixConfig
      [JSONValue.string "/api"] rfl rfl rfl
  have hp : sp.Prefixes = ["/api"] := h3 ["/api"] rfl
  have hf : sp.ForceSlash = false := h5 rfl
  rw [h1]
  cases sp
  simp only at hp hf
  rw [hp, hf]

/-- Witness for C19: the config `{"scheme":"https","permanent":true}`. -/
theorem convertMiddleware_redirectScheme_form_witness :
    convertMiddleware Sample.redirectSchemeMiddleware =
      { RedirectScheme := some { Scheme := "https", Port := "", Permanent := true } } := by
  obtain ⟨rs, h1, h2, h3, _, h5, _⟩ :=
    convertMiddleware_redirectScheme_form Sample.redirectSchemeMiddleware
      Sample.redirectSchemeConfig rfl rfl
  have hs : rs.Scheme = "https" := h3 "https" rfl
  have hb : rs.Permanent = true := h5 true rfl
  rw [h1]
  cases rs
  simp only at h2 hs hb
  rw [h2, hs, hb]

/-- Witness for C20 on the lists `[r1]`, `[s1]`, `[m1]`. -/
theorem convertToTraefikConfig_maps_witness :
    ∃ http, (convertToTraefikConfig [Sample.router] [Sample.service] [Sample.middleware]).HTTP =
        some http ∧
      http.Routers.lookup "r1" = some (convertRouter Sample.router) ∧
      http.Services.lookup "s1" = some (convertService Sample.service) ∧
      http.Middlewares.lookup "m1" = some (convertMiddleware Sample.middleware) ∧
      http.Routers.keys.length = 1 := by
  obtain ⟨http, h0, ⟨_, hr2, hr3⟩, ⟨_, _, hs3⟩, ⟨_, _, hm3⟩, _⟩ :=
    convertToTraefikConfig_maps [Sample.router] [Sample.service] [Sample.middleware]
      (List.nodup_singleton _) (List.nodup_singleton _) (List.nodup_singleton _)
  exact ⟨http, h0, hr3 _ (List.mem_singleton_self _), hs3 _ (List.mem_singleton_self _),
    hm3 _ (List.mem_singleton_self _), hr2⟩

/-! ### Resource API and gates -/

theorem RouterHandler_Update_eq (s : FileStore) (id : String)
    (requestData : List (String × JSONValue)) :
    RouterHandler.Update s id (some requestData) =
      if (parseRouterUpdate id requestData).Rule == "" then
        ({ status := 400, body := errorBody "Router rule is required" }, s)
      else
        match FileStore.UpdateRouter s id (parseRouterUpdate id requestData) with
        | (some err, s') =>
          if IsNotFound err then
            ({ status := 404, body := errorBody "Router not found" }, s')
          else
            ({ status := 400, body := errorBody err.Message }, s')
        | (none, s') => ({ status := 200, body := resourceResponse id false true false }, s') :=
  rfl

theorem parseServiceField_shapes (s : String) (serviceMap : List (String × JSONValue))
    (h : JSONValue.index serviceMap "id" = JSONValue.string s) :
    parseServiceField (JSONValue.string s) = Service.ofID s ∧
    parseServiceField (JSONValue.object serviceMap) = Service.ofID s ∧
    parseServiceField (JSONValue.object [("id", JSONValue.string s)]) = Service.ofID s := by
  refine ⟨rfl, ?_, ?_⟩
  · simp only [parseServiceField, h, JSONValue.asString]
  · have : JSONValue.index [("id", JSONValue.string s)] "id" = JSONValue.string s := by
      simp [JSONValue.index]
    simp only [parseServiceField, this, JSONValue.asString]

/-- C21: router body parsing normalises both shapes: a body with
`"service": s` and a body with `"service": {"id": s}`, equal on every other
key, give the same router, with `Service = {ID: s}`, in `Create` and in
`Update`; a middlewares element `s` and an element `{"id": s}` give the same
parsed list, with `Middleware{ID: s}` at the same position. -/
theorem router_body_shapes_normalised (s : String) (b1 b2 : List (String × JSONValue))
    (hagree : ∀ key, key ≠ "service" → JSONValue.index b1 key = JSONValue.index b2 key)
    (h1 : JSONValue.index b1 "service" = JSONValue.string s)
    (h2 : JSONValue.index b2 "service" = JSONValue.object [("id", JSONValue.string s)]) :
    (parseRouterCreate b1 = parseRouterCreate b2 ∧
      (parseRouterCreate b1).Service = Service.ofID s) ∧
    (∀ id, parseRouterUpdate id b1 = parseRouterUpdate id b2 ∧
      (parseRouterUpdate id b1).Service = Service.ofID s) ∧
    (∀ pre post : List JSONValue,
      parseMiddlewaresField (JSONValue.array (pre ++ [JSONValue.string s] ++ post)) =
        parseMiddlewaresField
          (JSONValue.array (pre ++ [JSONValue.object [("id", JSONValue.string s)]] ++ post)) ∧
      (parseMiddlewaresField (JSONValue.array (pre ++ [JSONValue.string s] ++ post))).get?
        (parseMiddlewaresField (JSONValue.array pre)).length = some { ID := s }) := by
  have hs := parseServiceField_shapes s [("id", JSONValue.string s)]
    (by simp [JSONValue.index])
  have e1 : parseServiceField (JSONValue.index b1 "service") = Service.ofID s := by
    rw [h1]; exact hs.1
  have e2 : parseServiceField (JSONValue.index b2 "service") = Service.ofID s := by
    rw [h2]; exact hs.2.2
  refine ⟨⟨?_, e1⟩, fun id => ⟨?_, e1⟩, ?_⟩
  · simp only [parseRouterCreate, e1, e2]
    rw [hagree "id" (by decide), hagree "rule" (by decide), hagree "entryPoints" (by decide),
      hagree "middlewares" (by decide), hagree "priority" (by decide), hagree "tls" (by decide),
      hagree "observability" (by decide)]
  · simp only [parseRouterUpdate, e1, e2]
    rw [hagree "rule" (by decide), hagree "entryPoints" (by decide),
      hagree "middlewares" (by decide)]
  · intro pre post
    have hi : JSONValue.index [("id", JSONValue.string s)] "id" = JSONValue.string s := by
      simp [JSONValue.index]
    constructor
    · simp only [parseMiddlewaresField, JSONValue.asArray, List.filterMap_append,
        List.filterMap_cons, List.filterMap_nil, hi, JSONValue.asString]
    · simp only [parseMiddlewaresField, JSONValue.asArray, List.filterMap_append,
        List.filterMap_cons, List.filterMap_nil, List.append_assoc]
      rw [List.get?_eq_getElem?, List.getElem?_append_right (le_refl _)]
      simp

theorem find_missing_handler_eq_none (s : FileStore) (mws : List Middleware) :
    mws.find? (fun mw => !(MiddlewareExists s mw.ID)) = none ↔
      ∀ mw ∈ mws, MiddlewareExists s mw.ID = true := by
  rw [List.find?_eq_none]
  constructor
  · intro h mw hmw
    have := h mw hmw
    simpa using this
  · intro h mw hmw
    simp [h mw hmw]

theorem RouterHandler_Create_valid (s : FileStore) (requestData : List (String × JSONValue))
    (hid : (parseRouterCreate requestData).ID ≠ "")
    (hrule : (parseRouterCreate requestData).Rule ≠ "")
    (hsid : (parseRouterCreate requestData).Service.ID ≠ "") :
    RouterHandler.Create s (some requestData) =
      if !(ServiceExists s (parseRouterCreate requestData).Service.ID) then
        ({ status := 400, body := errorBody "Referenced service does not exist" }, s)
      else
        match (parseRouterCreate requestData).Middlewares.find?
            (fun mw => !(MiddlewareExists s mw.ID)) with
        | some mw =>
          ({ status := 400,
             body := errorBody ("Referenced middleware does not exist: " ++ mw.ID) }, s)
        | none =>
          if RouterExists s (parseRouterCreate requestData).ID then
            ({ status := 409, body := errorBody "Router already exists" }, s)
          else
            match CreateRouter s (parseRouterCreate requestData) with
            | (some _, s') =>
              ({ status := 500, body := errorBody "Failed to create router" }, s')
            | (none, s') =>
              ({ status := 201,
                 body := resourceResponse (parseRouterCreate requestData).ID true false false },
                s') := by
  simp only [RouterHandler.Create, beq_iff_eq, if_neg hid, if_neg hrule, if_neg hsid]

/-- C22: `POST /routers` answers 400 when the body's id, rule or service id is
missing or empty; otherwise 400 when the service or a listed middleware is not
stored; otherwise 409 when a router with that id is stored; otherwise 201 with
`{id, created: true}` and the router is stored.  In every case other than 201
the store is unchanged. -/
theorem post_router_outcome (s : FileStore) (requestData : List (String × JSONValue)) :
    (((parseRouterCreate requestData).ID = "" ∨ (parseRouterCreate requestData).Rule = "" ∨
        (parseRouterCreate requestData).Service.ID = "") →
      (RouterHandler.Create s (some requestData)).1.status = 400) ∧
    ((parseRouterCreate requestData).ID ≠ "" → (parseRouterCreate requestData).Rule ≠ "" →
      (parseRouterCreate requestData).Service.ID ≠ "" →
      (ServiceExists s (parseRouterCreate requestData).Service.ID = false ∨
        ∃ mw ∈ (parseRouterCreate requestData).Middlewares, MiddlewareExists s mw.ID = false) →
      (RouterHandler.Create s (some requestData)).1.status = 400) ∧
    ((parseRouterCreate requestData).ID ≠ "" → (parseRouterCreate requestData).Rule ≠ "" →
      (parseRouterCreate requestData).Service.ID ≠ "" →
      ServiceExists s (parseRouterCreate requestData).Service.ID = true →
      (∀ mw ∈ (parseRouterCreate requestData).Middlewares, MiddlewareExists s mw.ID = true) →
      RouterExists s (parseRouterCreate requestData).ID = true →
      (RouterHandler.Create s (some requestData)).1.status = 409) ∧
    ((parseRouterCreate requestData).ID ≠ "" → (parseRouterCreate requestData).Rule ≠ "" →
      (parseRouterCreate requestData).Service.ID ≠ "" →
      ServiceExists s (parseRouterCreate requestData).Service.ID = true →
      (∀ mw ∈ (parseRouterCreate requestData).Middlewares, MiddlewareExists s mw.ID = true) →
      RouterExists s (parseRouterCreate requestData).ID = false →
      (RouterHandler.Create s (some requestData)).1.status = 201 ∧
        (RouterHandler.Create s (some requestData)).1.body =
          resourceResponse (parseRouterCreate requestData).ID true false false ∧
        GetRouter (RouterHandler.Create s (some requestData)).2
          (parseRouterCreate requestData).ID = Except.ok (parseRouterCreate requestData) ∧
        (RouterHandler.Create s (some requestData)).2 =
          (CreateRouter s (parseRouterCreate requestData)).2) ∧
    ((RouterHandler.Create s (some requestData)).1.status ≠ 201 →
      (RouterHandler.Create s (some requestData)).2 = s) := by
  have hfinal : ∀ (_ : (parseRouterCreate requestData).ID ≠ "")
      (_ : (parseRouterCreate requestData).Rule ≠ "")
      (_ : (parseRouterCreate requestData).Service.ID ≠ "")
      (_ : ServiceExists s (parseRouterCreate requestData).Service.ID = true)
      (_ : ∀ mw ∈ (parseRouterCreate requestData).Middlewares, MiddlewareExists s mw.ID = true)
      (_ : RouterExists s (parseRouterCreate requestData).ID = false),
      RouterHandler.Create s (some requestData) =
        ({ status := 201,
           body := resourceResponse (parseRouterCreate requestData).ID true false false },
          (CreateRouter s (parseRouterCreate requestData)).2) := by
    intro hid hrule hsid hs hm hr
    rw [RouterHandler_Create_valid s requestData hid hrule hsid]
    simp only [hs, Bool.not_true, Bool.false_eq_true, if_false,
      (find_missing_handler_eq_none s _).mpr hm, hr,
      CreateRouter_of_all_stored s _ hr hs ((find_missing_eq_none s _).mpr hm)]
  refine ⟨?_, ?_, ?_, ?_, ?_⟩
  · intro h
    by_cases hid : (parseRouterCreate requestData).ID = ""
    · simp [RouterHandler.Create, hid]
    · by_cases hrule : (parseRouterCreate requestData).Rule = ""
      · simp [RouterHandler.Create, hid, hrule]
      · by_cases hsid : (parseRouterCreate requestData).Service.ID = ""
        · simp [RouterHandler.Create, hid, hrule, hsid]
        · rcases h with h | h | h
          · exact absurd h hid
          · exact absurd h hrule
          · exact absurd h hsid
  · intro hid hrule hsid h
    rw [RouterHandler_Create_valid s requestData hid hrule hsid]
    cases hs : ServiceExists s (parseRouterCreate requestData).Service.ID with
    | false => simp
    | true =>
      simp only [Bool.not_true, Bool.false_eq_true, if_false]
      cases hf : (parseRouterCreate requestData).Middlewares.find?
          (fun mw => !(MiddlewareExists s mw.ID)) with
      | some mw => rfl
      | none =>
        rcases h with h | ⟨mw, hmw, hmiss⟩
        · rw [hs] at h; cases h
        · have := (find_missing_handler_eq_none s _).mp hf mw hmw
          rw [hmiss] at this; cases this
  · intro hid hrule hsid hs hm hr
    rw [RouterHandler_Create_valid s requestData hid hrule hsid]
    simp only [hs, Bool.not_true, Bool.false_eq_true, if_false,
      (find_missing_handler_eq_none s _).mpr hm, hr, if_true]
  · intro hid hrule hsid hs hm hr
    rw [hfinal hid hrule hsid hs hm hr]
    refine ⟨rfl, rfl, ?_, rfl⟩
    rw [CreateRouter_of_all_stored s _ hr hs ((find_missing_eq_none s _).mpr hm)]
    simp only [GetRouter, AList.lookup_insert]
  · intro hne
    by_cases hid : (parseRouterCreate requestData).ID = ""
    · simp [RouterHandler.Create, hid]
    · by_cases hrule : (parseRouterCreate requestData).Rule = ""
      · simp [RouterHandler.Create, hid, hrule]
      · by_cases hsid : (parseRouterCreate requestData).Service.ID = ""
        · simp [RouterHandler.Create, hid, hrule, hsid]
        · cases hs : ServiceExists s (parseRouterCreate requestData).Service.ID with
          | false =>
            rw [RouterHandler_Create_valid s requestData hid hrule hsid]
            simp [hs]
          | true =>
            cases hf : (parseRouterCreate requestData).Middlewares.find?
                (fun mw => !(MiddlewareExists s mw.ID)) with
            | some mw =>
              rw [RouterHandler_Create_valid s requestData hid hrule hsid]
              simp [hs, hf]
            | none =>
              cases hr : RouterExists s (parseRouterCreate requestData).ID with
              | true =>
                rw [RouterHandler_Create_valid s requestData hid hrule hsid]
                simp [hs, hf, hr]
              | false =>
                exfalso
                apply hne
                rw [hfinal hid hrule hsid hs ((find_missing_handler_eq_none s _).mp hf) hr]

theorem serviceInUse_after_deleteRouter (s : FileStore) (id rid : String)
    (h : (serviceInUse s id).2 = ["router:" ++ rid]) :
    (serviceInUse (DeleteRouter s rid).2 id).1 = false := by
  cases hc : (serviceInUse (DeleteRouter s rid).2 id).1 with
  | false => rfl
  | true =>
    exfalso
    obtain ⟨rid', r, hl, hid⟩ := (serviceInUse_iff _ id).mp hc
    have hst : (s.Routers.lookup rid).isSome = true := by
      have hm : ("router:" ++ rid) ∈ (serviceInUse s id).2 := by rw [h]; exact List.mem_singleton_self _
      obtain ⟨rid0, r0, hl0, _, he⟩ := (mem_serviceInUse s id _).mp hm
      have := router_prefix_injective he
      subst this
      rw [hl0]; rfl
    have hdel : (DeleteRouter s rid).2 = { s with Routers := s.Routers.erase rid } := by
      unfold DeleteRouter
      rw [if_neg (isNone_false_of_isSome hst)]
    rw [hdel] at hl
    obtain ⟨hne, hl'⟩ := GoMap.lookup_erase_some hl
    have hm : ("router:" ++ rid') ∈ (serviceInUse s id).2 :=
      (mem_serviceInUse s id _).mpr ⟨rid', r, hl', hid, rfl⟩
    rw [h, List.mem_singleton] at hm
    exact hne (router_prefix_injective hm)

theorem middlewareInUse_after_deleteRouter (s : FileStore) (id rid : String)
    (h : (middlewareInUse s id).2 = ["router:" ++ rid]) :
    (middlewareInUse (DeleteRouter s rid).2 id).1 = false := by
  cases hc : (middlewareInUse (DeleteRouter s rid).2 id).1 with
  | false => rfl
  | true =>
    exfalso
    obtain ⟨rid', r, hl, hid⟩ := (middlewareInUse_iff _ id).mp hc
    have hst : (s.Routers.lookup rid).isSome = true := by
      have hm : ("router:" ++ rid) ∈ (middlewareInUse s id).2 := by
        rw [h]; exact List.mem_singleton_self _
      obtain ⟨rid0, r0, hl0, _, he⟩ := (mem_middlewareInUse s id _).mp hm
      have := router_prefix_injective he
      subst this
      rw [hl0]; rfl
    have hdel : (DeleteRouter s rid).2 = { s with Routers := s.Routers.erase rid } := by
      unfold DeleteRouter
      rw [if_neg (isNone_false_of_isSome hst)]
    rw [hdel] at hl
    obtain ⟨hne, hl'⟩ := GoMap.lookup_erase_some hl
    have hm : ("router:" ++ rid') ∈ (middlewareInUse s id).2 :=
      (mem_middlewareInUse s id _).mpr ⟨rid', r, hl', hid, rfl⟩
    rw [h, List.mem_singleton] at hm
    exact hne (router_prefix_injective hm)

theorem ServiceHandler_Delete_unused (s : FileStore) (id : String)
    (he : ServiceExists s id = true) (hu : (ServiceInUse s id).1 = false) :
    ServiceHandler.Delete s id =
      ({ status := 200, body := resourceResponse id false false true },
        { s with Services := s.Services.erase id }) := by
  have hd : DeleteService s id = (none, { s with Services := s.Services.erase id }) := by
    unfold DeleteService
    rw [if_neg (isNone_false_of_isSome he),
      if_neg (by rw [show (serviceInUse s id).1 = false from hu]; simp)]
  simp only [ServiceHandler.Delete, he, hu, hd, Bool.not_true, Bool.false_eq_true, if_false]

theorem MiddlewareHandler_Delete_unused (s : FileStore) (id : String)
    (he : MiddlewareExists s id = true) (hu : (MiddlewareInUse s id).1 = false) :
    MiddlewareHandler.Delete s id =
      ({ status := 200, body := resourceResponse id false false true },
        { s with Middlewares := s.Middlewares.erase id }) := by
  have hd : DeleteMiddleware s id = (none, { s with Middlewares := s.Middlewares.erase id }) := by
    unfold DeleteMiddleware
    rw [if_neg (isNone_false_of_isSome he),
      if_neg (by rw [show (middlewareInUse s id).1 = false from hu]; simp)]
  simp only [MiddlewareHandler.Delete, he, hu, hd, Bool.not_true, Bool.false_eq_true, if_false]

/-- C23: `DELETE /services/:id` and `DELETE /middlewares/:id` answer 404 when
the id is not stored; 409 with `used_by` equal to the in-use list when some
router references the resource, which stays stored; otherwise 200 with
`{id, deleted: true}` after removing it.  After the only referring router is
deleted the same DELETE answers 200. -/
theorem delete_handlers_outcome (s : FileStore) (id : String) :
    ((ServiceExists s id = false →
        (ServiceHandler.Delete s id).1.status = 404 ∧ (ServiceHandler.Delete s id).2 = s) ∧
      (ServiceExists s id = true → (∃ r ∈ ListRouters s, r.Service.ID = id) →
        ServiceHandler.Delete s id =
          ({ status := 409,
             body := inUseBody "Service is in use by other resources and cannot be deleted"
               (ServiceInUse s id).2 }, s) ∧
          ServiceExists (ServiceHandler.Delete s id).2 id = true) ∧
      (ServiceExists s id = true → (∀ r ∈ ListRouters s, r.Service.ID ≠ id) →
        (ServiceHandler.Delete s id).1 =
            { status := 200, body := resourceResponse id false false true } ∧
          (ServiceHandler.Delete s id).2 = { s with Services := s.Services.erase id } ∧
          ServiceExists (ServiceHandler.Delete s id).2 id = false) ∧
      (∀ rid, ServiceExists s id = true → (ServiceInUse s id).2 = ["router:" ++ rid] →
        (ServiceHandler.Delete s id).1.status = 409 ∧
          (ServiceHandler.Delete (DeleteRouter s rid).2 id).1.status = 200)) ∧
    ((MiddlewareExists s id = false →
        (MiddlewareHandler.Delete s id).1.status = 404 ∧
          (MiddlewareHandler.Delete s id).2 = s) ∧
      (MiddlewareExists s id = true →
        (∃ r ∈ ListRouters s, ∃ mw ∈ r.Middlewares, mw.ID = id) →
        MiddlewareHandler.Delete s id =
          ({ status := 409,
             body := inUseBody "Middleware is in use by other resources and cannot be deleted"
               (MiddlewareInUse s id).2 }, s) ∧
          MiddlewareExists (MiddlewareHandler.Delete s id).2 id = true) ∧
      (MiddlewareExists s id = true →
        (∀ r ∈ ListRouters s, ∀ mw ∈ r.Middlewares, mw.ID ≠ id) →
        (MiddlewareHandler.Delete s id).1 =
            { status := 200, body := resourceResponse id false false true } ∧
          (MiddlewareHandler.Delete s id).2 =
            { s with Middlewares := s.Middlewares.erase id } ∧
          MiddlewareExists (MiddlewareHandler.Delete s id).2 id = false) ∧
      (∀ rid, MiddlewareExists s id = true → (MiddlewareInUse s id).2 = ["router:" ++ rid] →
        (MiddlewareHandler.Delete s id).1.status = 409 ∧
          (MiddlewareHandler.Delete (DeleteRouter s rid).2 id).1.status = 200)) := by
  have hdr : ∀ rid, ((DeleteRouter s rid).2.Services = s.Services) ∧
      ((DeleteRouter s rid).2.Middlewares = s.Middlewares) := by
    intro rid
    unfold DeleteRouter
    split <;> exact ⟨rfl, rfl⟩
  refine ⟨⟨?_, ?_, ?_, ?_⟩, ⟨?_, ?_, ?_, ?_⟩⟩
  · intro he
    simp [ServiceHandler.Delete, he]
  · intro he hex
    have hu : (ServiceInUse s id).1 = true := (serviceInUse_iff_list s id).mpr hex
    have : ServiceHandler.Delete s id =
        ({ status := 409,
           body := inUseBody "Service is in use by other resources and cannot be deleted"
             (ServiceInUse s id).2 }, s) := by
      simp only [ServiceHandler.Delete, he, hu, Bool.not_true, Bool.false_eq_true, if_false,
        if_true]
    exact ⟨this, by rw [this]; exact he⟩
  · intro he hall
    have hu : (ServiceInUse s id).1 = false := by
      cases hc : (ServiceInUse s id).1 with
      | false => rfl
      | true =>
        obtain ⟨r, hr, hid⟩ := (serviceInUse_iff_list s id).mp hc
        exact absurd hid (hall r hr)
    rw [ServiceHandler_Delete_unused s id he hu]
    refine ⟨rfl, rfl, ?_⟩
    simp only [ServiceExists, AList.lookup_erase, Option.isSome_none]
  · intro rid he hl
    have hu : (ServiceInUse s id).1 = true := by
      rw [show ServiceInUse s id = serviceInUse s id from rfl, serviceInUse_flag,
        show (serviceInUse s id).2 = _ from hl]
      simp
    constructor
    · simp only [ServiceHandler.Delete, he, hu, Bool.not_true, Bool.false_eq_true, if_false,
        if_true]
    · have he' : ServiceExists (DeleteRouter s rid).2 id = true := by
        simp only [ServiceExists, (hdr rid).1]; exact he
      rw [ServiceHandler_Delete_unused _ id he' (serviceInUse_after_deleteRouter s id rid hl)]
  · intro he
    simp [MiddlewareHandler.Delete, he]
  · intro he hex
    have hu : (MiddlewareInUse s id).1 = true := (middlewareInUse_iff_list s id).mpr hex
    have : MiddlewareHandler.Delete s id =
        ({ status := 409,
           body := inUseBody "Middleware is in use by other resources and cannot be deleted"
             (MiddlewareInUse s id).2 }, s) := by
      simp only [MiddlewareHandler.Delete, he, hu, Bool.not_true, Bool.false_eq_true, if_false,
        if_true]
    exact ⟨this, by rw [this]; exact he⟩
  · intro he hall
    have hu : (MiddlewareInUse s id).1 = false := by
      cases hc : (MiddlewareInUse s id).1 with
      | false => rfl
      | true =>
        obtain ⟨r, hr, mw, hmw, hid⟩ := (middlewareInUse_iff_list s id).mp hc
        exact absurd hid (hall r hr mw hmw)
    rw [MiddlewareHandler_Delete_unused s id he hu]
    refine ⟨rfl, rfl, ?_⟩
    simp only [MiddlewareExists, AList.lookup_erase, Option.isSome_none]
  · intro rid he hl
    have hu : (MiddlewareInUse s id).1 = true := by
      rw [show MiddlewareInUse s id = middlewareInUse s id from rfl, middlewareInUse_flag,
        show (middlewareInUse s id).2 = _ from hl]
      simp
    constructor
    · simp only [MiddlewareHandler.Delete, he, hu, Bool.not_true, Bool.false_eq_true,
        if_false, if_true]
    · have he' : MiddlewareExists (DeleteRouter s rid).2 id = true := by
        simp only [MiddlewareExists, (hdr rid).2]; exact he
      rw [MiddlewareHandler_Delete_unused _ id he'
        (middlewareInUse_after_deleteRouter s id rid hl)]

/-- C24: `POST /middlewares` answers 400 when the body's id or type is empty,
409 when a middleware with that id is stored, and otherwise 201 with
`{id, created: true}`, after which the store holds the posted middleware; a
second create under the same id answers 409 and leaves the first record. -/
theorem post_middleware_outcome (s : FileStore) (m : Middleware) :
    ((m.ID = "" ∨ m.Type_ = "") →
      (MiddlewareHandler.Create s (some m)).1.status = 400 ∧
        (MiddlewareHandler.Create s (some m)).2 = s) ∧
    (m.ID ≠ "" → m.Type_ ≠ "" → MiddlewareExists s m.ID = true →
      (MiddlewareHandler.Create s (some m)).1.status = 409 ∧
        (MiddlewareHandler.Create s (some m)).2 = s) ∧
    (m.ID ≠ "" → m.Type_ ≠ "" → MiddlewareExists s m.ID = false →
      (MiddlewareHandler.Create s (some m)).1 =
          { status := 201, body := resourceResponse m.ID true false false } ∧
        GetMiddleware (MiddlewareHandler.Create s (some m)).2 m.ID = Except.ok m ∧
        ∀ m' : Middleware, m'.ID = m.ID → m'.Type_ ≠ "" →
          (MiddlewareHandler.Create (MiddlewareHandler.Create s (some m)).2 (some m')).1.status
              = 409 ∧
            GetMiddleware
              (MiddlewareHandler.Create (MiddlewareHandler.Create s (some m)).2 (some m')).2
              m.ID = Except.ok m) := by
  have hdup : ∀ (t : FileStore) (x : Middleware), x.ID ≠ "" → x.Type_ ≠ "" →
      MiddlewareExists t x.ID = true →
      MiddlewareHandler.Create t (some x) =
        ({ status := 409, body := errorBody "Middleware already exists" }, t) := by
    intro t x h1 h2 h3
    simp only [MiddlewareHandler.Create, beq_iff_eq, if_neg h1, if_neg h2, h3, if_true]
  refine ⟨?_, ?_, ?_⟩
  · intro h
    by_cases h1 : m.ID = ""
    · simp [MiddlewareHandler.Create, h1]
    · by_cases h2 : m.Type_ = ""
      · simp [MiddlewareHandler.Create, h1, h2]
      · rcases h with h | h
        · exact absurd h h1
        · exact absurd h h2
  · intro h1 h2 h3
    rw [hdup s m h1 h2 h3]
    exact ⟨rfl, rfl⟩
  · intro h1 h2 h3
    have hc : CreateMiddleware s m =
        (none, { s with Middlewares := s.Middlewares.insert m.ID m }) := by
      unfold CreateMiddleware
      rw [if_neg (by rw [show (s.Middlewares.lookup m.ID).isSome = false from h3]; simp)]
    have heq : MiddlewareHandler.Create s (some m) =
        ({ status := 201, body := resourceResponse m.ID true false false },
          { s with Middlewares := s.Middlewares.insert m.ID m }) := by
      simp only [MiddlewareHandler.Create, beq_iff_eq, if_neg h1, if_neg h2, h3, hc,
        Bool.false_eq_true, if_false]
    have hget : GetMiddleware { s with Middlewares := s.Middlewares.insert m.ID m } m.ID =
        Except.ok m := by
      simp only [GetMiddleware, AList.lookup_insert]
    rw [heq]
    refine ⟨rfl, hget, ?_⟩
    intro m' hid hty
    have hex : MiddlewareExists { s with Middlewares := s.Middlewares.insert m.ID m } m'.ID =
        true := by
      simp only [MiddlewareExists]
      rw [hid, AList.lookup_insert]
      rfl
    rw [hdup _ m' (by rw [hid]; exact h1) hty hex]
    exact ⟨rfl, hget⟩

theorem UpdateRouter_not_found (s : FileStore) (id : String) (r : Router)
    (h : RouterExists s id = false) : UpdateRouter s id r = (some Error.ErrNotFound, s) := by
  unfold UpdateRouter
  have : s.Routers.lookup id = none := by
    simp only [RouterExists] at h
    cases hl : s.Routers.lookup id with
    | none => rfl
    | some v => rw [hl] at h; cases h
  rw [this]

theorem UpdateRouter_invalid (s : FileStore) (id : String) (r : Router)
    (he : RouterExists s id = true)
    (h : (r.Service.ID ≠ "" ∧ ServiceExists s r.Service.ID = false) ∨
      ∃ mw ∈ r.Middlewares, MiddlewareExists s mw.ID = false) :
    ∃ msg, UpdateRouter s id r = (some (Error.errorf msg), s) := by
  unfold UpdateRouter
  cases hl : s.Routers.lookup id with
  | none => simp only [RouterExists, hl] at he; cases he
  | some prev =>
    simp only []
    by_cases hne : r.Service.ID = ""
    · have hb : (r.Service.ID != "") = false := by simp [hne]
      simp only [hb, Bool.false_and, Bool.false_eq_true, if_false]
      cases hf : r.Middlewares.find? (fun mw => (s.Middlewares.lookup mw.ID).isNone) with
      | some mw => exact ⟨_, rfl⟩
      | none =>
        exfalso
        rcases h with ⟨h1, _⟩ | ⟨mw, hmw, hmiss⟩
        · exact h1 hne
        · have := (find_missing_eq_none s _).mp hf mw hmw
          rw [hmiss] at this; cases this
    · have hb : (r.Service.ID != "") = true := by simp [hne]
      simp only [hb, Bool.true_and, if_true]
      by_cases hsv : (s.Services.lookup r.Service.ID).isNone = true
      · rw [if_pos hsv]; exact ⟨_, rfl⟩
      · rw [if_neg hsv]
        cases hf : r.Middlewares.find? (fun mw => (s.Middlewares.lookup mw.ID).isNone) with
        | some mw => exact ⟨_, rfl⟩
        | none =>
          exfalso
          rcases h with ⟨_, h2⟩ | ⟨mw, hmw, hmiss⟩
          · exact hsv (isNone_of_isSome_false h2)
          · have := (find_missing_eq_none s _).mp hf mw hmw
            rw [hmiss] at this; cases this

theorem UpdateRouter_valid (s : FileStore) (id : String) (r : Router)
    (he : RouterExists s id = true)
    (hs : r.Service.ID ≠ "" → ServiceExists s r.Service.ID = true)
    (hm : ∀ mw ∈ r.Middlewares, MiddlewareExists s mw.ID = true) :
    (UpdateRouter s id r).1 = none := by
  unfold UpdateRouter
  cases hl : s.Routers.lookup id with
  | none => simp only [RouterExists, hl] at he; cases he
  | some prev =>
    simp only []
    by_cases hne : r.Service.ID = ""
    · have hb : (r.Service.ID != "") = false := by simp [hne]
      simp only [hb, Bool.false_and, Bool.false_eq_true, if_false]
      rw [(find_missing_eq_none s _).mpr hm]
    · have hb : (r.Service.ID != "") = true := by simp [hne]
      simp only [hb, Bool.true_and, if_true]
      rw [if_neg (isNone_false_of_isSome (hs hne)), (find_missing_eq_none s _).mpr hm]

theorem UpdateRouter_error_unchanged (s s' : FileStore) (id : String) (r : Router)
    (e : Error) (h : UpdateRouter s id r = (some e, s')) : s' = s := by
  cases he : RouterExists s id with
  | false =>
    rw [UpdateRouter_not_found s id r he] at h
    exact (Prod.mk.inj h).2.symm
  | true =>
    by_cases hbad : (r.Service.ID ≠ "" ∧ ServiceExists s r.Service.ID = false) ∨
        ∃ mw ∈ r.Middlewares, MiddlewareExists s mw.ID = false
    · obtain ⟨msg, hmsg⟩ := UpdateRouter_invalid s id r he hbad
      rw [hmsg] at h
      exact (Prod.mk.inj h).2.symm
    · exfalso
      rw [not_or] at hbad
      have hs : r.Service.ID ≠ "" → ServiceExists s r.Service.ID = true := by
        intro hne
        cases hc : ServiceExists s r.Service.ID with
        | true => rfl
        | false => exact absurd ⟨hne, hc⟩ hbad.1
      have hm : ∀ mw ∈ r.Middlewares, MiddlewareExists s mw.ID = true := by
        intro mw hmw
        cases hc : MiddlewareExists s mw.ID with
        | true => rfl
        | false => exact absurd ⟨mw, hmw, hc⟩ hbad.2
      have := UpdateRouter_valid s id r he hs hm
      rw [h] at this
      cases this

theorem RouterHandler_Update_of_rule (s : FileStore) (id : String)
    (requestData : List (String × JSONValue))
    (hrule : (parseRouterUpdate id requestData).Rule ≠ "") :
    (∀ err s', UpdateRouter s id (parseRouterUpdate id requestData) = (some err, s') →
      RouterHandler.Update s id (some requestData) =
        if IsNotFound err then ({ status := 404, body := errorBody "Router not found" }, s')
        else ({ status := 400, body := errorBody err.Message }, s')) ∧
    (∀ s', UpdateRouter s id (parseRouterUpdate id requestData) = (none, s') →
      RouterHandler.Update s id (some requestData) =
        ({ status := 200, body := resourceResponse id false true false }, s')) := by
  constructor
  · intro err s' h
    rw [RouterHandler_Update_eq, if_neg (by simpa using hrule), h]
  · intro s' h
    rw [RouterHandler_Update_eq, if_neg (by simpa using hrule), h]

/-- C25: `PUT /routers/:id` answers 400 when the body has no non-empty rule;
otherwise 404 when no router with the path id is stored; otherwise 400 when the
body's service id is non-empty and not stored, or a listed middleware is not
stored; otherwise 200 with `{id, updated: true}`.  In every case other than
200 the store is unchanged. -/
theorem put_router_outcome (s : FileStore) (id : String)
    (requestData : List (String × JSONValue)) :
    ((parseRouterUpdate id requestData).Rule = "" →
      (RouterHandler.Update s id (some requestData)).1.status = 400) ∧
    ((parseRouterUpdate id requestData).Rule ≠ "" → RouterExists s id = false →
      (RouterHandler.Update s id (some requestData)).1.status = 404) ∧
    ((parseRouterUpdate id requestData).Rule ≠ "" → RouterExists s id = true →
      ((parseRouterUpdate id requestData).Service.ID ≠ "" ∧
          ServiceExists s (parseRouterUpdate id requestData).Service.ID = false ∨
        ∃ mw ∈ (parseRouterUpdate id requestData).Middlewares,
          MiddlewareExists s mw.ID = false) →
      (RouterHandler.Update s id (some requestData)).1.status = 400) ∧
    ((parseRouterUpdate id requestData).Rule ≠ "" → RouterExists s id = true →
      ((parseRouterUpdate id requestData).Service.ID ≠ "" →
        ServiceExists s (parseRouterUpdate id requestData).Service.ID = true) →
      (∀ mw ∈ (parseRouterUpdate id requestData).Middlewares,
        MiddlewareExists s mw.ID = true) →
      (RouterHandler.Update s id (some requestData)).1 =
          { status := 200, body := resourceResponse id false true false } ∧
        (RouterHandler.Update s id (some requestData)).2 =
          (UpdateRouter s id (parseRouterUpdate id requestData)).2) ∧
    ((RouterHandler.Update s id (some requestData)).1.status ≠ 200 →
      (RouterHandler.Update s id (some requestData)).2 = s) := by
  refine ⟨?_, ?_, ?_, ?_, ?_⟩
  · intro h
    rw [RouterHandler_Update_eq, if_pos (by simpa using h)]
  · intro hrule he
    rw [(RouterHandler_Update_of_rule s id requestData hrule).1 _ _
      (UpdateRouter_not_found s id _ he)]
    rfl
  · intro hrule he h
    obtain ⟨msg, hmsg⟩ := UpdateRouter_invalid s id _ he h
    rw [(RouterHandler_Update_of_rule s id requestData hrule).1 _ _ hmsg]
    rfl
  · intro hrule he hs hm
    have hv := UpdateRouter_valid s id _ he hs hm
    have hp : UpdateRouter s id (parseRouterUpdate id requestData) =
        (none, (UpdateRouter s id (parseRouterUpdate id requestData)).2) := by
      rw [← hv]
    rw [(RouterHandler_Update_of_rule s id requestData hrule).2 _ hp]
    exact ⟨rfl, rfl⟩
  · intro hne
    by_cases hrule : (parseRouterUpdate id requestData).Rule = ""
    · rw [RouterHandler_Update_eq, if_pos (by simpa using hrule)]
    · cases hu : UpdateRouter s id (parseRouterUpdate id requestData) with
      | mk err s' =>
        cases err with
        | none =>
          exfalso
          apply hne
          rw [(RouterHandler_Update_of_rule s id requestData hrule).2 _ hu]
        | some e =>
          have hs' : s' = s := UpdateRouter_error_unchanged s s' id _ e hu
          rw [(RouterHandler_Update_of_rule s id requestData hrule).1 _ _ hu, hs']
          split <;> rfl

/-- C26: `validateServiceConfiguration` rejects a service with empty URL and
none of the four blocks, and accepts a service iff its first populated form is
well-formed: any non-empty URL; a LoadBalancer with at least one server and
every server URL non-empty; a Weighted block with at least one item; a
Mirroring block with non-empty main service ID; a Failover block with
non-empty main and fallback service IDs. -/
theorem validateServiceConfiguration_accepts (svc : models.Service) :
    (svc.URL = "" → svc.LoadBalancer = none → svc.Weighted = none → svc.Mirroring = none →
      svc.Failover = none → validateServiceConfiguration svc ≠ none) ∧
    (svc.URL ≠ "" → validateServiceConfiguration svc = none) ∧
    (∀ lb, svc.URL = "" → svc.LoadBalancer = some lb →
      (validateServiceConfiguration svc = none ↔
        lb.Servers ≠ [] ∧ ∀ server ∈ lb.Servers, server.URL ≠ "")) ∧
    (∀ w, svc.URL = "" → svc.LoadBalancer = none → svc.Weighted = some w →
      (validateServiceConfiguration svc = none ↔ w.Services ≠ [])) ∧
    (∀ m, svc.URL = "" → svc.LoadBalancer = none → svc.Weighted = none →
      svc.Mirroring = some m →
      (validateServiceConfiguration svc = none ↔ m.Service.ID ≠ "")) ∧
    (∀ f, svc.URL = "" → svc.LoadBalancer = none → svc.Weighted = none →
      svc.Mirroring = none → svc.Failover = some f →
      (validateServiceConfiguration svc = none ↔ f.Service.ID ≠ "" ∧ f.Fallback.ID ≠ "")) := by
  obtain ⟨id, ty, url, lb0, w0, m0, f0⟩ := svc
  refine ⟨?_, ?_, ?_, ?_, ?_, ?_⟩
  · intro h1 h2 h3 h4 h5
    simp only at h1 h2 h3 h4 h5
    subst h1 h2 h3 h4 h5
    simp [validateServiceConfiguration]
  · intro h
    simp only at h
    simp [validateServiceConfiguration, h]
  · intro lb h1 h2
    simp only at h1 h2
    subst h1 h2
    simp only [validateServiceConfiguration, bne_self_eq_false, Bool.false_eq_true, if_false]
    by_cases hl : lb.Servers = []
    · simp [hl]
    · have hlen : ¬ (lb.Servers.length = 0) := fun hc => hl (List.length_eq_zero.mp hc)
      simp only [beq_iff_eq, hlen, if_false]
      by_cases ha : lb.Servers.any (fun server => server.URL == "") = true
      · simp only [ha, if_true]
        constructor
        · intro hc; cases hc
        · rintro ⟨_, hall⟩
          exfalso
          obtain ⟨x, hx, hxe⟩ := List.any_eq_true.mp ha
          exact hall x hx (by simpa using hxe)
      · have ha' : lb.Servers.any (fun server => server.URL == "") = false := by
          simpa using ha
        simp only [ha', Bool.false_eq_true, if_false, true_iff]
        refine ⟨hl, ?_⟩
        intro server hs hu
        exact ha (List.any_eq_true.mpr ⟨server, hs, by simpa using hu⟩)
  · intro w h1 h2 h3
    simp only at h1 h2 h3
    subst h1 h2 h3
    simp only [validateServiceConfiguration, bne_self_eq_false, Bool.false_eq_true, if_false]
    by_cases hl : w.Services = []
    · simp [hl]
    · have hlen : ¬ (w.Services.length = 0) := fun hc => hl (List.length_eq_zero.mp hc)
      simp [hlen, hl]
  · intro m h1 h2 h3 h4
    simp only at h1 h2 h3 h4
    subst h1 h2 h3 h4
    simp only [validateServiceConfiguration, bne_self_eq_false, Bool.false_eq_true, if_false]
    by_cases hm : m.Service.ID = "" <;> simp [hm]
  · intro f h1 h2 h3 h4 h5
    simp only at h1 h2 h3 h4 h5
    subst h1 h2 h3 h4 h5
    simp only [validateServiceConfiguration, bne_self_eq_false, Bool.false_eq_true, if_false]
    by_cases hm : f.Service.ID = "" <;> by_cases hf : f.Fallback.ID = "" <;> simp [hm, hf]

/-- C30: for every kind, `KExists id` is true iff `GetK id` succeeds, and
`GetK id` fails with `ErrNotFound` iff `KExists id` is false. -/
theorem exists_consistent_with_get (s : FileStore) (id : String) :
    ((MiddlewareExists s id = true ↔ ∃ m, GetMiddleware s id = Except.ok m) ∧
      (GetMiddleware s id = Except.error Error.ErrNotFound ↔ MiddlewareExists s id = false)) ∧
    ((RouterExists s id = true ↔ ∃ r, GetRouter s id = Except.ok r) ∧
      (GetRouter s id = Except.error Error.ErrNotFound ↔ RouterExists s id = false)) ∧
    ((ServiceExists s id = true ↔ ∃ v, GetService s id = Except.ok v) ∧
      (GetService s id = Except.error Error.ErrNotFound ↔ ServiceExists s id = false)) := by
  refine ⟨⟨?_, ?_⟩, ⟨?_, ?_⟩, ⟨?_, ?_⟩⟩
  · simp only [MiddlewareExists, GetMiddleware]
    cases s.Middlewares.lookup id <;> simp
  · simp only [MiddlewareExists, GetMiddleware]
    cases s.Middlewares.lookup id <;> simp
  · simp only [RouterExists, GetRouter]
    cases s.Routers.lookup id <;> simp
  · simp only [RouterExists, GetRouter]
    cases s.Routers.lookup id <;> simp
  · simp only [ServiceExists, GetService]
    cases s.Services.lookup id <;> simp
  · simp only [ServiceExists, GetService]
    cases s.Services.lookup id <;> simp

theorem strings.HasPrefix_self (s : String) : strings.HasPrefix s s = true := by
  simp only [strings.HasPrefix, List.isPrefixOf_iff_prefix]
  exact List.prefix_refl _

theorem server.Setup_provider_path {ρ : Type} (cfg : config.Config) (next : echo.Context → ρ)
    (c : echo.Context) (hp : c.Path = cfg.Provider.ProviderPath) :
    server.Setup cfg next c = Except.ok (next c) := by
  unfold server.Setup
  by_cases he : cfg.Auth.Enabled = true
  · have hany : (server.excludedPaths cfg).any
        (fun excludePath => strings.HasPrefix c.Path excludePath) = true := by
      simp only [server.excludedPaths, he, if_true, List.any_eq_true]
      exact ⟨cfg.Provider.ProviderPath, by simp, by rw [hp]; exact strings.HasPrefix_self _⟩
    simp only [he, if_true, middleware.Auth, Bool.not_true, Bool.false_eq_true, if_false, hany]
  · simp only [he, if_false, Bool.false_eq_true]

/-- C27: for a request on the provider path, with the provider gate enabled
with key `k` the answer is 200 iff the value of the provider's header is
non-empty and equals `k`, and 401 otherwise, whatever the API-wide gate; with
no provider gate (none configured, or not enabled) the answer is 200, also
when the API-wide gate is enabled. -/
theorem provider_gate (cfg : config.Config) (s : FileStore) (c : echo.Context)
    (hp : c.Path = cfg.Provider.ProviderPath) :
    (∀ pa, cfg.Provider.Auth = some pa → pa.Enabled = true →
      ∃ r, server.Setup cfg (routes.providerHandler cfg s) c = Except.ok r ∧
        (r.status = 200 ↔ (c.Header pa.HeaderName ≠ "" ∧ c.Header pa.HeaderName = pa.Key)) ∧
        (¬ (c.Header pa.HeaderName ≠ "" ∧ c.Header pa.HeaderName = pa.Key) → r.status = 401)) ∧
    ((cfg.Provider.Auth = none ∨ ∃ pa, cfg.Provider.Auth = some pa ∧ pa.Enabled = false) →
      ∃ r, server.Setup cfg (routes.providerHandler cfg s) c = Except.ok r ∧ r.status = 200) := by
  constructor
  · intro pa hpa hen
    refine ⟨_, server.Setup_provider_path cfg _ c hp, ?_, ?_⟩
    · simp only [routes.providerHandler, hpa, Option.isNone_some, Bool.false_and,
        Bool.false_eq_true, if_false, ProviderHandlerWithAuth.GetConfigWithAuth, hen, if_true]
      by_cases h1 : c.Header pa.HeaderName = ""
      · simp [h1]
      · by_cases h2 : c.Header pa.HeaderName = pa.Key
        · have hk : ¬ pa.Key = "" := fun hk => h1 (h2.trans hk)
          simp [h2, hk]
        · simp [h1, h2]
    · intro hn
      simp only [routes.providerHandler, hpa, Option.isNone_some, Bool.false_and,
        Bool.false_eq_true, if_false, ProviderHandlerWithAuth.GetConfigWithAuth, hen, if_true]
      by_cases h1 : c.Header pa.HeaderName = ""
      · simp [h1]
      · by_cases h2 : c.Header pa.HeaderName = pa.Key
        · exact absurd ⟨h1, h2⟩ hn
        · simp [h1, h2]
  · intro h
    refine ⟨_, server.Setup_provider_path cfg _ c hp, ?_⟩
    rcases h with h | ⟨pa, hpa, hen⟩
    · simp only [routes.providerHandler, h, ProviderHandlerWithAuth.GetConfigWithAuth,
        ProviderHandler.GetConfig]
      split <;> rfl
    · simp only [routes.providerHandler, hpa, Option.isNone_some, Bool.false_and,
        Bool.false_eq_true, if_false, ProviderHandlerWithAuth.GetConfigWithAuth, hen]

/-- C28: the API-key middleware calls the next handler iff authentication is
disabled, or the request path starts with one of the excluded paths, or the
configured header's value is non-empty and equals the key; otherwise it
answers 401 without calling the next handler. -/
theorem auth_calls_next {ρ : Type} (opts : middleware.AuthOptions) (next : echo.Context → ρ)
    (c : echo.Context) :
    (middleware.Auth opts next c = Except.ok (next c) ↔
      (opts.Enabled = false ∨
        (∃ p ∈ opts.ExcludePaths, strings.HasPrefix c.Path p = true) ∨
        (c.Header opts.HeaderName ≠ "" ∧ c.Header opts.HeaderName = opts.Key))) ∧
    (∀ r, middleware.Auth opts next c = Except.ok r → r = next c) ∧
    (¬ (opts.Enabled = false ∨
        (∃ p ∈ opts.ExcludePaths, strings.HasPrefix c.Path p = true) ∨
        (c.Header opts.HeaderName ≠ "" ∧ c.Header opts.HeaderName = opts.Key)) →
      ∃ r, middleware.Auth opts next c = Except.error r ∧ r.status = 401) := by
  by_cases he : opts.Enabled = false
  · have : middleware.Auth opts next c = Except.ok (next c) := by
      simp [middleware.Auth, he]
    refine ⟨by simp [this, he], ?_, ?_⟩
    · intro r hr; rw [this] at hr; cases hr; rfl
    · intro hn; exact absurd (Or.inl he) hn
  · have he' : opts.Enabled = true := by simpa using he
    by_cases hx : opts.ExcludePaths.any
        (fun excludePath => strings.HasPrefix c.Path excludePath) = true
    · have : middleware.Auth opts next c = Except.ok (next c) := by
        simp only [middleware.Auth, he', Bool.not_true, Bool.false_eq_true, if_false, hx, if_true]
      have hex : ∃ p ∈ opts.ExcludePaths, strings.HasPrefix c.Path p = true :=
        List.any_eq_true.mp hx
      refine ⟨by simp only [this, true_iff]; exact Or.inr (Or.inl hex), ?_, ?_⟩
      · intro r hr; rw [this] at hr; cases hr; rfl
      · intro hn; exact absurd (Or.inr (Or.inl hex)) hn
    · have hnx : ¬ ∃ p ∈ opts.ExcludePaths, strings.HasPrefix c.Path p = true :=
        fun hc => hx (List.any_eq_true.mpr hc)
      by_cases h1 : c.Header opts.HeaderName = ""
      · have : middleware.Auth opts next c =
            Except.error { status := 401, body := middleware.unauthorizedBody "API key missing" } := by
          simp only [middleware.Auth, he', Bool.not_true, Bool.false_eq_true, if_false, hx, h1,
            beq_self_eq_true, if_true]
        refine ⟨?_, ?_, ?_⟩
        · rw [this]
          constructor
          · intro hc; cases hc
          · rintro (h | h | ⟨h, _⟩)
            · exact absurd h he
            · exact absurd h hnx
            · exact absurd h1 h
        · intro r hr; rw [this] at hr; cases hr
        · intro _; exact ⟨_, this, rfl⟩
      · by_cases h2 : c.Header opts.HeaderName = opts.Key
        · have : middleware.Auth opts next c = Except.ok (next c) := by
            simp [middleware.Auth, he', hx, h1, h2]
            intro hk
            exact absurd (h2.trans hk) h1
          refine ⟨by simp only [this, true_iff]; exact Or.inr (Or.inr ⟨h1, h2⟩), ?_, ?_⟩
          · intro r hr; rw [this] at hr; cases hr; rfl
          · intro hn; exact absurd (Or.inr (Or.inr ⟨h1, h2⟩)) hn
        · have : middleware.Auth opts next c =
              Except.error { status := 401, body := middleware.unauthorizedBody "Invalid API key" } := by
            simp [middleware.Auth, he', hx, h1, h2]
          refine ⟨?_, ?_, ?_⟩
          · rw [this]
            constructor
            · intro hc; cases hc
            · rintro (h | h | ⟨_, h⟩)
              · exact absurd h he
              · exact absurd h hnx
              · exact absurd h h2
          · intro r hr; rw [this] at hr; cases hr
          · intro _; exact ⟨_, this, rfl⟩

/-- C29, on the code: with the API-wide gate enabled and the default base path,
a request to `/api/v1/health` without a key is answered 401 by the middleware;
the excluded paths are `/health` and the provider path, and neither is a
prefix of the request path. -/
theorem health_behind_gate :
    Sample.healthRequest.Path = routes.healthPath Sample.gatedConfig ∧
    server.excludedPaths Sample.gatedConfig = ["/health", "/traefik/provider"] ∧
    server.Setup Sample.gatedConfig (HealthHandler.Check "1.0.0" "1s") Sample.healthRequest =
      Except.error { status := 401, body := middleware.unauthorizedBody "API key missing" } := by
  refine ⟨by decide, by decide, ?_⟩
  rfl

/-- Witness for C21: the bodies `{.., "service": "s1"}` and
`{.., "service": {"id": "s1"}}`. -/
theorem router_body_shapes_normalised_witness :
    parseRouterCreate Sample.stringShapeBody = parseRouterCreate Sample.objectShapeBody ∧
      (parseRouterCreate Sample.stringShapeBody).Service = Service.ofID "s1" :=
  (router_body_shapes_normalised "s1" Sample.stringShapeBody Sample.objectShapeBody
    (by
      intro key hk
      have hne : ("service" == key) = false := beq_false_of_ne (Ne.symm hk)
      simp [JSONValue.index, Sample.stringShapeBody, Sample.objectShapeBody, List.find?, hne])
    rfl rfl).1

/-- Witness for C22: posting `r1` on the store holding `s1` and `m1` gives 201
and stores the parsed router. -/
theorem post_router_outcome_witness :
    (RouterHandler.Create Sample.setupStore (some Sample.stringShapeBody)).1.status = 201 ∧
      (RouterHandler.Create Sample.setupStore (some Sample.stringShapeBody)).1.body =
        resourceResponse (parseRouterCreate Sample.stringShapeBody).ID true false false ∧
      GetRouter (RouterHandler.Create Sample.setupStore (some Sample.stringShapeBody)).2
        (parseRouterCreate Sample.stringShapeBody).ID =
          Except.ok (parseRouterCreate Sample.stringShapeBody) ∧
      (RouterHandler.Create Sample.setupStore (some Sample.stringShapeBody)).2 =
        (CreateRouter Sample.setupStore (parseRouterCreate Sample.stringShapeBody)).2 :=
  (post_router_outcome Sample.setupStore Sample.stringShapeBody).2.2.2.1
    (by decide) (by decide) (by decide) (by decide) (by decide) (by decide)

/-- Witness for C23: deleting `s1` answers 409 while `r1` uses it and 200 once
`r1` is deleted. -/
theorem delete_handlers_outcome_witness :
    (ServiceHandler.Delete Sample.fullStore "s1").1.status = 409 ∧
      (ServiceHandler.Delete (DeleteRouter Sample.fullStore "r1").2 "s1").1.status = 200 :=
  (delete_handlers_outcome Sample.fullStore "s1").1.2.2.2 "r1" (by decide) (by decide)

/-- Witness for C24: posting `m1` on the empty store gives 201, and a second
post under the same ID gives 409 and keeps the first record. -/
theorem post_middleware_outcome_witness :
    (MiddlewareHandler.Create NewFileStore (some Sample.middleware)).1.status = 201 ∧
    (MiddlewareHandler.Create
        (MiddlewareHandler.Create NewFileStore (some Sample.middleware)).2
        (some Sample.otherMiddleware)).1.status = 409 ∧
      GetMiddleware
        (MiddlewareHandler.Create
          (MiddlewareHandler.Create NewFileStore (some Sample.middleware)).2
          (some Sample.otherMiddleware)).2
        Sample.middleware.ID = Except.ok Sample.middleware :=
  ⟨congrArg Response.status
      ((post_middleware_outcome NewFileStore Sample.middleware).2.2
        (by decide) (by decide) (by decide)).1,
    ((post_middleware_outcome NewFileStore Sample.middleware).2.2
      (by decide) (by decide) (by decide)).2.2 Sample.otherMiddleware rfl (by decide)⟩

/-- Witness for C25: a PUT for `r1` with a stored service and middleware. -/
theorem put_router_outcome_witness :
    (RouterHandler.Update Sample.fullStore "r1" (some Sample.stringShapeBody)).1 =
        { status := 200, body := resourceResponse "r1" false true false } ∧
      (RouterHandler.Update Sample.fullStore "r1" (some Sample.stringShapeBody)).2 =
        (UpdateRouter Sample.fullStore "r1"
          (parseRouterUpdate "r1" Sample.stringShapeBody)).2 :=
  (put_router_outcome Sample.fullStore "r1" Sample.stringShapeBody).2.2.2.1
    (by decide) (by decide) (by decide) (by decide)

/-- Witness for C27: with both gates enabled, a request that carries the
API-wide key but no provider key is answered 401. -/
theorem provider_gate_witness :
    ∃ r, server.Setup Sample.twoGateConfig
        (routes.providerHandler Sample.twoGateConfig Sample.fullStore)
        Sample.providerRequest = Except.ok r ∧ r.status = 401 := by
  obtain ⟨r, h1, _, h3⟩ :=
    (provider_gate Sample.twoGateConfig Sample.fullStore Sample.providerRequest rfl).1
      Sample.providerGate rfl rfl
  exact ⟨r, h1, h3 (by decide)⟩

/-! ### Store relations, configuration and persistence -/

theorem GoMap.length_entries_eq_keys {α : Type} (m : GoMap α) :
    m.entries.length = m.keys.length := by
  simp [AList.keys, List.keys]

theorem GoMap.length_insert_of_not_mem {α : Type} (m : GoMap α) (k : String) (v : α)
    (h : (m.lookup k).isSome = false) :
    (m.insert k v).entries.length = m.entries.length + 1 := by
  have hk : k ∉ m := by
    rw [← AList.lookup_isSome, h]; simp
  rw [AList.insert_entries_of_neg hk, List.length_cons]

theorem GoMap.length_insert_of_mem {α : Type} (m : GoMap α) (k : String) (v : α)
    (h : (m.lookup k).isSome = true) :
    (m.insert k v).entries.length = m.entries.length := by
  have hk : k ∈ m.keys := AList.mem_keys.mp (AList.lookup_isSome.mp h)
  rw [GoMap.length_entries_eq_keys, GoMap.length_entries_eq_keys, AList.keys_insert,
    List.length_cons, List.length_erase_of_mem hk]
  have : 0 < m.keys.length := List.length_pos_of_mem hk
  omega

theorem GoMap.length_erase_of_mem {α : Type} (m : GoMap α) (k : String)
    (h : (m.lookup k).isSome = true) :
    (m.erase k).entries.length + 1 = m.entries.length := by
  have hk : k ∈ m.keys := AList.mem_keys.mp (AList.lookup_isSome.mp h)
  rw [GoMap.length_entries_eq_keys, GoMap.length_entries_eq_keys, AList.keys_erase,
    List.length_erase_of_mem hk]
  have : 0 < m.keys.length := List.length_pos_of_mem hk
  omega

theorem CreateRouter_success (s : FileStore) (r : Router) (h : (CreateRouter s r).1 = none) :
    RouterExists s r.ID = false ∧
      (CreateRouter s r).2 = { s with Routers := s.Routers.insert r.ID r } := by
  cases hr : RouterExists s r.ID with
  | true => rw [CreateRouter_of_exists s r hr] at h; cases h
  | false =>
    refine ⟨rfl, ?_⟩
    cases hs : ServiceExists s r.Service.ID with
    | false => rw [CreateRouter_of_no_service s r hr hs] at h; cases h
    | true =>
      cases hf : r.Middlewares.find? (fun mw => (s.Middlewares.lookup mw.ID).isNone) with
      | some mw => rw [CreateRouter_of_missing s r mw hr hs hf] at h; cases h
      | none => rw [CreateRouter_of_all_stored s r hr hs hf]

theorem CreateMiddleware_success (s : FileStore) (m : Middleware)
    (h : (CreateMiddleware s m).1 = none) :
    MiddlewareExists s m.ID = false ∧
      (CreateMiddleware s m).2 = { s with Middlewares := s.Middlewares.insert m.ID m } := by
  unfold CreateMiddleware at h ⊢
  unfold MiddlewareExists
  cases hm : (s.Middlewares.lookup m.ID).isSome with
  | true => rw [hm] at h; simp at h
  | false => simp

theorem UpdateMiddleware_success (s : FileStore) (id : String) (m : Middleware)
    (h : (UpdateMiddleware s id m).1 = none) :
    MiddlewareExists s id = true ∧
      (UpdateMiddleware s id m).2 =
        { s with Middlewares := s.Middlewares.insert id { m with ID := id } } := by
  unfold UpdateMiddleware at h ⊢
  unfold MiddlewareExists
  cases hm : s.Middlewares.lookup id with
  | none => rw [hm] at h; simp at h
  | some v => simp

theorem DeleteMiddleware_success (s : FileStore) (id : String)
    (h : (DeleteMiddleware s id).1 = none) :
    MiddlewareExists s id = true ∧ (middlewareInUse s id).1 = false ∧
      (DeleteMiddleware s id).2 = { s with Middlewares := s.Middlewares.erase id } := by
  unfold DeleteMiddleware at h ⊢
  unfold MiddlewareExists
  cases hm : s.Middlewares.lookup id with
  | none => rw [hm] at h; simp at h
  | some v =>
    rw [hm] at h
    cases hu : (middlewareInUse s id).1 with
    | true => rw [hu] at h; simp at h
    | false => simp

theorem CreateService_success (s : FileStore) (v : Service)
    (h : (CreateService s v).1 = none) :
    ServiceExists s v.ID = false ∧
      (CreateService s v).2 = { s with Services := s.Services.insert v.ID v } := by
  unfold CreateService at h ⊢
  unfold ServiceExists
  cases hm : (s.Services.lookup v.ID).isSome with
  | true => rw [hm] at h; simp at h
  | false => simp

theorem UpdateService_success (s : FileStore) (id : String) (v : Service)
    (h : (UpdateService s id v).1 = none) :
    ServiceExists s id = true ∧
      (UpdateService s id v).2 =
        { s with Services := s.Services.insert id { v with ID := id } } := by
  unfold UpdateService at h ⊢
  unfold ServiceExists
  cases hm : s.Services.lookup id with
  | none => rw [hm] at h; simp at h
  | some w => simp

theorem DeleteService_success (s : FileStore) (id : String)
    (h : (DeleteService s id).1 = none) :
    ServiceExists s id = true ∧ (serviceInUse s id).1 = false ∧
      (DeleteService s id).2 = { s with Services := s.Services.erase id } := by
  unfold DeleteService at h ⊢
  unfold ServiceExists
  cases hm : s.Services.lookup id with
  | none => rw [hm] at h; simp at h
  | some v =>
    rw [hm] at h
    cases hu : (serviceInUse s id).1 with
    | true => rw [hu] at h; simp at h
    | false => simp

theorem DeleteRouter_success (s : FileStore) (id : String)
    (h : (DeleteRouter s id).1 = none) :
    RouterExists s id = true ∧
      (DeleteRouter s id).2 = { s with Routers := s.Routers.erase id } := by
  unfold DeleteRouter at h ⊢
  unfold RouterExists
  cases hm : s.Routers.lookup id with
  | none => rw [hm] at h; simp at h
  | some v => simp

theorem getMiddleware_insert (s : FileStore) (k : String) (m : Middleware) :
    GetMiddleware { s with Middlewares := s.Middlewares.insert k m } k = Except.ok m := by
  simp only [GetMiddleware, AList.lookup_insert]

theorem getService_insert (s : FileStore) (k : String) (v : Service) :
    GetService { s with Services := s.Services.insert k v } k = Except.ok v := by
  simp only [GetService, AList.lookup_insert]

theorem getRouter_insert (s : FileStore) (k : String) (r : Router) :
    GetRouter { s with Routers := s.Routers.insert k r } k = Except.ok r := by
  simp only [GetRouter, AList.lookup_insert]

theorem getRouter_of_lookup (s : FileStore) (k : String) (r : Router)
    (h : s.Routers.lookup k = some r) : GetRouter s k = Except.ok r := by
  simp only [GetRouter, h]

/-- C31 (amended): for every kind, after a successful create `Get` returns the
created record and `List` has one more element; after a successful update
`Get` returns the update body with the path ID and `List` has the same length,
where for a router whose body has an empty service ID the stored service is
the previously stored router's service; after a successful delete `Exists` is
false and `List` has one element fewer. -/
theorem crud_get_list (s : FileStore) :
    ((∀ m : Middleware, (CreateMiddleware s m).1 = none →
        GetMiddleware (CreateMiddleware s m).2 m.ID = Except.ok m ∧
        (ListMiddlewares (CreateMiddleware s m).2).length = (ListMiddlewares s).length + 1) ∧
      (∀ (id : String) (m : Middleware), (UpdateMiddleware s id m).1 = none →
        GetMiddleware (UpdateMiddleware s id m).2 id = Except.ok { m with ID := id } ∧
        (ListMiddlewares (UpdateMiddleware s id m).2).length = (ListMiddlewares s).length) ∧
      (∀ id : String, (DeleteMiddleware s id).1 = none →
        MiddlewareExists (DeleteMiddleware s id).2 id = false ∧
        (ListMiddlewares (DeleteMiddleware s id).2).length + 1 = (ListMiddlewares s).length)) ∧
    ((∀ v : Service, (CreateService s v).1 = none →
        GetService (CreateService s v).2 v.ID = Except.ok v ∧
        (ListServices (CreateService s v).2).length = (ListServices s).length + 1) ∧
      (∀ (id : String) (v : Service), (UpdateService s id v).1 = none →
        GetService (UpdateService s id v).2 id = Except.ok { v with ID := id } ∧
        (ListServices (UpdateService s id v).2).length = (ListServices s).length) ∧
      (∀ id : String, (DeleteService s id).1 = none →
        ServiceExists (DeleteService s id).2 id = false ∧
        (ListServices (DeleteService s id).2).length + 1 = (ListServices s).length)) ∧
    ((∀ r : Router, (CreateRouter s r).1 = none →
        GetRouter (CreateRouter s r).2 r.ID = Except.ok r ∧
        (ListRouters (CreateRouter s r).2).length = (ListRouters s).length + 1) ∧
      (∀ (id : String) (r : Router), (UpdateRouter s id r).1 = none →
        (∃ prev, GetRouter s id = Except.ok prev ∧
          GetRouter (UpdateRouter s id r).2 id = Except.ok { r with
            ID := id, Service := if r.Service.ID = "" then prev.Service else r.Service }) ∧
        (r.Service.ID ≠ "" →
          GetRouter (UpdateRouter s id r).2 id = Except.ok { r with ID := id }) ∧
        (ListRouters (UpdateRouter s id r).2).length = (ListRouters s).length) ∧
      (∀ id : String, (DeleteRouter s id).1 = none →
        RouterExists (DeleteRouter s id).2 id = false ∧
        (ListRouters (DeleteRouter s id).2).length + 1 = (ListRouters s).length)) := by
  refine ⟨⟨?_, ?_, ?_⟩, ⟨?_, ?_, ?_⟩, ⟨?_, ?_, ?_⟩⟩
  · intro m h
    obtain ⟨he, hs⟩ := CreateMiddleware_success s m h
    rw [hs]
    refine ⟨getMiddleware_insert s m.ID m, ?_⟩
    simp only [ListMiddlewares, List.length_map]
    exact GoMap.length_insert_of_not_mem _ _ _ he
  · intro id m h
    obtain ⟨he, hs⟩ := UpdateMiddleware_success s id m h
    rw [hs]
    refine ⟨getMiddleware_insert s id _, ?_⟩
    simp only [ListMiddlewares, List.length_map]
    exact GoMap.length_insert_of_mem _ _ _ he
  · intro id h
    obtain ⟨he, _, hs⟩ := DeleteMiddleware_success s id h
    rw [hs]
    refine ⟨?_, ?_⟩
    · simp only [MiddlewareExists, AList.lookup_erase, Option.isSome_none]
    · simp only [ListMiddlewares, List.length_map]
      exact GoMap.length_erase_of_mem _ _ he
  · intro v h
    obtain ⟨he, hs⟩ := CreateService_success s v h
    rw [hs]
    refine ⟨getService_insert s v.ID v, ?_⟩
    simp only [ListServices, List.length_map]
    exact GoMap.length_insert_of_not_mem _ _ _ he
  · intro id v h
    obtain ⟨he, hs⟩ := UpdateService_success s id v h
    rw [hs]
    refine ⟨getService_insert s id _, ?_⟩
    simp only [ListServices, List.length_map]
    exact GoMap.length_insert_of_mem _ _ _ he
  · intro id h
    obtain ⟨he, _, hs⟩ := DeleteService_success s id h
    rw [hs]
    refine ⟨?_, ?_⟩
    · simp only [ServiceExists, AList.lookup_erase, Option.isSome_none]
    · simp only [ListServices, List.length_map]
      exact GoMap.length_erase_of_mem _ _ he
  · intro r h
    obtain ⟨he, hs⟩ := CreateRouter_success s r h
    rw [hs]
    refine ⟨getRouter_insert s r.ID r, ?_⟩
    simp only [ListRouters, List.length_map]
    exact GoMap.length_insert_of_not_mem _ _ _ he
  · intro id r h
    obtain ⟨prev, hp, _, _, hs⟩ := UpdateRouter_success s id r h
    have he : (s.Routers.lookup id).isSome = true := by rw [hp]; rfl
    rw [hs]
    refine ⟨⟨prev, getRouter_of_lookup s id prev hp, ?_⟩, ?_, ?_⟩
    · simp only [GetRouter, AList.lookup_insert]
    · intro hne
      simp only [GetRouter, AList.lookup_insert, if_neg hne]
    · simp only [ListRouters, List.length_map]
      exact GoMap.length_insert_of_mem _ _ _ he
  · intro id h
    obtain ⟨he, hs⟩ := DeleteRouter_success s id h
    rw [hs]
    refine ⟨?_, ?_⟩
    · simp only [RouterExists, AList.lookup_erase, Option.isSome_none]
    · simp only [ListRouters, List.length_map]
      exact GoMap.length_erase_of_mem _ _ he

/-- C31 at the store holding `s1`, `m1` and `r1`: the update of `r1` with a
body that names no service succeeds, and the stored router carries the service
of the previous router. -/
theorem crud_get_list_witness :
    (UpdateRouter Sample.fullStore "r1" Sample.routerUpdate).1 = none ∧
    ((∃ prev, GetRouter Sample.fullStore "r1" = Except.ok prev ∧
        GetRouter (UpdateRouter Sample.fullStore "r1" Sample.routerUpdate).2 "r1" =
          Except.ok { Sample.routerUpdate with
            ID := "r1"
            Service := if Sample.routerUpdate.Service.ID = "" then prev.Service
              else Sample.routerUpdate.Service }) ∧
      (Sample.routerUpdate.Service.ID ≠ "" →
        GetRouter (UpdateRouter Sample.fullStore "r1" Sample.routerUpdate).2 "r1" =
          Except.ok { Sample.routerUpdate with ID := "r1" }) ∧
      (ListRouters (UpdateRouter Sample.fullStore "r1" Sample.routerUpdate).2).length =
        (ListRouters Sample.fullStore).length) :=
  ⟨by decide, (crud_get_list Sample.fullStore).2.2.2.1 "r1" Sample.routerUpdate (by decide)⟩

/-- C31 as stated fails for routers: the update of `r1` with a body whose
service ID is empty succeeds, yet `GetRouter` does not return the body with
the path ID: the stored router has service `s1`, the body has none. -/
theorem updateRouter_get_differs_from_body :
    (UpdateRouter Sample.fullStore "r1" Sample.routerUpdate).1 = none ∧
    GetRouter (UpdateRouter Sample.fullStore "r1" Sample.routerUpdate).2 "r1" ≠
      Except.ok { Sample.routerUpdate with ID := "r1" } := by
  refine ⟨by decide, ?_⟩
  intro h
  have h2 := congrArg (fun e : Except Error Router =>
    match e with
    | Except.ok r => r.Service.ID
    | Except.error _ => "") h
  revert h2
  decide

theorem Op_call_frame (s : FileStore) :
    (∀ m : Middleware, (CreateMiddleware s m).2.Routers = s.Routers ∧
      (CreateMiddleware s m).2.Services = s.Services) ∧
    (∀ (id : String) (m : Middleware), (UpdateMiddleware s id m).2.Routers = s.Routers ∧
      (UpdateMiddleware s id m).2.Services = s.Services) ∧
    (∀ id : String, (DeleteMiddleware s id).2.Routers = s.Routers ∧
      (DeleteMiddleware s id).2.Services = s.Services) ∧
    (∀ v : Service, (CreateService s v).2.Routers = s.Routers ∧
      (CreateService s v).2.Middlewares = s.Middlewares) ∧
    (∀ (id : String) (v : Service), (UpdateService s id v).2.Routers = s.Routers ∧
      (UpdateService s id v).2.Middlewares = s.Middlewares) ∧
    (∀ id : String, (DeleteService s id).2.Routers = s.Routers ∧
      (DeleteService s id).2.Middlewares = s.Middlewares) ∧
    (∀ r : Router, (CreateRouter s r).2.Services = s.Services ∧
      (CreateRouter s r).2.Middlewares = s.Middlewares) ∧
    (∀ (id : String) (r : Router), (UpdateRouter s id r).2.Services = s.Services ∧
      (UpdateRouter s id r).2.Middlewares = s.Middlewares) ∧
    (∀ id : String, (DeleteRouter s id).2.Services = s.Services ∧
      (DeleteRouter s id).2.Middlewares = s.Middlewares) := by
  refine ⟨?_, ?_, ?_, ?_, ?_, ?_, ?_, ?_, ?_⟩
  · intro m; unfold CreateMiddleware; split <;> exact ⟨rfl, rfl⟩
  · intro id m; unfold UpdateMiddleware; split <;> exact ⟨rfl, rfl⟩
  · intro id; unfold DeleteMiddleware; split
    · exact ⟨rfl, rfl⟩
    · split <;> exact ⟨rfl, rfl⟩
  · intro v; unfold CreateService; split <;> exact ⟨rfl, rfl⟩
  · intro id v; unfold UpdateService; split <;> exact ⟨rfl, rfl⟩
  · intro id; unfold DeleteService; split
    · exact ⟨rfl, rfl⟩
    · split <;> exact ⟨rfl, rfl⟩
  · intro r; unfold CreateRouter; split
    · exact ⟨rfl, rfl⟩
    · split
      · exact ⟨rfl, rfl⟩
      · split <;> exact ⟨rfl, rfl⟩
  · intro id r
    cases h : (UpdateRouter s id r).1 with
    | none =>
      obtain ⟨prev, _, _, _, hs⟩ := UpdateRouter_success s id r h
      rw [hs]
      exact ⟨rfl, rfl⟩
    | some e =>
      have hs : (UpdateRouter s id r).2 = s :=
        UpdateRouter_error_unchanged s _ id r e (Prod.ext h rfl)
      rw [hs]
      exact ⟨rfl, rfl⟩
  · intro id; unfold DeleteRouter; split <;> exact ⟨rfl, rfl⟩

/-- C32: a call on one kind leaves the maps of the other two kinds as they
were, and `CreateMiddleware` and `CreateService` return the same error on any
two stores that agree on their own kind's map, whatever the other kinds store:
they succeed exactly when the ID is not stored under their own kind. -/
theorem kinds_are_independent (s : FileStore) :
    ((∀ m : Middleware, (CreateMiddleware s m).2.Routers = s.Routers ∧
        (CreateMiddleware s m).2.Services = s.Services) ∧
      (∀ (id : String) (m : Middleware), (UpdateMiddleware s id m).2.Routers = s.Routers ∧
        (UpdateMiddleware s id m).2.Services = s.Services) ∧
      (∀ id : String, (DeleteMiddleware s id).2.Routers = s.Routers ∧
        (DeleteMiddleware s id).2.Services = s.Services) ∧
      (∀ v : Service, (CreateService s v).2.Routers = s.Routers ∧
        (CreateService s v).2.Middlewares = s.Middlewares) ∧
      (∀ (id : String) (v : Service), (UpdateService s id v).2.Routers = s.Routers ∧
        (UpdateService s id v).2.Middlewares = s.Middlewares) ∧
      (∀ id : String, (DeleteService s id).2.Routers = s.Routers ∧
        (DeleteService s id).2.Middlewares = s.Middlewares) ∧
      (∀ r : Router, (CreateRouter s r).2.Services = s.Services ∧
        (CreateRouter s r).2.Middlewares = s.Middlewares) ∧
      (∀ (id : String) (r : Router), (UpdateRouter s id r).2.Services = s.Services ∧
        (UpdateRouter s id r).2.Middlewares = s.Middlewares) ∧
      (∀ id : String, (DeleteRouter s id).2.Services = s.Services ∧
        (DeleteRouter s id).2.Middlewares = s.Middlewares)) ∧
    (∀ (routers : GoMap Router) (services : GoMap Service) (m : Middleware),
      (CreateMiddleware
        { Middlewares := s.Middlewares, Routers := routers, Services := services } m).1 =
        (CreateMiddleware s m).1 ∧
      ((CreateMiddleware s m).1 = none ↔ MiddlewareExists s m.ID = false)) ∧
    (∀ (routers : GoMap Router) (middlewares : GoMap Middleware) (v : Service),
      (CreateService
        { Middlewares := middlewares, Routers := routers, Services := s.Services } v).1 =
        (CreateService s v).1 ∧
      ((CreateService s v).1 = none ↔ ServiceExists s v.ID = false)) := by
  refine ⟨Op_call_frame s, ?_, ?_⟩
  · intro routers services m
    unfold CreateMiddleware MiddlewareExists
    cases (s.Middlewares.lookup m.ID).isSome <;> simp
  · intro routers middlewares v
    unfold CreateService ServiceExists
    cases (s.Services.lookup v.ID).isSome <;> simp

theorem DeleteService_of_unused (s : FileStore) (id : String)
    (he : ServiceExists s id = true) (hu : (serviceInUse s id).1 = false) :
    DeleteService s id = (none, { s with Services := s.Services.erase id }) := by
  have h1 : ¬ ((s.Services.lookup id).isNone = true) := isNone_false_of_isSome he
  unfold DeleteService
  rw [if_neg h1, hu]
  rfl

/-- C33: the store never looks inside a service's blocks.  `CreateService`
succeeds for every service whose own ID is free and `UpdateService` for every
body under a stored ID, whatever IDs their weighted, mirroring or failover
blocks name; `DeleteService` succeeds for a stored ID that no router uses,
whatever the other services name, and leaves those services stored.  In the
sample, services that name the unstored `ghost`, `main` and `shadow` are
created and written, and `s1` is deleted while `fo` still names it. -/
theorem nested_service_refs_unchecked :
    (∀ (s : FileStore) (v : Service), ServiceExists s v.ID = false →
      (CreateService s v).1 = none ∧
        (CreateService s v).2.Services.lookup v.ID = some v) ∧
    (∀ (s : FileStore) (id : String) (v : Service), ServiceExists s id = true →
      (UpdateService s id v).1 = none ∧
        (UpdateService s id v).2.Services.lookup id = some { v with ID := id }) ∧
    (∀ (s : FileStore) (id : String), ServiceExists s id = true →
      (∀ r ∈ ListRouters s, r.Service.ID ≠ id) →
      (DeleteService s id).1 = none ∧
        ServiceExists (DeleteService s id).2 id = false ∧
        ∀ k, k ≠ id → (DeleteService s id).2.Services.lookup k = s.Services.lookup k) ∧
    ((CreateService NewFileStore Sample.weightedService).1 = none ∧
      (CreateService NewFileStore Sample.mirroringService).1 = none ∧
      (CreateService NewFileStore Sample.failoverService).1 = none ∧
      ServiceExists NewFileStore "ghost" = false ∧
      (UpdateService Sample.nestedStore "s1" Sample.weightedService).1 = none ∧
      (UpdateService Sample.nestedStore "s1" Sample.mirroringService).1 = none ∧
      (UpdateService Sample.nestedStore "s1" Sample.failoverService).1 = none ∧
      ServiceExists Sample.nestedStore "ghost" = false ∧
      (DeleteService Sample.nestedStore "s1").1 = none ∧
      ((DeleteService Sample.nestedStore "s1").2.Services.lookup "fo").map
        (fun v => v.Failover.map (fun f => f.Service.ID)) = some (some "s1") ∧
      ServiceExists (DeleteService Sample.nestedStore "s1").2 "s1" = false) := by
  refine ⟨?_, ?_, ?_, ?_⟩
  · intro s v h
    unfold ServiceExists at h
    unfold CreateService
    rw [h]
    exact ⟨rfl, AList.lookup_insert _⟩
  · intro s id v h
    have h1 : ¬ ((s.Services.lookup id).isNone = true) := isNone_false_of_isSome h
    unfold UpdateService
    rw [if_neg h1]
    exact ⟨rfl, AList.lookup_insert _⟩
  · intro s id he hr
    have hu : (serviceInUse s id).1 = false := by
      cases hc : (serviceInUse s id).1 with
      | false => rfl
      | true =>
        obtain ⟨r, hmem, hid⟩ := (serviceInUse_iff_list s id).mp hc
        exact absurd hid (hr r hmem)
    rw [DeleteService_of_unused s id he hu]
    refine ⟨rfl, ?_, ?_⟩
    · simp only [ServiceExists, AList.lookup_erase, Option.isSome_none]
    · intro k hk
      exact AList.lookup_erase_ne hk
  · decide

/-- C34: the middleware case fails on the code.  On the store holding `s1`,
`m1` and the router `r1` that uses both, `DeleteService` returns an error
whose message ends with the list `[router:r1]`, while `DeleteMiddleware`
returns the bare sentinel, whose message names no router although
`MiddlewareInUse` computes the list.  For every store, an in-use service is
refused with the list `ServiceInUse` returns, and the error of
`DeleteMiddleware` is one of two constants. -/
theorem delete_middleware_error_lacks_router_list :
    ((DeleteService Sample.fullStore "s1").1 =
        some (Error.wrap Error.ErrResourceInUse
          "resource is in use by other resources: [router:r1]") ∧
      (MiddlewareInUse Sample.fullStore "m1").2 = ["router:r1"] ∧
      (DeleteMiddleware Sample.fullStore "m1").1 = some Error.ErrResourceInUse ∧
      (DeleteMiddleware Sample.fullStore "m1").1.map Error.Message =
        some "resource is in use by other resources") ∧
    (∀ (s : FileStore) (id : String), ServiceExists s id = true →
      (ServiceInUse s id).1 = true →
      (DeleteService s id).1.map Error.Message =
        some ("resource is in use by other resources: " ++
          sprintStrings (ServiceInUse s id).2)) ∧
    (∀ (s : FileStore) (id : String) (e : Error), (DeleteMiddleware s id).1 = some e →
      e = Error.ErrNotFound ∨ e = Error.ErrResourceInUse) := by
  refine ⟨by decide, ?_, ?_⟩
  · intro s id he hu
    have h1 : ¬ ((s.Services.lookup id).isNone = true) := isNone_false_of_isSome he
    have hu' : (serviceInUse s id).1 = true := hu
    unfold DeleteService
    rw [if_neg h1, if_pos hu']
    rfl
  · intro s id e h
    unfold DeleteMiddleware at h
    split at h
    · exact Or.inl (Option.some.inj h).symm
    · split at h
      · exact Or.inr (Option.some.inj h).symm
      · cases h

theorem config.getEnv_empty (env : config.Environ) (key : String) :
    config.getEnv env key "" = env.Getenv key := by
  unfold config.getEnv
  by_cases h : env.Getenv key = ""
  · simp [h]
  · simp [h]

theorem config.getEnvAsBool_false (env : config.Environ) (key : String) :
    config.getEnvAsBool env key false = true ↔
      strconv.ParseBool (env.Getenv key) = some true := by
  unfold config.getEnvAsBool
  rw [config.getEnv_empty]
  by_cases h : env.Getenv key = ""
  · simp [h, strconv.ParseBool]
  · simp only [h, if_false]
    cases strconv.ParseBool (env.Getenv key) with
    | none => simp
    | some b => simp

/-- C35: when the storage directory can be created and no `.env` file is
read, `LoadConfig` returns an error exactly when `AUTH_ENABLED` parses to true
while `AUTH_KEY` is empty or unset, or `PROVIDER_AUTH_ENABLED` parses to true
while `PROVIDER_AUTH_KEY` is empty or unset, and returns a configuration in
every other case. -/
theorem loadConfig_fails_iff (env : config.Environ)
    (hdir : env.MkdirAll (config.storageDir env) = none) :
    ((∃ msg, config.LoadConfig env = Except.error msg) ↔
      (strconv.ParseBool (env.Getenv "AUTH_ENABLED") = some true ∧
        env.Getenv "AUTH_KEY" = "") ∨
      (strconv.ParseBool (env.Getenv "PROVIDER_AUTH_ENABLED") = some true ∧
        env.Getenv "PROVIDER_AUTH_KEY" = "")) ∧
    ((∃ cfg, config.LoadConfig env = Except.ok cfg) ↔
      ¬ ((strconv.ParseBool (env.Getenv "AUTH_ENABLED") = some true ∧
          env.Getenv "AUTH_KEY" = "") ∨
        (strconv.ParseBool (env.Getenv "PROVIDER_AUTH_ENABLED") = some true ∧
          env.Getenv "PROVIDER_AUTH_KEY" = ""))) := by
  have hdir' : env.MkdirAll (env.Dir (config.getEnv env "STORAGE_FILE_PATH"
      (env.Join env.TempDir "traefik-manager.json"))) = none := hdir
  have ha := config.getEnvAsBool_false env "AUTH_ENABLED"
  have hp := config.getEnvAsBool_false env "PROVIDER_AUTH_ENABLED"
  have hka := config.getEnv_empty env "AUTH_KEY"
  have hkp := config.getEnv_empty env "PROVIDER_AUTH_KEY"
  rw [← ha, ← hp, ← hka, ← hkp]
  unfold config.LoadConfig
  simp only [hdir']
  cases config.getEnvAsBool env "AUTH_ENABLED" false <;>
    cases config.getEnvAsBool env "PROVIDER_AUTH_ENABLED" false <;>
    by_cases h1 : config.getEnv env "AUTH_KEY" "" = "" <;>
    by_cases h2 : config.getEnv env "PROVIDER_AUTH_KEY" "" = "" <;>
    simp [h1, h2]

/-- C35 in the environment that sets only `AUTH_ENABLED=true`. -/
theorem loadConfig_fails_iff_witness :
    (Sample.environ [("AUTH_ENABLED", "true")]).MkdirAll
        (config.storageDir (Sample.environ [("AUTH_ENABLED", "true")])) = none ∧
    (((∃ msg, config.LoadConfig (Sample.environ [("AUTH_ENABLED", "true")]) =
          Except.error msg) ↔
        (strconv.ParseBool ((Sample.environ [("AUTH_ENABLED", "true")]).Getenv "AUTH_ENABLED") =
            some true ∧
          (Sample.environ [("AUTH_ENABLED", "true")]).Getenv "AUTH_KEY" = "") ∨
        (strconv.ParseBool
            ((Sample.environ [("AUTH_ENABLED", "true")]).Getenv "PROVIDER_AUTH_ENABLED") =
            some true ∧
          (Sample.environ [("AUTH_ENABLED", "true")]).Getenv "PROVIDER_AUTH_KEY" = "")) ∧
      ((∃ cfg, config.LoadConfig (Sample.environ [("AUTH_ENABLED", "true")]) =
          Except.ok cfg) ↔
        ¬ ((strconv.ParseBool
              ((Sample.environ [("AUTH_ENABLED", "true")]).Getenv "AUTH_ENABLED") = some true ∧
            (Sample.environ [("AUTH_ENABLED", "true")]).Getenv "AUTH_KEY" = "") ∨
          (strconv.ParseBool
              ((Sample.environ [("AUTH_ENABLED", "true")]).Getenv "PROVIDER_AUTH_ENABLED") =
              some true ∧
            (Sample.environ [("AUTH_ENABLED", "true")]).Getenv "PROVIDER_AUTH_KEY" = "")))) :=
  ⟨rfl, loadConfig_fails_iff (Sample.environ [("AUTH_ENABLED", "true")]) rfl⟩

theorem unmarshalField_empty_object {α : Type} (m : GoMap α) :
    unmarshalField (∅ : GoMap α) (SnapshotField.object m) = m := AList.union_empty

theorem Load_document (s : FileStore) (doc : Snapshot) :
    FileStore.Load s (File.document doc) = (none, unmarshal s doc) := rfl

/-- C36: loading a snapshot document into a freshly created store succeeds.
A kind whose key is left out or `null` in the document is left empty: its
`List` is empty and its `Exists` is false for every ID.  A kind whose key holds
an object is loaded: the store holds the decoded records under their keys and
no other. -/
theorem load_missing_maps_empty (doc : Snapshot) :
    (FileStore.Load NewFileStore (File.document doc)).1 = none ∧
    (∃ s, NewFileStoreOn (some (File.document doc)) = Except.ok s ∧
      s = (FileStore.Load NewFileStore (File.document doc)).2) ∧
    ((doc.Middlewares = SnapshotField.absent ∨ doc.Middlewares = SnapshotField.null →
        ListMiddlewares (FileStore.Load NewFileStore (File.document doc)).2 = [] ∧
        ∀ id, MiddlewareExists (FileStore.Load NewFileStore (File.document doc)).2 id = false) ∧
      (∀ m, doc.Middlewares = SnapshotField.object m →
        (ListMiddlewares (FileStore.Load NewFileStore (File.document doc)).2).Perm
          (m.entries.map (fun e => e.2)) ∧
        ∀ id, (FileStore.Load NewFileStore (File.document doc)).2.Middlewares.lookup id =
          m.lookup id)) ∧
    ((doc.Routers = SnapshotField.absent ∨ doc.Routers = SnapshotField.null →
        ListRouters (FileStore.Load NewFileStore (File.document doc)).2 = [] ∧
        ∀ id, RouterExists (FileStore.Load NewFileStore (File.document doc)).2 id = false) ∧
      (∀ m, doc.Routers = SnapshotField.object m →
        (ListRouters (FileStore.Load NewFileStore (File.document doc)).2).Perm
          (m.entries.map (fun e => e.2)) ∧
        ∀ id, (FileStore.Load NewFileStore (File.document doc)).2.Routers.lookup id =
          m.lookup id)) ∧
    ((doc.Services = SnapshotField.absent ∨ doc.Services = SnapshotField.null →
        ListServices (FileStore.Load NewFileStore (File.document doc)).2 = [] ∧
        ∀ id, ServiceExists (FileStore.Load NewFileStore (File.document doc)).2 id = false) ∧
      (∀ m, doc.Services = SnapshotField.object m →
        (ListServices (FileStore.Load NewFileStore (File.document doc)).2).Perm
          (m.entries.map (fun e => e.2)) ∧
        ∀ id, (FileStore.Load NewFileStore (File.document doc)).2.Services.lookup id =
          m.lookup id)) := by
  rw [Load_document]
  refine ⟨rfl, ⟨_, rfl, rfl⟩, ⟨?_, ?_⟩, ⟨?_, ?_⟩, ⟨?_, ?_⟩⟩
  · intro h
    have he : (unmarshal NewFileStore doc).Middlewares = ∅ := by
      show unmarshalField (∅ : GoMap Middleware) doc.Middlewares = ∅
      rcases h with h | h <;> rw [h] <;> rfl
    simp only [ListMiddlewares, MiddlewareExists, he]
    exact ⟨rfl, fun id => rfl⟩
  · intro m h
    have he : (unmarshal NewFileStore doc).Middlewares = m := by
      show unmarshalField (∅ : GoMap Middleware) doc.Middlewares = m
      rw [h]
      exact unmarshalField_empty_object m
    refine ⟨?_, fun id => ?_⟩
    · show ((unmarshal NewFileStore doc).Middlewares.entries.map (fun e => e.2)).Perm _
      rw [he]
    · show (unmarshal NewFileStore doc).Middlewares.lookup id = _
      rw [he]
  · intro h
    have he : (unmarshal NewFileStore doc).Routers = ∅ := by
      show unmarshalField (∅ : GoMap Router) doc.Routers = ∅
      rcases h with h | h <;> rw [h] <;> rfl
    simp only [ListRouters, RouterExists, he]
    exact ⟨rfl, fun id => rfl⟩
  · intro m h
    have he : (unmarshal NewFileStore doc).Routers = m := by
      show unmarshalField (∅ : GoMap Router) doc.Routers = m
      rw [h]
      exact unmarshalField_empty_object m
    refine ⟨?_, fun id => ?_⟩
    · show ((unmarshal NewFileStore doc).Routers.entries.map (fun e => e.2)).Perm _
      rw [he]
    · show (unmarshal NewFileStore doc).Routers.lookup id = _
      rw [he]
  · intro h
    have he : (unmarshal NewFileStore doc).Services = ∅ := by
      show unmarshalField (∅ : GoMap Service) doc.Services = ∅
      rcases h with h | h <;> rw [h] <;> rfl
    simp only [ListServices, ServiceExists, he]
    exact ⟨rfl, fun id => rfl⟩
  · intro m h
    have he : (unmarshal NewFileStore doc).Services = m := by
      show unmarshalField (∅ : GoMap Service) doc.Services = m
      rw [h]
      exact unmarshalField_empty_object m
    refine ⟨?_, fun id => ?_⟩
    · show ((unmarshal NewFileStore doc).Services.entries.map (fun e => e.2)).Perm _
      rw [he]
    · show (unmarshal NewFileStore doc).Services.lookup id = _
      rw [he]

open json

theorem JSONValue.index_of_mem {fields : List (String × JSONValue)}
    (hnd : (fields.map Prod.fst).Nodup) {k : String} {v : JSONValue} (h : (k, v) ∈ fields) :
    JSONValue.index fields k = v := by
  unfold JSONValue.index
  have hex : ∃ kv, fields.reverse.find? (fun kv => kv.1 == k) = some kv := by
    cases hf : fields.reverse.find? (fun kv => kv.1 == k) with
    | some kv => exact ⟨kv, rfl⟩
    | none =>
      have := List.find?_eq_none.mp hf (k, v) (List.mem_reverse.mpr h)
      simp at this
  obtain ⟨kv, hkv⟩ := hex
  rw [hkv]
  have hmem : kv ∈ fields := List.mem_reverse.mp (List.mem_of_find?_eq_some hkv)
  have hk : kv.1 = k := by
    have := List.find?_some hkv
    simpa using this
  have : kv = (k, v) := by
    have hinj := List.inj_on_of_nodup_map hnd hmem h
    exact hinj hk
  rw [this]

theorem JSONValue.index_of_not_mem {fields : List (String × JSONValue)} {k : String}
    (h : k ∉ fields.map Prod.fst) : JSONValue.index fields k = JSONValue.null := by
  unfold JSONValue.index
  have : fields.reverse.find? (fun kv => kv.1 == k) = none := by
    rw [List.find?_eq_none]
    intro kv hkv hk
    apply h
    have hk' : kv.1 = k := by simpa using hk
    exact List.mem_map.mpr ⟨kv, List.mem_reverse.mp hkv, hk'⟩
  rw [this]

theorem json.index_fields (fs : List StructField) (hnd : (fs.map StructField.key).Nodup) (f : StructField)
    (hf : f ∈ fs) :
    JSONValue.index (fs.filterMap (fun f => if f.omitted then none else some (f.key, f.value)))
      f.key = if f.omitted then JSONValue.null else f.value := by
  have hsub : ((fs.filterMap (fun f => if f.omitted = true then none
      else some (f.key, f.value))).map Prod.fst).Sublist (fs.map StructField.key) := by
    clear hnd hf
    induction fs with
    | nil => exact List.Sublist.slnil
    | cons g gs ih =>
      by_cases hg : g.omitted = true
      · simp only [List.filterMap_cons, hg, if_true, List.map_cons]
        exact List.Sublist.cons _ ih
      · simp only [List.filterMap_cons, hg, if_false, List.map_cons]
        exact List.Sublist.cons₂ _ ih
  by_cases ho : f.omitted = true
  · rw [if_pos ho]
    apply JSONValue.index_of_not_mem
    intro hmem
    obtain ⟨kv, hkv, hk⟩ := List.mem_map.mp hmem
    obtain ⟨g, hg, hgv⟩ := List.mem_filterMap.mp hkv
    by_cases hgo : g.omitted = true
    · simp [hgo] at hgv
    · have hgv' : (g.key, g.value) = kv := by simpa [hgo] using hgv
      have hgk : g.key = f.key := by rw [← hk, ← hgv']
      have : g = f := List.inj_on_of_nodup_map hnd hg hf hgk
      exact hgo (this ▸ ho)
  · rw [if_neg ho]
    apply JSONValue.index_of_mem (hsub.nodup hnd)
    apply List.mem_filterMap.mpr
    exact ⟨f, hf, by simp [ho]⟩

theorem json.decodeString_omit (s : String) :
    decodeString (if s = "" then JSONValue.null else JSONValue.string s) = some s := by
  by_cases h : s = ""
  · subst h; rfl
  · rw [if_neg h]; rfl

theorem json.decodeInt_omit (n : Int) :
    decodeInt (if n = 0 then JSONValue.null else JSONValue.number n) = some n := by
  by_cases h : n = 0
  · subst h; rfl
  · rw [if_neg h]; rfl

theorem json.decodeBool_omit (b : Bool) :
    decodeBool (if b = false then JSONValue.null else JSONValue.bool b) = some b := by
  cases b <;> rfl

theorem json.decodeString_string (s : String) : decodeString (JSONValue.string s) = some s := rfl

theorem json.decodeInt_number (n : Int) : decodeInt (JSONValue.number n) = some n := rfl

theorem json.decodeBool_bool (b : Bool) : decodeBool (JSONValue.bool b) = some b := rfl

theorem json.index_encodeStruct (fs : List StructField) (hnd : (fs.map StructField.key).Nodup)
    (k : String) :
    JSONValue.index (fs.filterMap (fun f => if f.omitted then none else some (f.key, f.value)))
      k = json.fieldValue fs k := by
  unfold json.fieldValue
  cases hf : fs.find? (fun f => f.key == k) with
  | some f =>
    have hk : f.key = k := by simpa using List.find?_some hf
    have := json.index_fields fs hnd f (List.mem_of_find?_eq_some hf)
    rw [hk] at this
    exact this
  | none =>
    apply JSONValue.index_of_not_mem
    intro hmem
    obtain ⟨kv, hkv, hk⟩ := List.mem_map.mp hmem
    obtain ⟨g, hg, hgv⟩ := List.mem_filterMap.mp hkv
    have hne := List.find?_eq_none.mp hf g hg
    by_cases hgo : g.omitted = true
    · simp [hgo] at hgv
    · have hgv' : (g.key, g.value) = kv := by simpa [hgo] using hgv
      apply hne
      rw [← hk, ← hgv']
      simp

theorem json.decodePointer_object {α : Type} (dec : JSONValue → Option α)
    (fields : List (String × JSONValue)) :
    decodePointer dec (JSONValue.object fields) = (dec (JSONValue.object fields)).map some := rfl

theorem json.decodePointer_omit {α : Type} (dec : JSONValue → Option α) (enc : α → JSONValue)
    (o : Option α) {d : Decidable (o = none)}
    (h : ∀ x, o = some x → decodePointer dec (enc x) = some (some x)) :
    decodePointer dec (if o = none then JSONValue.null else encodePointer enc o) = some o := by
  cases o with
  | none => rw [if_pos rfl]; rfl
  | some x =>
    rw [if_neg (fun hc => Option.noConfusion hc)]
    exact h x rfl

theorem json.decodeAll_map {α : Type} (dec : JSONValue → Option α) (enc : α → JSONValue)
    (xs : List α) (h : ∀ x ∈ xs, dec (enc x) = some x) :
    decodeAll dec (xs.map enc) = some xs := by
  induction xs with
  | nil => rfl
  | cons x xs ih =>
    have hx := h x (List.mem_cons_self _ _)
    have hxs := ih (fun y hy => h y (List.mem_cons_of_mem _ hy))
    simp only [List.map_cons, decodeAll, hx, hxs]

theorem json.decodeSlice_encode {α : Type} (dec : JSONValue → Option α) (enc : α → JSONValue)
    (xs : List α) (h : ∀ x ∈ xs, dec (enc x) = some x) :
    decodeSlice dec (encodeSlice enc xs) = some xs :=
  json.decodeAll_map dec enc xs h

theorem json.decodeSlice_omit {α : Type} (dec : JSONValue → Option α) (enc : α → JSONValue)
    (xs : List α) {d : Decidable (xs = [])} (h : ∀ x ∈ xs, dec (enc x) = some x) :
    decodeSlice dec (if xs = [] then JSONValue.null else encodeSlice enc xs) = some xs := by
  by_cases hx : xs = []
  · rw [if_pos hx, hx]; rfl
  · rw [if_neg hx]
    exact json.decodeSlice_encode dec enc xs h

theorem json.decodeStrings_omit (xs : List String) {d : Decidable (xs = [])} :
    decodeSlice decodeString (if xs = [] then JSONValue.null
      else encodeSlice JSONValue.string xs) = some xs :=
  json.decodeSlice_omit _ _ xs (fun _ _ => rfl)

theorem json.decodeHeaders_omit (headers : List (String × String))
    {d : Decidable (headers = [])} :
    decodeHeaders (if headers = [] then JSONValue.null else encodeHeaders headers) =
      some headers := by
  have key : ∀ l : List (String × String),
      decodeHeaderFields (l.map (fun kv => (kv.1, JSONValue.string kv.2))) =
        some l := by
    intro l
    induction l with
    | nil => rfl
    | cons kv l ih =>
      simp only [List.map_cons, decodeHeaderFields, decodeString, ih]
  by_cases hx : headers = []
  · rw [if_pos hx, hx]; rfl
  · rw [if_neg hx]
    exact key headers

theorem json.decodeHealthCheck_encode (h : HealthCheck) :
    decodeHealthCheck (encodeHealthCheck h) = some h := by
  unfold encodeHealthCheck encodeStruct decodeHealthCheck decodeStruct
  simp (disch := simp) only [json.index_encodeStruct]
  simp [json.fieldValue, List.find?, json.decodeString_omit, json.decodeInt_omit,
    json.decodeBool_omit, json.decodeString_string, json.decodeInt_number,
    json.decodeBool_bool, json.decodeHeaders_omit]

theorem json.decodeResponseForwarding_encode (r : ResponseForwarding) :
    decodeResponseForwarding (encodeResponseForwarding r) = some r := by
  unfold encodeResponseForwarding encodeStruct decodeResponseForwarding decodeStruct
  simp (disch := simp) only [json.index_encodeStruct]
  simp [json.fieldValue, List.find?, json.decodeString_omit]

theorem json.decodeStickyCookie_encode (c : StickyCookie) :
    decodeStickyCookie (encodeStickyCookie c) = some c := by
  unfold encodeStickyCookie encodeStruct decodeStickyCookie decodeStruct
  simp (disch := simp) only [json.index_encodeStruct]
  simp [json.fieldValue, List.find?, json.decodeString_omit, json.decodeInt_omit,
    json.decodeBool_omit, json.decodeString_string, json.decodeInt_number, json.decodeBool_bool]

theorem json.decodePointer_stickyCookie (o : Option StickyCookie) {d : Decidable (o = none)} :
    decodePointer decodeStickyCookie
      (if o = none then JSONValue.null else encodePointer encodeStickyCookie o) = some o :=
  json.decodePointer_omit decodeStickyCookie encodeStickyCookie o (fun x _ => by
    show Option.map some (decodeStickyCookie (encodeStickyCookie x)) = _
    rw [json.decodeStickyCookie_encode]; rfl)

theorem json.decodeSticky_encode (s : Sticky) : decodeSticky (encodeSticky s) = some s := by
  unfold encodeSticky encodeStruct decodeSticky decodeStruct
  simp (disch := simp) only [json.index_encodeStruct]
  simp [json.fieldValue, List.find?, json.decodePointer_stickyCookie]

theorem json.decodePointer_sticky (o : Option Sticky) {d : Decidable (o = none)} :
    decodePointer decodeSticky
      (if o = none then JSONValue.null else encodePointer encodeSticky o) = some o :=
  json.decodePointer_omit decodeSticky encodeSticky o (fun x _ => by
    show Option.map some (decodeSticky (encodeSticky x)) = _
    rw [json.decodeSticky_encode]; rfl)

theorem json.decodePointer_healthCheck (o : Option HealthCheck) {d : Decidable (o = none)} :
    decodePointer decodeHealthCheck
      (if o = none then JSONValue.null else encodePointer encodeHealthCheck o) = some o :=
  json.decodePointer_omit decodeHealthCheck encodeHealthCheck o (fun x _ => by
    show Option.map some (decodeHealthCheck (encodeHealthCheck x)) = _
    rw [json.decodeHealthCheck_encode]; rfl)

theorem json.decodePointer_responseForwarding (o : Option ResponseForwarding) {d : Decidable (o = none)} :
    decodePointer decodeResponseForwarding
      (if o = none then JSONValue.null else encodePointer encodeResponseForwarding o) = some o :=
  json.decodePointer_omit decodeResponseForwarding encodeResponseForwarding o (fun x _ => by
    show Option.map some (decodeResponseForwarding (encodeResponseForwarding x)) = _
    rw [json.decodeResponseForwarding_encode]; rfl)

theorem json.decodeServer_encode (s : Server) : decodeServer (encodeServer s) = some s := by
  unfold encodeServer encodeStruct decodeServer decodeStruct
  simp (disch := simp) only [json.index_encodeStruct]
  simp [json.fieldValue, List.find?, json.decodeInt_omit, json.decodeBool_omit,
    json.decodeString_string]

theorem json.decodeServers_encode (xs : List Server) :
    decodeSlice decodeServer (encodeSlice encodeServer xs) = some xs :=
  json.decodeSlice_encode _ _ xs (fun x _ => json.decodeServer_encode x)

theorem json.decodeLoadBalancer_encode (lb : LoadBalancerService) :
    decodeLoadBalancer (encodeLoadBalancer lb) = some lb := by
  unfold encodeLoadBalancer encodeStruct decodeLoadBalancer decodeStruct
  simp (disch := simp) only [json.index_encodeStruct]
  simp [json.fieldValue, List.find?, json.decodeString_omit, json.decodeBool_omit,
    json.decodeServers_encode, json.decodePointer_healthCheck,
    json.decodePointer_responseForwarding, json.decodePointer_sticky]

theorem json.decodePointer_loadBalancer (o : Option LoadBalancerService) {d : Decidable (o = none)} :
    decodePointer decodeLoadBalancer
      (if o = none then JSONValue.null else encodePointer encodeLoadBalancer o) = some o :=
  json.decodePointer_omit decodeLoadBalancer encodeLoadBalancer o (fun x _ => by
    show Option.map some (decodeLoadBalancer (encodeLoadBalancer x)) = _
    rw [json.decodeLoadBalancer_encode]; rfl)

theorem json.decodeMiddleware_encode (m : Middleware) :
    decodeMiddleware (encodeMiddleware m) = some m := by
  unfold encodeMiddleware encodeStruct decodeMiddleware decodeStruct
  simp (disch := simp) only [json.index_encodeStruct]
  simp [json.fieldValue, List.find?, json.decodeString_string]

theorem json.decodeDomain_encode (d : Domain) : decodeDomain (encodeDomain d) = some d := by
  unfold encodeDomain encodeStruct decodeDomain decodeStruct
  simp (disch := simp) only [json.index_encodeStruct]
  simp [json.fieldValue, List.find?, json.decodeString_string, json.decodeStrings_omit]

theorem json.decodeDomains_omit (xs : List Domain) {d : Decidable (xs = [])} :
    decodeSlice decodeDomain (if xs = [] then JSONValue.null else encodeSlice encodeDomain xs) =
      some xs :=
  json.decodeSlice_omit _ _ xs (fun x _ => json.decodeDomain_encode x)

theorem json.decodeRouterTLS_encode (t : RouterTLS) :
    decodeRouterTLS (encodeRouterTLS t) = some t := by
  unfold encodeRouterTLS encodeStruct decodeRouterTLS decodeStruct
  simp (disch := simp) only [json.index_encodeStruct]
  simp [json.fieldValue, List.find?, json.decodeString_omit,
    json.decodeDomains_omit]

theorem json.decodeObservability_encode (o : Observability) :
    decodeObservability (encodeObservability o) = some o := by
  unfold encodeObservability encodeStruct decodeObservability decodeStruct
  simp (disch := simp) only [json.index_encodeStruct]
  simp [json.fieldValue, List.find?, json.decodeBool_omit]

theorem JSONValue.depth_le_depthList {x : JSONValue} {xs : List JSONValue} (h : x ∈ xs) :
    x.depth ≤ JSONValue.depthList xs := by
  induction xs with
  | nil => cases h
  | cons y ys ih =>
    rw [JSONValue.depthList]
    rcases List.mem_cons.mp h with rfl | h'
    · exact Nat.le_max_left _ _
    · exact Nat.le_trans (ih h') (Nat.le_max_right _ _)

theorem JSONValue.depth_le_depthFields {k : String} {v : JSONValue}
    {fields : List (String × JSONValue)} (h : (k, v) ∈ fields) :
    v.depth ≤ JSONValue.depthFields fields := by
  induction fields with
  | nil => cases h
  | cons kv rest ih =>
    obtain ⟨k', v'⟩ := kv
    rw [JSONValue.depthFields]
    rcases List.mem_cons.mp h with heq | h'
    · have : v = v' := (Prod.mk.inj heq).2
      rw [this]
      exact Nat.le_max_left _ _
    · exact Nat.le_trans (ih h') (Nat.le_max_right _ _)

theorem JSONValue.depth_lt_array (x : JSONValue) (xs : List JSONValue) (h : x ∈ xs) :
    x.depth < (JSONValue.array xs).depth := by
  rw [JSONValue.depth]
  exact Nat.lt_succ_of_le (JSONValue.depth_le_depthList h)

theorem JSONValue.depth_lt_object (k : String) (v : JSONValue)
    (fields : List (String × JSONValue)) (h : (k, v) ∈ fields) :
    v.depth < (JSONValue.object fields).depth := by
  rw [JSONValue.depth]
  exact Nat.lt_succ_of_le (JSONValue.depth_le_depthFields h)

theorem json.depth_lt_encodeStruct (fs : List StructField) (f : StructField) (hf : f ∈ fs)
    (ho : f.omitted = false) : f.value.depth < (encodeStruct fs).depth := by
  apply JSONValue.depth_lt_object f.key
  apply List.mem_filterMap.mpr
  exact ⟨f, hf, by simp [ho]⟩

theorem json.encodeWeightedItems_eq (items : List (WeightedServiceItemOf Service)) :
    encodeWeightedItems items = items.map (fun it =>
      encodeStruct
        [{ key := "name", omitted := false, value := encodeService it.Name },
         { key := "weight", omitted := false, value := JSONValue.number it.Weight }]) := by
  induction items with
  | nil => rw [encodeWeightedItems]; rfl
  | cons it rest ih =>
    obtain ⟨name, weight⟩ := it
    rw [encodeWeightedItems, ih]
    rfl

theorem json.encodeMirrorItems_eq (items : List (MirrorServiceItemOf Service)) :
    encodeMirrorItems items = items.map (fun it =>
      encodeStruct
        [{ key := "name", omitted := false, value := encodeService it.Name },
         { key := "percent", omitted := false, value := JSONValue.number it.Percent }]) := by
  induction items with
  | nil => rw [encodeMirrorItems]; rfl
  | cons it rest ih =>
    obtain ⟨name, percent⟩ := it
    rw [encodeMirrorItems, ih]
    rfl

theorem json.decodeWeightedItem_encode (dec : JSONValue → Option Service)
    (it : WeightedServiceItemOf Service) (h : dec (encodeService it.Name) = some it.Name) :
    decodeWeightedItem dec
      (encodeStruct
        [{ key := "name", omitted := false, value := encodeService it.Name },
         { key := "weight", omitted := false, value := JSONValue.number it.Weight }]) =
      some it := by
  unfold encodeStruct decodeWeightedItem decodeStruct
  simp (disch := simp) only [json.index_encodeStruct]
  simp [json.fieldValue, List.find?, json.decodeInt_number, h]

theorem json.decodeMirrorItem_encode (dec : JSONValue → Option Service)
    (it : MirrorServiceItemOf Service) (h : dec (encodeService it.Name) = some it.Name) :
    decodeMirrorItem dec
      (encodeStruct
        [{ key := "name", omitted := false, value := encodeService it.Name },
         { key := "percent", omitted := false, value := JSONValue.number it.Percent }]) =
      some it := by
  unfold encodeStruct decodeMirrorItem decodeStruct
  simp (disch := simp) only [json.index_encodeStruct]
  simp [json.fieldValue, List.find?, json.decodeInt_number, h]

theorem json.decodeWeighted_encode (dec : JSONValue → Option Service) (w : WeightedService)
    (h : ∀ it ∈ w.Services, dec (encodeService it.Name) = some it.Name) :
    decodeWeighted dec (encodeWeighted (some w)) = some w := by
  obtain ⟨services, sticky, healthCheck⟩ := w
  have hs : decodeSlice (decodeWeightedItem dec) (JSONValue.array (encodeWeightedItems services)) =
      some services := by
    rw [json.encodeWeightedItems_eq]
    exact json.decodeAll_map _ _ services
      (fun it hit => json.decodeWeightedItem_encode dec it (h it hit))
  rw [encodeWeighted]
  unfold encodeStruct decodeWeighted decodeStruct
  simp (disch := simp) only [json.index_encodeStruct]
  simp [json.fieldValue, List.find?, hs, json.decodePointer_sticky,
    json.decodePointer_healthCheck]

theorem json.decodeMirroring_encode (dec : JSONValue → Option Service) (m : MirroringService)
    (hs : dec (encodeService m.Service) = some m.Service)
    (h : ∀ it ∈ m.Mirrors, dec (encodeService it.Name) = some it.Name) :
    decodeMirroring dec (encodeMirroring (some m)) = some m := by
  obtain ⟨service, mirrorBody, maxBodySize, mirrors, healthCheck⟩ := m
  have hm : decodeSlice (decodeMirrorItem dec) (JSONValue.array (encodeMirrorItems mirrors)) =
      some mirrors := by
    rw [json.encodeMirrorItems_eq]
    exact json.decodeAll_map _ _ mirrors
      (fun it hit => json.decodeMirrorItem_encode dec it (h it hit))
  have hs' : dec (encodeService service) = some service := hs
  rw [encodeMirroring]
  unfold encodeStruct decodeMirroring decodeStruct
  simp (disch := simp) only [json.index_encodeStruct]
  simp [json.fieldValue, List.find?, hm, hs', json.decodeBool_omit, json.decodeInt_omit,
    json.decodePointer_healthCheck]

theorem json.decodeFailover_encode (dec : JSONValue → Option Service) (f : FailoverService)
    (hs : dec (encodeService f.Service) = some f.Service)
    (hf : dec (encodeService f.Fallback) = some f.Fallback) :
    decodeFailover dec (encodeFailover (some f)) = some f := by
  obtain ⟨service, fallback, healthCheck⟩ := f
  have hs' : dec (encodeService service) = some service := hs
  have hf' : dec (encodeService fallback) = some fallback := hf
  rw [encodeFailover]
  unfold encodeStruct decodeFailover decodeStruct
  simp (disch := simp) only [json.index_encodeStruct]
  simp [json.fieldValue, List.find?, hs', hf', json.decodePointer_healthCheck]

theorem json.depth_weighted_item (w : WeightedService) (it : WeightedServiceItemOf Service)
    (hit : it ∈ w.Services) :
    (encodeService it.Name).depth < (encodeWeighted (some w)).depth := by
  obtain ⟨services, sticky, healthCheck⟩ := w
  rw [encodeWeighted]
  have h1 : (encodeService it.Name).depth <
      (encodeStruct
        [{ key := "name", omitted := false, value := encodeService it.Name },
         { key := "weight", omitted := false, value := JSONValue.number it.Weight }]).depth :=
    json.depth_lt_encodeStruct _
      { key := "name", omitted := false, value := encodeService it.Name }
      (List.mem_cons_self _ _) rfl
  have h2 := JSONValue.depth_lt_array
    (encodeStruct
        [{ key := "name", omitted := false, value := encodeService it.Name },
         { key := "weight", omitted := false, value := JSONValue.number it.Weight }])
    (encodeWeightedItems services)
    (by rw [json.encodeWeightedItems_eq]; exact List.mem_map.mpr ⟨it, hit, rfl⟩)
  have h3 := json.depth_lt_encodeStruct
    [{ key := "services", omitted := false,
       value := JSONValue.array (encodeWeightedItems services) },
     { key := "sticky", omitted := sticky.isNone, value := encodePointer encodeSticky sticky },
     { key := "healthCheck", omitted := healthCheck.isNone,
       value := encodePointer encodeHealthCheck healthCheck }]
    { key := "services", omitted := false,
      value := JSONValue.array (encodeWeightedItems services) }
    (List.mem_cons_self _ _) rfl
  exact Nat.lt_trans h1 (Nat.lt_trans h2 h3)

theorem json.depth_mirroring_service (m : MirroringService) :
    (encodeService m.Service).depth < (encodeMirroring (some m)).depth := by
  obtain ⟨service, mirrorBody, maxBodySize, mirrors, healthCheck⟩ := m
  rw [encodeMirroring]
  exact json.depth_lt_encodeStruct _
    { key := "service", omitted := false, value := encodeService service }
    (List.mem_cons_self _ _) rfl

theorem json.depth_mirroring_item (m : MirroringService) (it : MirrorServiceItemOf Service)
    (hit : it ∈ m.Mirrors) :
    (encodeService it.Name).depth < (encodeMirroring (some m)).depth := by
  obtain ⟨service, mirrorBody, maxBodySize, mirrors, healthCheck⟩ := m
  rw [encodeMirroring]
  have h1 : (encodeService it.Name).depth <
      (encodeStruct
        [{ key := "name", omitted := false, value := encodeService it.Name },
         { key := "percent", omitted := false, value := JSONValue.number it.Percent }]).depth :=
    json.depth_lt_encodeStruct _
      { key := "name", omitted := false, value := encodeService it.Name }
      (List.mem_cons_self _ _) rfl
  have h2 := JSONValue.depth_lt_array
    (encodeStruct
        [{ key := "name", omitted := false, value := encodeService it.Name },
         { key := "percent", omitted := false, value := JSONValue.number it.Percent }])
    (encodeMirrorItems mirrors)
    (by rw [json.encodeMirrorItems_eq]; exact List.mem_map.mpr ⟨it, hit, rfl⟩)
  have h3 := json.depth_lt_encodeStruct
    [{ key := "service", omitted := false, value := encodeService service },
     { key := "mirrorBody", omitted := !mirrorBody, value := JSONValue.bool mirrorBody },
     { key := "maxBodySize", omitted := maxBodySize == 0,
       value := JSONValue.number maxBodySize },
     { key := "mirrors", omitted := false,
       value := JSONValue.array (encodeMirrorItems mirrors) },
     { key := "healthCheck", omitted := healthCheck.isNone,
       value := encodePointer encodeHealthCheck healthCheck }]
    { key := "mirrors", omitted := false,
      value := JSONValue.array (encodeMirrorItems mirrors) }
    (by simp) rfl
  exact Nat.lt_trans h1 (Nat.lt_trans h2 h3)

theorem json.depth_failover_service (f : FailoverService) :
    (encodeService f.Service).depth < (encodeFailover (some f)).depth ∧
      (encodeService f.Fallback).depth < (encodeFailover (some f)).depth := by
  obtain ⟨service, fallback, healthCheck⟩ := f
  rw [encodeFailover]
  exact ⟨json.depth_lt_encodeStruct _
      { key := "service", omitted := false, value := encodeService service }
      (List.mem_cons_self _ _) rfl,
    json.depth_lt_encodeStruct _
      { key := "fallback", omitted := false, value := encodeService fallback }
      (by simp) rfl⟩

theorem json.depth_service_blocks (id serviceType url : String)
    (loadBalancer : Option LoadBalancerService) (weighted : Option WeightedService)
    (mirroring : Option MirroringService) (failover : Option FailoverService) :
    (∀ w, weighted = some w → (encodeWeighted (some w)).depth <
      (encodeService ⟨id, serviceType, url, loadBalancer, weighted, mirroring, failover⟩).depth) ∧
    (∀ m, mirroring = some m → (encodeMirroring (some m)).depth <
      (encodeService ⟨id, serviceType, url, loadBalancer, weighted, mirroring, failover⟩).depth) ∧
    (∀ f, failover = some f → (encodeFailover (some f)).depth <
      (encodeService ⟨id, serviceType, url, loadBalancer, weighted, mirroring, failover⟩).depth) := by
  rw [encodeService]
  refine ⟨?_, ?_, ?_⟩
  · intro w hw
    subst hw
    exact json.depth_lt_encodeStruct _
      { key := "weighted", omitted := (some w).isNone, value := encodeWeighted (some w) }
      (by simp) rfl
  · intro m hm
    subst hm
    exact json.depth_lt_encodeStruct _
      { key := "mirroring", omitted := (some m).isNone, value := encodeMirroring (some m) }
      (by simp) rfl
  · intro f hf
    subst hf
    exact json.depth_lt_encodeStruct _
      { key := "failover", omitted := (some f).isNone, value := encodeFailover (some f) }
      (by simp) rfl

theorem json.decodeService_encode (fuel : Nat) :
    ∀ s : Service, (encodeService s).depth < fuel →
      decodeService fuel (encodeService s) = some s := by
  induction fuel with
  | zero => intro s h; exact absurd h (Nat.not_lt_zero _)
  | succ fuel ih =>
    intro s hd
    obtain ⟨id, serviceType, url, loadBalancer, weighted, mirroring, failover⟩ := s
    obtain ⟨hdw, hdm, hdf⟩ :=
      json.depth_service_blocks id serviceType url loadBalancer weighted mirroring failover
    have hw : decodePointer (decodeWeighted (decodeService fuel))
        (if weighted.isNone = true then JSONValue.null else encodeWeighted weighted) =
        some weighted := by
      cases weighted with
      | none => rfl
      | some w =>
        have hlt := hdw w rfl
        show Option.map some (decodeWeighted (decodeService fuel) (encodeWeighted (some w))) = _
        rw [json.decodeWeighted_encode _ w (fun it hit => ih it.Name (by
          have := json.depth_weighted_item w it hit
          omega))]
        rfl
    have hm : decodePointer (decodeMirroring (decodeService fuel))
        (if mirroring.isNone = true then JSONValue.null else encodeMirroring mirroring) =
        some mirroring := by
      cases mirroring with
      | none => rfl
      | some m =>
        have hlt := hdm m rfl
        show Option.map some (decodeMirroring (decodeService fuel) (encodeMirroring (some m))) = _
        rw [json.decodeMirroring_encode _ m
          (ih m.Service (by
            have := json.depth_mirroring_service m
            omega))
          (fun it hit => ih it.Name (by
            have := json.depth_mirroring_item m it hit
            omega))]
        rfl
    have hf : decodePointer (decodeFailover (decodeService fuel))
        (if failover.isNone = true then JSONValue.null else encodeFailover failover) =
        some failover := by
      cases failover with
      | none => rfl
      | some f =>
        have hlt := hdf f rfl
        have hfs := json.depth_failover_service f
        show Option.map some (decodeFailover (decodeService fuel) (encodeFailover (some f))) = _
        rw [json.decodeFailover_encode _ f (ih f.Service (by omega)) (ih f.Fallback (by omega))]
        rfl
    rw [encodeService]
    unfold encodeStruct
    rw [decodeService]
    unfold decodeStruct
    simp (disch := simp) only [json.index_encodeStruct]
    simp [json.fieldValue, List.find?, json.decodeString_omit, json.decodeString_string,
      json.decodePointer_loadBalancer, hw, hm, hf]

theorem json.decodeMiddlewares_omit (xs : List Middleware) :
    decodeSlice decodeMiddleware
      (if xs.isEmpty = true then JSONValue.null else encodeSlice encodeMiddleware xs) =
      some xs := by
  cases xs with
  | nil => rfl
  | cons x xs =>
    exact json.decodeSlice_encode _ _ (x :: xs) (fun y _ => json.decodeMiddleware_encode y)

theorem json.decodePointer_routerTLS (o : Option RouterTLS) {d : Decidable (o = none)} :
    decodePointer decodeRouterTLS
      (if o = none then JSONValue.null else encodePointer encodeRouterTLS o) = some o :=
  json.decodePointer_omit decodeRouterTLS encodeRouterTLS o (fun x _ => by
    show Option.map some (decodeRouterTLS (encodeRouterTLS x)) = _
    rw [json.decodeRouterTLS_encode]; rfl)

theorem json.decodePointer_observability (o : Option Observability) {d : Decidable (o = none)} :
    decodePointer decodeObservability
      (if o = none then JSONValue.null else encodePointer encodeObservability o) = some o :=
  json.decodePointer_omit decodeObservability encodeObservability o (fun x _ => by
    show Option.map some (decodeObservability (encodeObservability x)) = _
    rw [json.decodeObservability_encode]; rfl)

theorem json.decodeRouter_encode (fuel : Nat) (r : Router)
    (h : (encodeService r.Service).depth < fuel) :
    decodeRouter fuel (encodeRouter r) = some r := by
  have hs := json.decodeService_encode fuel r.Service h
  unfold encodeRouter encodeStruct decodeRouter decodeStruct
  simp (disch := simp) only [json.index_encodeStruct]
  simp [json.fieldValue, List.find?, json.decodeString_omit, json.decodeString_string,
    json.decodeInt_omit, json.decodeStrings_omit, json.decodeMiddlewares_omit, hs,
    json.decodePointer_routerTLS, json.decodePointer_observability]

theorem json.depth_router_service (r : Router) :
    (encodeService r.Service).depth < (encodeRouter r).depth :=
  json.depth_lt_encodeStruct _
    { key := "service", omitted := false, value := encodeService r.Service } (by simp) rfl

theorem json.decodeEntries_encode {α : Type} (dec : JSONValue → Option α) (enc : α → JSONValue)
    (l : List (Sigma (fun _ : String => α))) (h : ∀ e ∈ l, dec (enc e.2) = some e.2)
    (acc : GoMap α) :
    decodeEntries dec (l.map (fun e => (e.1, enc e.2))) acc =
      some (l.foldl (fun m e => m.insert e.1 e.2) acc) := by
  induction l generalizing acc with
  | nil => rfl
  | cons e l ih =>
    have he := h e (List.mem_cons_self _ _)
    simp only [List.map_cons, decodeEntries, he, List.foldl_cons]
    exact ih (fun x hx => h x (List.mem_cons_of_mem _ hx)) _

theorem GoMap.lookup_foldl_entries {α : Type} (m : GoMap α) (k : String) :
    (m.entries.foldl (fun acc e => acc.insert e.1 e.2) (∅ : GoMap α)).lookup k = m.lookup k := by
  by_cases hk : k ∈ m.entries.map (fun e => e.1)
  · obtain ⟨e, he, rfl⟩ := List.mem_map.mp hk
    rw [GoMap.lookup_foldl_insert_of_mem (fun e : Sigma (fun _ : String => α) => e.1)
      (fun e => e.2) m.entries ∅ m.nodupKeys e he]
    symm
    exact AList.mem_lookup_iff.mpr (by cases e; exact he)
  · rw [GoMap.lookup_foldl_insert_of_not_mem (fun e : Sigma (fun _ : String => α) => e.1)
      (fun e => e.2) m.entries ∅ k hk, AList.lookup_empty]
    symm
    rw [AList.lookup_eq_none]
    intro hmem
    exact hk (AList.mem_keys.mp hmem)

theorem GoMap.perm_of_lookup_eq {α : Type} (m m' : GoMap α)
    (h : ∀ k, m'.lookup k = m.lookup k) : m'.entries.Perm m.entries := by
  apply List.lookup_ext m'.nodupKeys m.nodupKeys
  intro k v
  have hl : ∀ x : GoMap α, List.dlookup k x.entries = x.lookup k := fun _ => rfl
  rw [hl, hl, h k]

theorem json.MarshalIndent_eq (s : storeData) :
    MarshalIndent s = Except.ok (JSONValue.object
      [("middlewares", encodeMap encodeMiddleware s.Middlewares),
       ("routers", encodeMap encodeRouter s.Routers),
       ("services", encodeMap encodeService s.Services)]) := rfl

theorem json.depth_encodeMap {α : Type} (enc : α → JSONValue) (m : GoMap α)
    (e : Sigma (fun _ : String => α)) (he : e ∈ m.entries) :
    (enc e.2).depth < (encodeMap enc m).depth :=
  JSONValue.depth_lt_object e.1 _ _ (List.mem_map.mpr ⟨e, he, rfl⟩)

theorem json.Unmarshal_MarshalIndent (s : storeData) :
    Unmarshal (JSONValue.object
      [("middlewares", encodeMap encodeMiddleware s.Middlewares),
       ("routers", encodeMap encodeRouter s.Routers),
       ("services", encodeMap encodeService s.Services)]) =
      some
        { Middlewares := SnapshotField.object
            (s.Middlewares.entries.foldl (fun m e => m.insert e.1 e.2) ∅)
          Routers := SnapshotField.object
            (s.Routers.entries.foldl (fun m e => m.insert e.1 e.2) ∅)
          Services := SnapshotField.object
            (s.Services.entries.foldl (fun m e => m.insert e.1 e.2) ∅) } := by
  have hm := json.decodeEntries_encode decodeMiddleware encodeMiddleware s.Middlewares.entries
    (fun e _ => json.decodeMiddleware_encode e.2) ∅
  have hdr : (encodeMap encodeRouter s.Routers).depth <
      (JSONValue.object
        [("middlewares", encodeMap encodeMiddleware s.Middlewares),
         ("routers", encodeMap encodeRouter s.Routers),
         ("services", encodeMap encodeService s.Services)]).depth :=
    JSONValue.depth_lt_object "routers" _ _ (by simp)
  have hds : (encodeMap encodeService s.Services).depth <
      (JSONValue.object
        [("middlewares", encodeMap encodeMiddleware s.Middlewares),
         ("routers", encodeMap encodeRouter s.Routers),
         ("services", encodeMap encodeService s.Services)]).depth :=
    JSONValue.depth_lt_object "services" _ _ (by simp)
  have hr := json.decodeEntries_encode
    (decodeRouter (JSONValue.object
        [("middlewares", encodeMap encodeMiddleware s.Middlewares),
         ("routers", encodeMap encodeRouter s.Routers),
         ("services", encodeMap encodeService s.Services)]).depth)
    encodeRouter s.Routers.entries
    (fun e he => json.decodeRouter_encode _ e.2 (by
      have h1 := json.depth_router_service e.2
      have h2 := json.depth_encodeMap encodeRouter s.Routers e he
      omega)) ∅
  have hs := json.decodeEntries_encode
    (decodeService (JSONValue.object
        [("middlewares", encodeMap encodeMiddleware s.Middlewares),
         ("routers", encodeMap encodeRouter s.Routers),
         ("services", encodeMap encodeService s.Services)]).depth)
    encodeService s.Services.entries
    (fun e he => json.decodeService_encode _ e.2 (by
      have h2 := json.depth_encodeMap encodeService s.Services e he
      omega)) ∅
  have fm : decodeSnapshotField decodeMiddleware
      [("middlewares", encodeMap encodeMiddleware s.Middlewares),
       ("routers", encodeMap encodeRouter s.Routers),
       ("services", encodeMap encodeService s.Services)] "middlewares" =
      some (SnapshotField.object
        (s.Middlewares.entries.foldl (fun m e => m.insert e.1 e.2) ∅)) := by
    simp [decodeSnapshotField, List.find?, encodeMap, hm]
  have fr : decodeSnapshotField
      (decodeRouter (JSONValue.object
        [("middlewares", encodeMap encodeMiddleware s.Middlewares),
         ("routers", encodeMap encodeRouter s.Routers),
         ("services", encodeMap encodeService s.Services)]).depth)
      [("middlewares", encodeMap encodeMiddleware s.Middlewares),
       ("routers", encodeMap encodeRouter s.Routers),
       ("services", encodeMap encodeService s.Services)] "routers" =
      some (SnapshotField.object
        (s.Routers.entries.foldl (fun m e => m.insert e.1 e.2) ∅)) := by
    simp only [encodeMap] at hr
    simp [decodeSnapshotField, List.find?, encodeMap, hr]
  have fs : decodeSnapshotField
      (decodeService (JSONValue.object
        [("middlewares", encodeMap encodeMiddleware s.Middlewares),
         ("routers", encodeMap encodeRouter s.Routers),
         ("services", encodeMap encodeService s.Services)]).depth)
      [("middlewares", encodeMap encodeMiddleware s.Middlewares),
       ("routers", encodeMap encodeRouter s.Routers),
       ("services", encodeMap encodeService s.Services)] "services" =
      some (SnapshotField.object
        (s.Services.entries.foldl (fun m e => m.insert e.1 e.2) ∅)) := by
    simp only [encodeMap] at hs
    simp [decodeSnapshotField, List.find?, encodeMap, hs]
  rw [Unmarshal]
  simp only [fm, fr, fs]
  rfl

theorem reload_field {α : Type} (m : GoMap α) :
    (∀ k, (unmarshalField (∅ : GoMap α) (SnapshotField.object
        (m.entries.foldl (fun acc e => acc.insert e.1 e.2) ∅))).lookup k = m.lookup k) ∧
      (unmarshalField (∅ : GoMap α) (SnapshotField.object
        (m.entries.foldl (fun acc e => acc.insert e.1 e.2) ∅))).entries.Perm m.entries := by
  rw [unmarshalField_empty_object]
  exact ⟨GoMap.lookup_foldl_entries m,
    GoMap.perm_of_lookup_eq m _ (GoMap.lookup_foldl_entries m)⟩

theorem save_reload (s : FileStore) :
    ∃ data, FileStore.save s none = (none, some data) ∧
      ∃ doc, json.Unmarshal data = some doc ∧
        ∃ s', NewFileStoreOn (some (File.document doc)) = Except.ok s' ∧
          ((∀ id, s'.Middlewares.lookup id = s.Middlewares.lookup id) ∧
            s'.Middlewares.entries.Perm s.Middlewares.entries) ∧
          ((∀ id, s'.Routers.lookup id = s.Routers.lookup id) ∧
            s'.Routers.entries.Perm s.Routers.entries) ∧
          ((∀ id, s'.Services.lookup id = s.Services.lookup id) ∧
            s'.Services.entries.Perm s.Services.entries) :=
  ⟨_, rfl, _, json.Unmarshal_MarshalIndent s, _, rfl, reload_field s.Middlewares,
    reload_field s.Routers, reload_field s.Services⟩

/-- C37: `Save` followed by the creation of a new store on the written file
gives back the aggregate.  For every store state, and so for every state
reached by create, update and delete calls, `Save` writes the JSON document of
the three maps, each record encoded by its struct tags; `json.Unmarshal`
decodes that document without error, and `NewFileStore` on it succeeds with the
same records under the same IDs: `Get` and `Exists` agree for every ID and
each `List` holds the same records up to order.  The last part shows the
encoding of the sample service, with its empty fields left out, the decoding
of a service that holds two services, and two values the decoder refuses. -/
theorem save_load_round_trip :
    (∀ s : FileStore, ∃ data, FileStore.save s none = (none, some data) ∧
      ∃ doc, json.Unmarshal data = some doc ∧
        ∃ s', NewFileStoreOn (some (File.document doc)) = Except.ok s' ∧
          ((∀ id, GetMiddleware s' id = GetMiddleware s id) ∧
            (∀ id, MiddlewareExists s' id = MiddlewareExists s id) ∧
            (ListMiddlewares s').Perm (ListMiddlewares s)) ∧
          ((∀ id, GetRouter s' id = GetRouter s id) ∧
            (∀ id, RouterExists s' id = RouterExists s id) ∧
            (ListRouters s').Perm (ListRouters s)) ∧
          ((∀ id, GetService s' id = GetService s id) ∧
            (∀ id, ServiceExists s' id = ServiceExists s id) ∧
            (ListServices s').Perm (ListServices s))) ∧
    (∀ ops : List Op, ∃ data, FileStore.save (run NewFileStore ops) none = (none, some data) ∧
      ∃ doc, json.Unmarshal data = some doc ∧
        ∃ s', NewFileStoreOn (some (File.document doc)) = Except.ok s' ∧
          (ListMiddlewares s').Perm (ListMiddlewares (run NewFileStore ops)) ∧
          (ListRouters s').Perm (ListRouters (run NewFileStore ops)) ∧
          (ListServices s').Perm (ListServices (run NewFileStore ops))) ∧
    (json.encodeService Sample.service =
        JSONValue.object
          [("id", JSONValue.string "s1"), ("url", JSONValue.string "http://b:80")] ∧
      json.decodeService 2 (json.encodeService Sample.service) = some Sample.service ∧
      json.decodeService 4 (json.encodeService Sample.failoverService) =
        some Sample.failoverService ∧
      json.decodeService 2 (JSONValue.object [("id", JSONValue.number 5)]) = none ∧
      json.Unmarshal (JSONValue.array []) = none) := by
  have key : ∀ s : FileStore, ∃ data, FileStore.save s none = (none, some data) ∧
      ∃ doc, json.Unmarshal data = some doc ∧
        ∃ s', NewFileStoreOn (some (File.document doc)) = Except.ok s' ∧
          ((∀ id, GetMiddleware s' id = GetMiddleware s id) ∧
            (∀ id, MiddlewareExists s' id = MiddlewareExists s id) ∧
            (ListMiddlewares s').Perm (ListMiddlewares s)) ∧
          ((∀ id, GetRouter s' id = GetRouter s id) ∧
            (∀ id, RouterExists s' id = RouterExists s id) ∧
            (ListRouters s').Perm (ListRouters s)) ∧
          ((∀ id, GetService s' id = GetService s id) ∧
            (∀ id, ServiceExists s' id = ServiceExists s id) ∧
            (ListServices s').Perm (ListServices s)) := by
    intro s
    obtain ⟨data, hsave, doc, hdoc, s', hnew, ⟨hm, pm⟩, ⟨hr, pr⟩, ⟨hs, ps⟩⟩ := save_reload s
    refine ⟨data, hsave, doc, hdoc, s', hnew, ⟨?_, ?_, ?_⟩, ⟨?_, ?_, ?_⟩, ⟨?_, ?_, ?_⟩⟩
    · intro id; simp only [GetMiddleware, hm id]
    · intro id; simp only [MiddlewareExists, hm id]
    · exact pm.map _
    · intro id; simp only [GetRouter, hr id]
    · intro id; simp only [RouterExists, hr id]
    · exact pr.map _
    · intro id; simp only [GetService, hs id]
    · intro id; simp only [ServiceExists, hs id]
    · exact ps.map _
  refine ⟨key, ?_, ?_⟩
  · intro ops
    obtain ⟨data, hsave, doc, hdoc, s', hnew, ⟨_, _, pm⟩, ⟨_, _, pr⟩, ⟨_, _, ps⟩⟩ :=
      key (run NewFileStore ops)
    exact ⟨data, hsave, doc, hdoc, s', hnew, pm, pr, ps⟩
  · exact ⟨rfl, json.decodeService_encode 2 Sample.service (by decide),
      json.decodeService_encode 4 Sample.failoverService (by decide), rfl, rfl⟩

theorem not_refsOK_of_dangling (s : FileStore) (id : String) (r : Router)
    (h : s.Routers.lookup id = some r) (hs : ServiceExists s r.Service.ID = false) :
    ¬ RefsOK s := by
  intro hok
  have hm := (hok id r h).1
  rw [← GoMap.isSome_lookup] at hm
  unfold ServiceExists at hs
  rw [hs] at hm
  cases hm

/-- C40: `Load` checks no reference.  Every document loads into a fresh store
without error; the document that holds only the router `r1`, which names the
service `s1` and the middleware `m1`, loads into a store where `r1` exists and
neither `s1` nor `m1` does, so that referential integrity fails there.  From a
store that satisfies it, create, update and delete calls reach only stores that
satisfy it. -/
theorem load_skips_reference_validation :
    (∀ doc : Snapshot, ∃ s, NewFileStoreOn (some (File.document doc)) = Except.ok s) ∧
    (∃ s, NewFileStoreOn (some (File.document Sample.routersOnlySnapshot)) = Except.ok s ∧
      RouterExists s "r1" = true ∧
      (s.Routers.lookup "r1").map (fun r => r.Service.ID) = some "s1" ∧
      (s.Routers.lookup "r1").map (fun r => r.Middlewares.map (fun mw => mw.ID)) =
        some ["m1", "m1"] ∧
      ServiceExists s "s1" = false ∧ MiddlewareExists s "m1" = false ∧ ¬ RefsOK s) ∧
    (∀ (s : FileStore) (ops : List Op), RefsOK s → RefsOK (run s ops)) := by
  refine ⟨fun doc => ⟨_, rfl⟩, ⟨_, rfl, by decide, by decide, by decide, by decide, by decide, ?_⟩,
    fun s ops h => refsOK_run ops s h⟩
  exact not_refsOK_of_dangling _ "r1" Sample.router rfl rfl

theorem RouterHandler_Update_ok (s : FileStore) (id : String)
    (requestData : List (String × JSONValue))
    (h : (RouterHandler.Update s id (some requestData)).1.status = 200) :
    (UpdateRouter s id (parseRouterUpdate id requestData)).1 = none ∧
      (RouterHandler.Update s id (some requestData)).2 =
        (UpdateRouter s id (parseRouterUpdate id requestData)).2 := by
  by_cases hrule : (parseRouterUpdate id requestData).Rule = ""
  · rw [RouterHandler_Update_eq] at h
    have hb : ((parseRouterUpdate id requestData).Rule == "") = true := by simp [hrule]
    rw [if_pos hb] at h
    cases h
  · obtain ⟨herr, hok⟩ := RouterHandler_Update_of_rule s id requestData hrule
    cases hu : (UpdateRouter s id (parseRouterUpdate id requestData)).1 with
    | none =>
      refine ⟨rfl, ?_⟩
      rw [hok _ (Prod.ext hu rfl)]
    | some err =>
      rw [herr err _ (Prod.ext hu rfl)] at h
      split at h <;> cases h

/-- C38: `PUT /routers/:id` reads neither `priority` nor `tls` nor
`observability`.  After every update answered 200 the router stored under the
path ID has priority 0, no TLS block and no observability block, whatever the
body and the previously stored router held.  In the sample, `r9` is created by
`POST` with priority 5, a TLS block and an observability block, and loses all
three through a `PUT` whose body carries them again. -/
theorem put_router_drops_priority_tls_observability :
    (∀ (s : FileStore) (id : String) (requestData : List (String × JSONValue)),
      (RouterHandler.Update s id (some requestData)).1.status = 200 →
      ∃ r, (RouterHandler.Update s id (some requestData)).2.Routers.lookup id = some r ∧
        r.Priority = 0 ∧ r.TLS = none ∧ r.Observability = none) ∧
    ((Sample.prioritisedStore.Routers.lookup "r9").map
        (fun r => (r.Priority, r.TLS, r.Observability)) =
        some (5, some { CertResolver := "le" }, some { Metrics := true }) ∧
      (RouterHandler.Update Sample.prioritisedStore "r9"
        (some Sample.prioritisedUpdate)).1.status = 200 ∧
      ((RouterHandler.Update Sample.prioritisedStore "r9"
        (some Sample.prioritisedUpdate)).2.Routers.lookup "r9").map
        (fun r => (r.Rule, r.Priority, r.TLS, r.Observability)) =
        some ("Host(b)", 0, none, none)) := by
  refine ⟨?_, by decide⟩
  intro s id requestData h
  obtain ⟨hnone, hs⟩ := RouterHandler_Update_ok s id requestData h
  obtain ⟨prev, _, _, _, hst⟩ := UpdateRouter_success s id _ hnone
  rw [hs, hst]
  exact ⟨_, AList.lookup_insert _, rfl, rfl, rfl⟩

theorem parseMiddlewaresField_append (pre post : List JSONValue) :
    parseMiddlewaresField (JSONValue.array (pre ++ post)) =
      parseMiddlewaresField (JSONValue.array pre) ++
        parseMiddlewaresField (JSONValue.array post) := by
  simp only [parseMiddlewaresField, JSONValue.asArray, List.filterMap_append]

theorem parseMiddlewaresField_cons_string (id : String) (post : List JSONValue) :
    parseMiddlewaresField (JSONValue.array (JSONValue.string id :: post)) =
      { ID := id } :: parseMiddlewaresField (JSONValue.array post) := by
  simp only [parseMiddlewaresField, JSONValue.asArray, List.filterMap_cons]

theorem parseMiddlewaresField_cons_object (mwMap : List (String × JSONValue)) (id : String)
    (post : List JSONValue) (h : JSONValue.index mwMap "id" = JSONValue.string id) :
    parseMiddlewaresField (JSONValue.array (JSONValue.object mwMap :: post)) =
      { ID := id } :: parseMiddlewaresField (JSONValue.array post) := by
  simp only [parseMiddlewaresField, JSONValue.asArray, List.filterMap_cons, h,
    JSONValue.asString]

theorem parseMiddlewaresField_cons_other (e : JSONValue) (post : List JSONValue)
    (hs : e.asString = none)
    (ho : ∀ mwMap, e = JSONValue.object mwMap → (JSONValue.index mwMap "id").asString = none) :
    parseMiddlewaresField (JSONValue.array (e :: post)) =
      parseMiddlewaresField (JSONValue.array post) := by
  cases e with
  | string s => simp [JSONValue.asString] at hs
  | object m =>
    have := ho m rfl
    simp only [parseMiddlewaresField, JSONValue.asArray, List.filterMap_cons, this]
  | null => simp only [parseMiddlewaresField, JSONValue.asArray, List.filterMap_cons]
  | bool b => simp only [parseMiddlewaresField, JSONValue.asArray, List.filterMap_cons]
  | number n => simp only [parseMiddlewaresField, JSONValue.asArray, List.filterMap_cons]
  | array a => simp only [parseMiddlewaresField, JSONValue.asArray, List.filterMap_cons]

/-- C39: the `middlewares` field of a router body is parsed element by
element, in order.  A string element and an object element with a string `id`
each give one middleware with that ID; any other element gives nothing, so the
parsed list is never longer than the array and can be shorter; a value that is
not an array gives no middleware.  In the sample, `POST /routers` with four
listed elements, one of them well shaped, is answered 201 and stores `r1` with
the single middleware `m1`. -/
theorem router_body_drops_ill_shaped_middlewares :
    (∀ (pre post : List JSONValue) (id : String),
      parseMiddlewaresField (JSONValue.array (pre ++ JSONValue.string id :: post)) =
        parseMiddlewaresField (JSONValue.array pre) ++
          { ID := id } :: parseMiddlewaresField (JSONValue.array post)) ∧
    (∀ (pre post : List JSONValue) (mwMap : List (String × JSONValue)) (id : String),
      JSONValue.index mwMap "id" = JSONValue.string id →
      parseMiddlewaresField (JSONValue.array (pre ++ JSONValue.object mwMap :: post)) =
        parseMiddlewaresField (JSONValue.array pre) ++
          { ID := id } :: parseMiddlewaresField (JSONValue.array post)) ∧
    (∀ (pre post : List JSONValue) (e : JSONValue), e.asString = none →
      (∀ mwMap, e = JSONValue.object mwMap → (JSONValue.index mwMap "id").asString = none) →
      parseMiddlewaresField (JSONValue.array (pre ++ e :: post)) =
        parseMiddlewaresField (JSONValue.array pre) ++
          parseMiddlewaresField (JSONValue.array post)) ∧
    parseMiddlewaresField (JSONValue.array []) = [] ∧
    (∀ elems : List JSONValue,
      (parseMiddlewaresField (JSONValue.array elems)).length ≤ elems.length) ∧
    (∀ v : JSONValue, v.asArray = none → parseMiddlewaresField v = []) ∧
    ((parseMiddlewaresField (JSONValue.array Sample.mixedMiddlewares)).map (fun mw => mw.ID) =
        ["m1"] ∧
      Sample.mixedMiddlewares.length = 4 ∧
      (RouterHandler.Create Sample.setupStore (some Sample.mixedBody)).1.status = 201 ∧
      ((RouterHandler.Create Sample.setupStore (some Sample.mixedBody)).2.Routers.lookup
        "r1").map (fun r => r.Middlewares.map (fun mw => mw.ID)) = some ["m1"]) := by
  refine ⟨?_, ?_, ?_, rfl, ?_, ?_, by decide⟩
  · intro pre post id
    rw [parseMiddlewaresField_append, parseMiddlewaresField_cons_string]
  · intro pre post mwMap id h
    rw [parseMiddlewaresField_append, parseMiddlewaresField_cons_object mwMap id post h]
  · intro pre post e hs ho
    rw [parseMiddlewaresField_append, parseMiddlewaresField_cons_other e post hs ho]
  · intro elems
    simp only [parseMiddlewaresField, JSONValue.asArray]
    exact List.length_filterMap_le _ _
  · intro v hv
    simp only [parseMiddlewaresField, hv]

end Theorems
